import Mathlib

/-!
# Printalyzer densitometer: desktop calibration / measurement handlers

A shallow embedding of the parts of `software/desktop/src/mainwindow.cpp` that
read, validate and send calibration records and that clean up density readings,
together with the C `float` (IEEE-754 binary32) arithmetic and the Qt text
conversions those handlers rely on.

Layout: the numeric model (`F32`, decimal text), the data model (`DensCal*`
records, `Ui`, `DensInterface`, `MainWindow`), the handlers, then the theorems.
-/

/-! ## IEEE-754 binary32 -/

/-- A C `float`: the sign bit and the 31-bit magnitude pattern (8 exponent bits
followed by 23 fraction bits).  Two values are equal exactly when they are
bit-identical. -/
structure F32 where
  sign : Bool
  mag : Fin 2147483648
deriving DecidableEq, Repr

namespace F32

/-- Magnitude pattern of infinity, `0x7F800000`; larger patterns are NaNs. -/
def infMag : Nat := 2139095040

/-- Saturating conversion of a natural number to a magnitude pattern: anything at
or above the pattern of infinity is infinity. -/
def mkMag (n : Nat) : Fin 2147483648 :=
  if h : n < infMag then ⟨n, Nat.lt_trans h (by decide)⟩ else ⟨infMag, by decide⟩

def isNaN (x : F32) : Bool := decide (infMag < x.mag.val)

def isInf (x : F32) : Bool := decide (x.mag.val = infMag)

def isFinite (x : F32) : Bool := decide (x.mag.val < infMag)

/-- The value denoted by a magnitude pattern, counted in units of `2^-149` (the
smallest subnormal).  Subnormals and the first binade count themselves; above
that the 24-bit significand is shifted by the exponent.  The pattern of infinity
is given the value `2^128`, which is what round-to-nearest treats it as. -/
def units (n : Nat) : Nat :=
  if n / 8388608 = 0 then n else (8388608 + n % 8388608) * 2 ^ (n / 8388608 - 1)

/-- Signed value in units of `2^-149` (meaningful when the float is not a NaN). -/
def sval (x : F32) : Int :=
  if x.sign then -((units x.mag.val : Nat) : Int) else ((units x.mag.val : Nat) : Int)

/-- C `x < y` on floats: false as soon as one side is a NaN. -/
def lt (x y : F32) : Bool := !x.isNaN && !y.isNaN && decide (x.sval < y.sval)

/-- C `x <= y` on floats. -/
def le (x y : F32) : Bool := !x.isNaN && !y.isNaN && decide (x.sval ≤ y.sval)

/-- C `x >= y` on floats. -/
def ge (x y : F32) : Bool := le y x

/-- C `x == y` on floats: NaN equals nothing, `-0.0 == 0.0`. -/
def feq (x y : F32) : Bool := !x.isNaN && !y.isNaN && decide (x.sval = y.sval)

/-- C `x != y` on floats. -/
def fne (x y : F32) : Bool := !feq x y

/-- Unary minus flips the sign bit. -/
def neg (x : F32) : F32 := ⟨!x.sign, x.mag⟩

/-- IEEE `fabs`: clears the sign bit. -/
def abs (x : F32) : F32 := ⟨false, x.mag⟩

/-- Literal `0.0F`. -/
def zero : F32 := ⟨false, 0⟩

/-- Literal `1.0F` (`0x3F800000`). -/
def one : F32 := ⟨false, 1065353216⟩

/-- Literal `0.01F` (`0x3C23D70A`), the float nearest to one hundredth. -/
def hundredth : F32 := ⟨false, 1008981770⟩

/-- The default quiet NaN (`0x7FC00000`), as produced by `qSNaN()`/invalid operations
(the payload of a NaN is never inspected by the program). -/
def nan : F32 := ⟨false, 2143289344⟩

def inf (s : Bool) : F32 := ⟨s, ⟨infMag, by decide⟩⟩

/-- Binary search, from bit `k-1` downwards, for the largest magnitude pattern
`n ≥ acc` whose value does not exceed `num / den` units. -/
def floorMagAux (num den : Nat) : Nat → Nat → Nat
  | 0, acc => acc
  | k + 1, acc =>
    if units (acc + 2 ^ k) * den ≤ num then floorMagAux num den k (acc + 2 ^ k)
    else floorMagAux num den k acc

/-- Round-to-nearest, ties-to-even: the magnitude pattern of the float nearest to
`num / den` units of `2^-149`.  The result may be `2^31` or a pattern above
infinity when the value is out of range; `mkMag` turns it into infinity. -/
def roundMag (num den : Nat) : Nat :=
  let n := floorMagAux num den 31 0
  let lo := units n * den
  let hi := units (n + 1) * den
  if 2 * num < lo + hi then n
  else if lo + hi < 2 * num then n + 1
  else if n % 2 = 0 then n else n + 1

/-- IEEE addition in round-to-nearest-even. -/
def add (x y : F32) : F32 :=
  if x.isNaN || y.isNaN then nan
  else if x.isInf then (if y.isInf && (x.sign != y.sign) then nan else x)
  else if y.isInf then y
  else
    let k := x.sval + y.sval
    if k = 0 then ⟨x.sign && y.sign, 0⟩
    else ⟨decide (k < 0), mkMag (roundMag k.natAbs 1)⟩

/-- IEEE subtraction, `x - y = x + (-y)`. -/
def sub (x y : F32) : F32 := add x (neg y)

end F32

/-- Qt `qIsNaN(float)`. -/
def qIsNaN (x : F32) : Bool := x.isNaN

/-- Qt `qAbs`, which is `t >= 0 ? t : -t`. -/
def qAbs (t : F32) : F32 := if F32.ge t F32.zero then t else F32.neg t

/-! ## Qt text conversions

`QString` values are lists of characters.  Number parsing covers the plain decimal
notation of the C locale (`[+-]digits[.digits]`) and the words `nan`, `inf`, `+inf`
and `-inf`, which are all the texts that `QString::number(x, 'f', prec)` produces; the
exponent notation, other spellings of these words and surrounding white space, which
Qt also accepts, are not modelled and count as unparsable text. -/

abbrev QString := List Char

/-- A parsed decimal numeral: `(-1)^neg * digits / 10^scale`. -/
structure Dec where
  neg : Bool
  digits : Nat
  scale : Nat
deriving DecidableEq, Repr

namespace Dec

/-- Numerator as a signed integer. -/
def toInt (d : Dec) : Int := if d.neg then -(d.digits : Int) else (d.digits : Int)

/-- Exact comparison of two decimal numerals (cross-multiplied). -/
def le (a b : Dec) : Bool := decide (a.toInt * 10 ^ b.scale ≤ b.toInt * 10 ^ a.scale)

/-- The integer `n` as a decimal numeral. -/
def ofNat (n : Nat) : Dec := ⟨false, n, 0⟩

end Dec

def digitChar (d : Nat) : Char := Char.ofNat (48 + d)

def digitVal (c : Char) : Option Nat :=
  if 48 ≤ c.toNat ∧ c.toNat ≤ 57 then some (c.toNat - 48) else none

/-- Reads a run of decimal digits onto the accumulator; `none` on any other character. -/
def parseDigits : List Char → Nat → Option Nat
  | [], acc => some acc
  | c :: cs, acc =>
    match digitVal c with
    | some d => parseDigits cs (acc * 10 + d)
    | none => none

/-- Splits at the first `.`: the part before it and, when there is one, the part after. -/
def splitAtDot : List Char → List Char × Option (List Char)
  | [] => ([], none)
  | c :: cs =>
    if c = '.' then ([], some cs)
    else ((c :: (splitAtDot cs).1), (splitAtDot cs).2)

/-- Parses an unsigned decimal numeral `digits[.digits]` with at least one digit. -/
def parseUnsigned (neg : Bool) (s : List Char) : Option Dec :=
  match splitAtDot s with
  | (ip, none) =>
    if ip.isEmpty then none else (parseDigits ip 0).map fun n => ⟨neg, n, 0⟩
  | (ip, some fp) =>
    if ip.isEmpty && fp.isEmpty then none
    else (parseDigits (ip ++ fp) 0).map fun n => ⟨neg, n, fp.length⟩

/-- Parses `[+-]digits[.digits]`. -/
def parseDec : QString → Option Dec
  | '-' :: cs => parseUnsigned true cs
  | '+' :: cs => parseUnsigned false cs
  | cs => parseUnsigned false cs

/-- The float nearest to a decimal numeral, as a magnitude pattern (not yet saturated). -/
def Dec.roundMag (d : Dec) : Nat := F32.roundMag (d.digits * 2 ^ 149) (10 ^ d.scale)

/-- Qt `QString::toFloat(bool *ok)`: the parsed value and the `ok` flag.  The word `nan`
gives the quiet NaN and the words `inf`, `+inf` and `-inf` give the infinities, with
`ok = true`.  Unparsable text gives `0.0` with `ok = false`; a decimal too large for a
float gives infinity with `ok = false`. -/
def toFloat (s : QString) : F32 × Bool :=
  if s = ['n', 'a', 'n'] then (F32.nan, true)
  else if s = ['i', 'n', 'f'] ∨ s = ['+', 'i', 'n', 'f'] then (F32.inf false, true)
  else if s = ['-', 'i', 'n', 'f'] then (F32.inf true, true)
  else
    match parseDec s with
    | none => (F32.zero, false)
    | some d =>
      if F32.infMag ≤ d.roundMag then (F32.inf d.neg, false)
      else (⟨d.neg, F32.mkMag d.roundMag⟩, true)

/-- Parses `[+-]digits` with at least one digit. -/
def parseInt : QString → Option Int
  | '-' :: cs => if cs.isEmpty then none else (parseDigits cs 0).map fun n => -(n : Int)
  | '+' :: cs => if cs.isEmpty then none else (parseDigits cs 0).map fun n => (n : Int)
  | cs => if cs.isEmpty then none else (parseDigits cs 0).map fun n => (n : Int)

/-- Qt `QString::toInt(bool *ok)`: an optionally signed run of digits within the range
of a 32-bit `int`; otherwise `0` with `ok = false`. -/
def toInt (s : QString) : Int × Bool :=
  match parseInt s with
  | none => (0, false)
  | some n => if -2147483648 ≤ n ∧ n ≤ 2147483647 then (n, true) else (0, false)

/-- The `k` low decimal digits of `n`, most significant first. -/
def digitsFixed : Nat → Nat → List Char
  | 0, _ => []
  | k + 1, n => digitsFixed k (n / 10) ++ [digitChar (n % 10)]

/-- Decimal digits of `n < 10^39` without leading zeros (`"0"` for zero). -/
def intDigits (n : Nat) : List Char :=
  match (digitsFixed 39 n).dropWhile (fun c => c == '0') with
  | [] => ['0']
  | ds => ds

/-- The magnitude of a finite float times `10^prec`, rounded to the nearest integer
(halves away from zero). -/
def F32.scaled (x : F32) (prec : Nat) : Nat :=
  (2 * (F32.units x.mag.val * 10 ^ prec) + 2 ^ 149) / (2 * 2 ^ 149)

/-- Qt `QString::number(double(x), 'f', prec)`: fixed notation with `prec` digits after
the decimal point. -/
def number_f (x : F32) (prec : Nat) : QString :=
  if x.isNaN then ['n', 'a', 'n']
  else if x.isInf then (if x.sign then ['-', 'i', 'n', 'f'] else ['i', 'n', 'f'])
  else
    (if x.sign then ['-'] else []) ++ intDigits (x.scaled prec / 10 ^ prec)
      ++ (if prec = 0 then [] else '.' :: digitsFixed prec (x.scaled prec % 10 ^ prec))

/-- Qt `QString::number(int)`. -/
def number_i (n : Int) : QString :=
  (if n < 0 then ['-'] else []) ++ intDigits n.natAbs

/-- Left-pads with spaces to a field width, as `QString::arg(value, fieldWidth, ...)`. -/
def padLeft (width : Nat) (s : QString) : QString :=
  List.replicate (width - s.length) ' ' ++ s

/-! ## Validators

`util::createIntValidator` and `util::createFloatValidator` are declared in `util.h`,
outside the sources at hand; the constructor of `MainWindow` calls them with the
ranges below. -/

/-- A validator attached to a line edit. -/
inductive Validator where
  | intRange (min max : Int)
  | floatRange (min max : Dec) (decimals : Nat)
deriving DecidableEq, Repr

/-- Modelled from the spec: `util::createIntValidator(min, max)` (util.h is not among
the sources) is a range validator for integers in `[min, max]`. -/
def createIntValidator (min max : Int) : Validator := Validator.intRange min max

/-- Modelled from the spec: `util::createFloatValidator(min, max, decimals)` (util.h is
not among the sources) is a range validator for decimal numbers in `[min, max]`
written in standard notation with at most `decimals` digits after the point. -/
def createFloatValidator (min max : Dec) (decimals : Nat) : Validator :=
  Validator.floatRange min max decimals

/-- Whether a validator finds a text acceptable. -/
def Validator.acceptable : Validator → QString → Bool
  | Validator.intRange min max, s =>
    match parseInt s with
    | none => false
    | some n => decide (min ≤ n) && decide (n ≤ max)
  | Validator.floatRange min max decimals, s =>
    match parseDec s with
    | none => false
    | some d => decide (d.scale ≤ decimals) && Dec.le min d && Dec.le d max

/-! ## Data model -/

/-- Record `DensCalLight`: LED drive levels. -/
structure DensCalLight where
  reflectionValue : Int
  transmissionValue : Int
deriving DecidableEq, Repr

/-- Modelled from the spec: `DensCalLight::isValid()` (denscalvalues.h is not among the
sources); a `CalLight` is valid only when both fields are in `[1, 128]`. -/
def DensCalLight.isValid (c : DensCalLight) : Bool :=
  decide (1 ≤ c.reflectionValue) && decide (c.reflectionValue ≤ 128)
    && decide (1 ≤ c.transmissionValue) && decide (c.transmissionValue ≤ 128)

/-- Record `DensCalGain`: per-channel gain ratios. -/
structure DensCalGain where
  low0 : F32
  low1 : F32
  med0 : F32
  med1 : F32
  high0 : F32
  high1 : F32
  max0 : F32
  max1 : F32
deriving DecidableEq, Repr

/-- Record `DensCalSlope`: coefficients of the slope correction. -/
structure DensCalSlope where
  b0 : F32
  b1 : F32
  b2 : F32
deriving DecidableEq, Repr

/-- Record `DensCalTarget`: two-point density calibration of one light path. -/
structure DensCalTarget where
  loDensity : F32
  loReading : F32
  hiDensity : F32
  hiReading : F32
deriving DecidableEq, Repr

/-- Enum `DensInterface::DensityType`, the three values used by the main window. -/
inductive DensityType where
  | DensityReflection
  | DensityTransmission
  | DensityUnknown
deriving DecidableEq, Repr

/-- A call made on the device interface that puts a request on the wire. -/
inductive Request where
  | sendSetCalLight (calLight : DensCalLight)
  | sendSetCalGain (calGain : DensCalGain)
  | sendSetCalSlope (calSlope : DensCalSlope)
  | sendSetCalReflection (calTarget : DensCalTarget)
  | sendSetCalTransmission (calTarget : DensCalTarget)
  | sendGetCalLight
  | sendGetCalGain
  | sendGetCalSlope
  | sendGetCalReflection
  | sendGetCalTransmission
deriving DecidableEq, Repr

/-- Class `DensInterface` as the main window sees it: the connection flag, the calibration
records last read from the device, and the requests sent so far (oldest first). -/
structure DensInterface where
  connected : Bool
  calLight : DensCalLight
  calGain : DensCalGain
  calSlope : DensCalSlope
  calReflection : DensCalTarget
  calTransmission : DensCalTarget
  sent : List Request
deriving DecidableEq, Repr

/-- Records a request as sent. -/
def DensInterface.send (d : DensInterface) (r : Request) : DensInterface :=
  { d with sent := d.sent ++ [r] }

/-- A `QLineEdit`: its text and the flags the main window reads or writes.  `dirty` is
the yellow highlight set through the style sheet. -/
structure QLineEdit where
  text : QString
  readOnly : Bool
  enabled : Bool
  hasFocus : Bool
  dirty : Bool
deriving DecidableEq, Repr

/-- Qt `QLineEdit::hasAcceptableInput()` for a line edit carrying the given validator. -/
def QLineEdit.hasAcceptableInput (v : Validator) (e : QLineEdit) : Bool :=
  v.acceptable e.text

/-- The tabs of the main window. -/
inductive Tab where
  | tabMeasurement
  | tabCalibration
  | tabDiagnostics
deriving DecidableEq, Repr

/-- One row of the measurement model: the text of the item in each of the three
columns (mode, measurement, offset), `none` where the cell has no item. -/
structure MeasRow where
  mode : Option QString
  meas : Option QString
  offset : Option QString
deriving DecidableEq, Repr

/-- A `QModelIndex` of the measurement table; the invalid index has row and column `-1`. -/
structure QModelIndex where
  row : Int
  column : Int
deriving DecidableEq, Repr

/-- What `QAbstractItemView::setCurrentIndex` does to the selection of the measurement
table view: the selected indexes afterwards, from the selected indexes before and the
index made current.  Qt derives it from the selection mode and the selection behaviour
of the view, which are set in the form file, and from the flags of the items; with
the mode `NoSelection` the selection is left as it is, otherwise "the item is also
selected". -/
abbrev SelectionCommand := List QModelIndex → QModelIndex → List QModelIndex

/-- The widgets of `Ui::MainWindow` that the embedded handlers touch.  `measSelected` and
`measCurrent` are the selected indexes and the current index of the selection model of
the measurement table view, `measSelectionCommand` is the selection policy of that
view, `horizCopyRadioButton` tells whether that radio button is the checked one of its
group, and the four `action` fields are the enabled states of the edit actions. -/
structure Ui where
  tabWidget : Tab
  readingTypeNameLabel : QString
  zeroIndicatorShown : Bool
  zeroIndicatorToolTip : QString
  readingValueLineEdit : QString
  addReadingPushButton : Bool
  autoAddPushButton : Bool
  actionImportSettings : Bool
  actionExportSettings : Bool
  refreshSensorsPushButton : Bool
  screenshotButton : Bool
  remotePushButton : Bool
  calGetAllPushButton : Bool
  lightGetPushButton : Bool
  gainCalPushButton : Bool
  gainGetPushButton : Bool
  slopeGetPushButton : Bool
  reflGetPushButton : Bool
  tranGetPushButton : Bool
  lightSetPushButton : Bool
  gainSetPushButton : Bool
  slopeSetPushButton : Bool
  reflSetPushButton : Bool
  tranSetPushButton : Bool
  reflLightLineEdit : QLineEdit
  tranLightLineEdit : QLineEdit
  low0LineEdit : QLineEdit
  low1LineEdit : QLineEdit
  med0LineEdit : QLineEdit
  med1LineEdit : QLineEdit
  high0LineEdit : QLineEdit
  high1LineEdit : QLineEdit
  max0LineEdit : QLineEdit
  max1LineEdit : QLineEdit
  b0LineEdit : QLineEdit
  b1LineEdit : QLineEdit
  b2LineEdit : QLineEdit
  reflLoDensityLineEdit : QLineEdit
  reflLoReadingLineEdit : QLineEdit
  reflHiDensityLineEdit : QLineEdit
  reflHiReadingLineEdit : QLineEdit
  tranLoDensityLineEdit : QLineEdit
  tranLoReadingLineEdit : QLineEdit
  tranHiDensityLineEdit : QLineEdit
  tranHiReadingLineEdit : QLineEdit
  measSelected : List QModelIndex
  measCurrent : QModelIndex
  measSelectionCommand : SelectionCommand
  horizCopyRadioButton : Bool
  actionCut : Bool
  actionCopy : Bool
  actionPaste : Bool
  actionDelete : Bool

/-- The state of `MainWindow` used by the embedded handlers. -/
structure MainWindow where
  ui : Ui
  densInterface_ : DensInterface
  measModel_ : List MeasRow
  lastReadingType_ : DensityType
  lastReadingDensity_ : F32
  lastReadingOffset_ : F32
  remoteDialog_ : Bool

/-- One validator per validated line edit, by the name of the line edit. -/
structure Validators where
  reflLightLineEdit : Validator
  tranLightLineEdit : Validator
  med0LineEdit : Validator
  med1LineEdit : Validator
  high0LineEdit : Validator
  high1LineEdit : Validator
  max0LineEdit : Validator
  max1LineEdit : Validator
  b0LineEdit : Validator
  b1LineEdit : Validator
  b2LineEdit : Validator
  reflLoDensityLineEdit : Validator
  reflLoReadingLineEdit : Validator
  reflHiDensityLineEdit : Validator
  reflHiReadingLineEdit : Validator
  tranLoReadingLineEdit : Validator
  tranHiDensityLineEdit : Validator
  tranHiReadingLineEdit : Validator

/-- The validators installed by the constructor (mainwindow.cpp, lines 67-108); they
are never replaced afterwards.  The low0, low1 and transmission lo-density line
edits carry none. -/
def validators : Validators where
  reflLightLineEdit := createIntValidator 1 128
  tranLightLineEdit := createIntValidator 1 128
  med0LineEdit := createFloatValidator (Dec.ofNat 22) (Dec.ofNat 27) 6
  med1LineEdit := createFloatValidator (Dec.ofNat 22) (Dec.ofNat 27) 6
  high0LineEdit := createFloatValidator (Dec.ofNat 360) (Dec.ofNat 440) 6
  high1LineEdit := createFloatValidator (Dec.ofNat 360) (Dec.ofNat 440) 6
  max0LineEdit := createFloatValidator (Dec.ofNat 8500) (Dec.ofNat 9900) 6
  max1LineEdit := createFloatValidator (Dec.ofNat 9100) (Dec.ofNat 10700) 6
  b0LineEdit := createFloatValidator ⟨true, 100, 0⟩ (Dec.ofNat 100) 6
  b1LineEdit := createFloatValidator ⟨true, 100, 0⟩ (Dec.ofNat 100) 6
  b2LineEdit := createFloatValidator ⟨true, 100, 0⟩ (Dec.ofNat 100) 6
  reflLoDensityLineEdit := createFloatValidator (Dec.ofNat 0) ⟨false, 25, 1⟩ 2
  reflLoReadingLineEdit := createFloatValidator (Dec.ofNat 0) (Dec.ofNat 500) 6
  reflHiDensityLineEdit := createFloatValidator (Dec.ofNat 0) ⟨false, 25, 1⟩ 2
  reflHiReadingLineEdit := createFloatValidator (Dec.ofNat 0) (Dec.ofNat 500) 6
  tranLoReadingLineEdit := createFloatValidator (Dec.ofNat 0) (Dec.ofNat 500) 6
  tranHiDensityLineEdit := createFloatValidator (Dec.ofNat 0) (Dec.ofNat 5) 2
  tranHiReadingLineEdit := createFloatValidator (Dec.ofNat 0) (Dec.ofNat 500) 6

/-! ## Handlers of `MainWindow` -/

namespace MainWindow

/-- Qt `QString("%1").arg(value, 4, 'f', 2)`. -/
def arg_4_f_2 (value : F32) : QString := padLeft 4 (number_f value 2)

/-- Method `updateLineEditDirtyState(lineEdit, int value)`: the highlight is cleared when the
text is empty or equals the device value as text, and set otherwise. -/
def updateLineEditDirtyStateInt (lineEdit : QLineEdit) (value : Int) : QLineEdit :=
  if lineEdit.text.isEmpty || decide (lineEdit.text = number_i value) then
    { lineEdit with dirty := false }
  else
    { lineEdit with dirty := true }

/-- Method `updateLineEditDirtyState(lineEdit, float value, int prec)`. -/
def updateLineEditDirtyState (lineEdit : QLineEdit) (value : F32) (prec : Nat) : QLineEdit :=
  if lineEdit.text.isEmpty || decide (lineEdit.text = number_f value prec) then
    { lineEdit with dirty := false }
  else
    { lineEdit with dirty := true }

def onCalLightTextChanged (w : MainWindow) : MainWindow :=
  let enable := w.densInterface_.connected
    && w.ui.reflLightLineEdit.hasAcceptableInput validators.reflLightLineEdit
    && w.ui.tranLightLineEdit.hasAcceptableInput validators.tranLightLineEdit
  let calLight := w.densInterface_.calLight
  { w with
    ui.lightSetPushButton := enable
    ui.reflLightLineEdit := updateLineEditDirtyStateInt w.ui.reflLightLineEdit calLight.reflectionValue
    ui.tranLightLineEdit := updateLineEditDirtyStateInt w.ui.tranLightLineEdit calLight.transmissionValue }

def onCalGainTextChanged (w : MainWindow) : MainWindow :=
  let enable := w.densInterface_.connected
    && !w.ui.low0LineEdit.text.isEmpty
    && !w.ui.low1LineEdit.text.isEmpty
    && w.ui.med0LineEdit.hasAcceptableInput validators.med0LineEdit
    && w.ui.med1LineEdit.hasAcceptableInput validators.med1LineEdit
    && w.ui.high0LineEdit.hasAcceptableInput validators.high0LineEdit
    && w.ui.high1LineEdit.hasAcceptableInput validators.high1LineEdit
    && w.ui.max0LineEdit.hasAcceptableInput validators.max0LineEdit
    && w.ui.max1LineEdit.hasAcceptableInput validators.max1LineEdit
  let calGain := w.densInterface_.calGain
  { w with
    ui.gainSetPushButton := enable
    ui.med0LineEdit := updateLineEditDirtyState w.ui.med0LineEdit calGain.med0 6
    ui.med1LineEdit := updateLineEditDirtyState w.ui.med1LineEdit calGain.med1 6
    ui.high0LineEdit := updateLineEditDirtyState w.ui.high0LineEdit calGain.high0 6
    ui.high1LineEdit := updateLineEditDirtyState w.ui.high1LineEdit calGain.high1 6
    ui.max0LineEdit := updateLineEditDirtyState w.ui.max0LineEdit calGain.max0 6
    ui.max1LineEdit := updateLineEditDirtyState w.ui.max1LineEdit calGain.max1 6 }

def onCalSlopeTextChanged (w : MainWindow) : MainWindow :=
  let enable := w.densInterface_.connected
    && w.ui.b0LineEdit.hasAcceptableInput validators.b0LineEdit
    && w.ui.b1LineEdit.hasAcceptableInput validators.b1LineEdit
    && w.ui.b2LineEdit.hasAcceptableInput validators.b2LineEdit
  let calSlope := w.densInterface_.calSlope
  { w with
    ui.slopeSetPushButton := enable
    ui.b0LineEdit := updateLineEditDirtyState w.ui.b0LineEdit calSlope.b0 6
    ui.b1LineEdit := updateLineEditDirtyState w.ui.b1LineEdit calSlope.b1 6
    ui.b2LineEdit := updateLineEditDirtyState w.ui.b2LineEdit calSlope.b2 6 }

def onCalReflectionTextChanged (w : MainWindow) : MainWindow :=
  let enable := w.densInterface_.connected
    && w.ui.reflLoDensityLineEdit.hasAcceptableInput validators.reflLoDensityLineEdit
    && w.ui.reflLoReadingLineEdit.hasAcceptableInput validators.reflLoReadingLineEdit
    && w.ui.reflHiDensityLineEdit.hasAcceptableInput validators.reflHiDensityLineEdit
    && w.ui.reflHiReadingLineEdit.hasAcceptableInput validators.reflHiReadingLineEdit
  let calTarget := w.densInterface_.calReflection
  { w with
    ui.reflSetPushButton := enable
    ui.reflLoDensityLineEdit := updateLineEditDirtyState w.ui.reflLoDensityLineEdit calTarget.loDensity 2
    ui.reflLoReadingLineEdit := updateLineEditDirtyState w.ui.reflLoReadingLineEdit calTarget.loReading 6
    ui.reflHiDensityLineEdit := updateLineEditDirtyState w.ui.reflHiDensityLineEdit calTarget.hiDensity 2
    ui.reflHiReadingLineEdit := updateLineEditDirtyState w.ui.reflHiReadingLineEdit calTarget.hiReading 6 }

def onCalTransmissionTextChanged (w : MainWindow) : MainWindow :=
  let enable := w.densInterface_.connected
    && !w.ui.tranLoDensityLineEdit.text.isEmpty
    && w.ui.tranLoReadingLineEdit.hasAcceptableInput validators.tranLoReadingLineEdit
    && w.ui.tranHiDensityLineEdit.hasAcceptableInput validators.tranHiDensityLineEdit
    && w.ui.tranHiReadingLineEdit.hasAcceptableInput validators.tranHiReadingLineEdit
  let calTarget := w.densInterface_.calTransmission
  { w with
    ui.tranSetPushButton := enable
    ui.tranLoReadingLineEdit := updateLineEditDirtyState w.ui.tranLoReadingLineEdit calTarget.loReading 6
    ui.tranHiDensityLineEdit := updateLineEditDirtyState w.ui.tranHiDensityLineEdit calTarget.hiDensity 2
    ui.tranHiReadingLineEdit := updateLineEditDirtyState w.ui.tranHiReadingLineEdit calTarget.hiReading 6 }

/-- The `textChanged` signal of a line edit: the connected slot runs when `setText`
really changed the text. -/
def textChanged (old new : QString) (slot : MainWindow → MainWindow) (w : MainWindow) :
    MainWindow :=
  if old = new then w else slot w

/-- The call `ui->med0LineEdit->setText(text)`, with the slot connected by the constructor. -/
def setText_med0LineEdit (text : QString) (w : MainWindow) : MainWindow :=
  textChanged w.ui.med0LineEdit.text text onCalGainTextChanged
    { w with ui.med0LineEdit.text := text }

/-- The call `ui->med1LineEdit->setText(text)`, with the slot connected by the constructor. -/
def setText_med1LineEdit (text : QString) (w : MainWindow) : MainWindow :=
  textChanged w.ui.med1LineEdit.text text onCalGainTextChanged
    { w with ui.med1LineEdit.text := text }

/-- The call `ui->high0LineEdit->setText(text)`, with the slot connected by the constructor. -/
def setText_high0LineEdit (text : QString) (w : MainWindow) : MainWindow :=
  textChanged w.ui.high0LineEdit.text text onCalGainTextChanged
    { w with ui.high0LineEdit.text := text }

/-- The call `ui->high1LineEdit->setText(text)`, with the slot connected by the constructor. -/
def setText_high1LineEdit (text : QString) (w : MainWindow) : MainWindow :=
  textChanged w.ui.high1LineEdit.text text onCalGainTextChanged
    { w with ui.high1LineEdit.text := text }

/-- The call `ui->max0LineEdit->setText(text)`, with the slot connected by the constructor. -/
def setText_max0LineEdit (text : QString) (w : MainWindow) : MainWindow :=
  textChanged w.ui.max0LineEdit.text text onCalGainTextChanged
    { w with ui.max0LineEdit.text := text }

/-- The call `ui->max1LineEdit->setText(text)`, with the slot connected by the constructor. -/
def setText_max1LineEdit (text : QString) (w : MainWindow) : MainWindow :=
  textChanged w.ui.max1LineEdit.text text onCalGainTextChanged
    { w with ui.max1LineEdit.text := text }

/-- The call `ui->b0LineEdit->setText(text)`, with the slot connected by the constructor. -/
def setText_b0LineEdit (text : QString) (w : MainWindow) : MainWindow :=
  textChanged w.ui.b0LineEdit.text text onCalSlopeTextChanged
    { w with ui.b0LineEdit.text := text }

/-- The call `ui->b1LineEdit->setText(text)`, with the slot connected by the constructor. -/
def setText_b1LineEdit (text : QString) (w : MainWindow) : MainWindow :=
  textChanged w.ui.b1LineEdit.text text onCalSlopeTextChanged
    { w with ui.b1LineEdit.text := text }

/-- The call `ui->b2LineEdit->setText(text)`, with the slot connected by the constructor. -/
def setText_b2LineEdit (text : QString) (w : MainWindow) : MainWindow :=
  textChanged w.ui.b2LineEdit.text text onCalSlopeTextChanged
    { w with ui.b2LineEdit.text := text }

/-- The call `ui->reflLoDensityLineEdit->setText(text)`, with the slot connected by the constructor. -/
def setText_reflLoDensityLineEdit (text : QString) (w : MainWindow) : MainWindow :=
  textChanged w.ui.reflLoDensityLineEdit.text text onCalReflectionTextChanged
    { w with ui.reflLoDensityLineEdit.text := text }

/-- The call `ui->reflLoReadingLineEdit->setText(text)`, with the slot connected by the constructor. -/
def setText_reflLoReadingLineEdit (text : QString) (w : MainWindow) : MainWindow :=
  textChanged w.ui.reflLoReadingLineEdit.text text onCalReflectionTextChanged
    { w with ui.reflLoReadingLineEdit.text := text }

/-- The call `ui->reflHiDensityLineEdit->setText(text)`, with the slot connected by the constructor. -/
def setText_reflHiDensityLineEdit (text : QString) (w : MainWindow) : MainWindow :=
  textChanged w.ui.reflHiDensityLineEdit.text text onCalReflectionTextChanged
    { w with ui.reflHiDensityLineEdit.text := text }

/-- The call `ui->reflHiReadingLineEdit->setText(text)`, with the slot connected by the constructor. -/
def setText_reflHiReadingLineEdit (text : QString) (w : MainWindow) : MainWindow :=
  textChanged w.ui.reflHiReadingLineEdit.text text onCalReflectionTextChanged
    { w with ui.reflHiReadingLineEdit.text := text }

/-- The call `ui->tranLoReadingLineEdit->setText(text)`, with the slot connected by the constructor. -/
def setText_tranLoReadingLineEdit (text : QString) (w : MainWindow) : MainWindow :=
  textChanged w.ui.tranLoReadingLineEdit.text text onCalTransmissionTextChanged
    { w with ui.tranLoReadingLineEdit.text := text }

/-- The call `ui->tranHiDensityLineEdit->setText(text)`, with the slot connected by the constructor. -/
def setText_tranHiDensityLineEdit (text : QString) (w : MainWindow) : MainWindow :=
  textChanged w.ui.tranHiDensityLineEdit.text text onCalTransmissionTextChanged
    { w with ui.tranHiDensityLineEdit.text := text }

/-- The call `ui->tranHiReadingLineEdit->setText(text)`, with the slot connected by the constructor. -/
def setText_tranHiReadingLineEdit (text : QString) (w : MainWindow) : MainWindow :=
  textChanged w.ui.tranHiReadingLineEdit.text text onCalTransmissionTextChanged
    { w with ui.tranHiReadingLineEdit.text := text }

/-- Handler `onCalLightSetClicked`.  The argument `calLight` is the default-constructed record
(the constructor of `DensCalLight` is in denscalvalues.h, outside the sources). -/
def onCalLightSetClicked (calLight : DensCalLight) (w : MainWindow) : MainWindow :=
  let r := toInt w.ui.reflLightLineEdit.text
  let calLight := { calLight with reflectionValue := r.1 }
  if !r.2 then w else
  let r := toInt w.ui.tranLightLineEdit.text
  let calLight := { calLight with transmissionValue := r.1 }
  if !r.2 then w else
  if !calLight.isValid then w else
  { w with densInterface_ := w.densInterface_.send (Request.sendSetCalLight calLight) }

/-- Handler `onCalGainSetClicked`; `calSlope` (the name the source gives its local) starts as
the default-constructed `DensCalGain`. -/
def onCalGainSetClicked (calSlope : DensCalGain) (w : MainWindow) : MainWindow :=
  let calSlope := { calSlope with low0 := F32.one }
  let calSlope := { calSlope with low1 := F32.one }
  let r := toFloat w.ui.med0LineEdit.text
  let calSlope := { calSlope with med0 := r.1 }
  if !r.2 then w else
  let r := toFloat w.ui.med1LineEdit.text
  let calSlope := { calSlope with med1 := r.1 }
  if !r.2 then w else
  let r := toFloat w.ui.high0LineEdit.text
  let calSlope := { calSlope with high0 := r.1 }
  if !r.2 then w else
  let r := toFloat w.ui.high1LineEdit.text
  let calSlope := { calSlope with high1 := r.1 }
  if !r.2 then w else
  let r := toFloat w.ui.max0LineEdit.text
  let calSlope := { calSlope with max0 := r.1 }
  if !r.2 then w else
  let r := toFloat w.ui.max1LineEdit.text
  let calSlope := { calSlope with max1 := r.1 }
  if !r.2 then w else
  { w with densInterface_ := w.densInterface_.send (Request.sendSetCalGain calSlope) }

/-- Handler `onCalSlopeSetClicked`; `calSlope` starts as the default-constructed `DensCalSlope`. -/
def onCalSlopeSetClicked (calSlope : DensCalSlope) (w : MainWindow) : MainWindow :=
  let r := toFloat w.ui.b0LineEdit.text
  let calSlope := { calSlope with b0 := r.1 }
  if !r.2 then w else
  let r := toFloat w.ui.b1LineEdit.text
  let calSlope := { calSlope with b1 := r.1 }
  if !r.2 then w else
  let r := toFloat w.ui.b2LineEdit.text
  let calSlope := { calSlope with b2 := r.1 }
  if !r.2 then w else
  { w with densInterface_ := w.densInterface_.send (Request.sendSetCalSlope calSlope) }

/-- Handler `onCalReflectionSetClicked`; `calTarget` starts as the default-constructed
`DensCalTarget`. -/
def onCalReflectionSetClicked (calTarget : DensCalTarget) (w : MainWindow) : MainWindow :=
  let r := toFloat w.ui.reflLoDensityLineEdit.text
  let calTarget := { calTarget with loDensity := r.1 }
  if !r.2 then w else
  let r := toFloat w.ui.reflLoReadingLineEdit.text
  let calTarget := { calTarget with loReading := r.1 }
  if !r.2 then w else
  let r := toFloat w.ui.reflHiDensityLineEdit.text
  let calTarget := { calTarget with hiDensity := r.1 }
  if !r.2 then w else
  let r := toFloat w.ui.reflHiReadingLineEdit.text
  let calTarget := { calTarget with hiReading := r.1 }
  if !r.2 then w else
  { w with densInterface_ := w.densInterface_.send (Request.sendSetCalReflection calTarget) }

/-- Handler `onCalTransmissionSetClicked`; `calTarget` starts as the default-constructed
`DensCalTarget`. -/
def onCalTransmissionSetClicked (calTarget : DensCalTarget) (w : MainWindow) : MainWindow :=
  let calTarget := { calTarget with loDensity := F32.zero }
  let r := toFloat w.ui.tranLoReadingLineEdit.text
  let calTarget := { calTarget with loReading := r.1 }
  if !r.2 then w else
  let r := toFloat w.ui.tranHiDensityLineEdit.text
  let calTarget := { calTarget with hiDensity := r.1 }
  if !r.2 then w else
  let r := toFloat w.ui.tranHiReadingLineEdit.text
  let calTarget := { calTarget with hiReading := r.1 }
  if !r.2 then w else
  { w with densInterface_ := w.densInterface_.send (Request.sendSetCalTransmission calTarget) }

/-- Handler `onCalGainResponse`; `QString::number(x, 'f')` uses the default precision 6. -/
def onCalGainResponse (w : MainWindow) : MainWindow :=
  let calGain := w.densInterface_.calGain
  let w := { w with ui.low0LineEdit.text := number_f calGain.low0 6 }
  let w := { w with ui.low1LineEdit.text := number_f calGain.low1 6 }
  let w := setText_med0LineEdit (number_f calGain.med0 6) w
  let w := setText_med1LineEdit (number_f calGain.med1 6) w
  let w := setText_high0LineEdit (number_f calGain.high0 6) w
  let w := setText_high1LineEdit (number_f calGain.high1 6) w
  let w := setText_max0LineEdit (number_f calGain.max0 6) w
  let w := setText_max1LineEdit (number_f calGain.max1 6) w
  onCalGainTextChanged w

def onCalSlopeResponse (w : MainWindow) : MainWindow :=
  let calSlope := w.densInterface_.calSlope
  let w := setText_b0LineEdit (number_f calSlope.b0 6) w
  let w := setText_b1LineEdit (number_f calSlope.b1 6) w
  let w := setText_b2LineEdit (number_f calSlope.b2 6) w
  onCalSlopeTextChanged w

def onCalReflectionResponse (w : MainWindow) : MainWindow :=
  let calReflection := w.densInterface_.calReflection
  let w := setText_reflLoDensityLineEdit (number_f calReflection.loDensity 2) w
  let w := setText_reflLoReadingLineEdit (number_f calReflection.loReading 6) w
  let w := setText_reflHiDensityLineEdit (number_f calReflection.hiDensity 2) w
  let w := setText_reflHiReadingLineEdit (number_f calReflection.hiReading 6) w
  onCalReflectionTextChanged w

def onCalTransmissionResponse (w : MainWindow) : MainWindow :=
  let calTransmission := w.densInterface_.calTransmission
  let w := { w with ui.tranLoDensityLineEdit.text := number_f calTransmission.loDensity 2 }
  let w := setText_tranLoReadingLineEdit (number_f calTransmission.loReading 6) w
  let w := setText_tranHiDensityLineEdit (number_f calTransmission.hiDensity 2) w
  let w := setText_tranHiReadingLineEdit (number_f calTransmission.hiReading 6) w
  onCalTransmissionTextChanged w

/-- Handler `refreshButtonState`. -/
def refreshButtonState (w : MainWindow) : MainWindow :=
  let connected := w.densInterface_.connected
  let w :=
    if connected then
      let w := { w with
        ui.actionImportSettings := true
        ui.actionExportSettings := true
        ui.refreshSensorsPushButton := true
        ui.screenshotButton := true
        ui.remotePushButton := true
        ui.calGetAllPushButton := true
        ui.lightGetPushButton := true
        ui.gainCalPushButton := true
        ui.gainGetPushButton := true
        ui.slopeGetPushButton := true
        ui.reflGetPushButton := true
        ui.tranGetPushButton := true }
      let w := if w.ui.low0LineEdit.text.isEmpty then
        { w with ui.low0LineEdit.text := ['1'] } else w
      let w := if w.ui.low1LineEdit.text.isEmpty then
        { w with ui.low1LineEdit.text := ['1'] } else w
      let w := if w.ui.tranLoDensityLineEdit.text.isEmpty then
        { w with ui.tranLoDensityLineEdit.text := ['0', '.', '0', '0'] } else w
      { w with
        ui.low0LineEdit.enabled := true
        ui.low1LineEdit.enabled := true
        ui.med0LineEdit.enabled := true
        ui.med1LineEdit.enabled := true
        ui.high0LineEdit.enabled := true
        ui.high1LineEdit.enabled := true
        ui.max0LineEdit.enabled := true
        ui.max1LineEdit.enabled := true }
    else
      { w with
        ui.actionImportSettings := false
        ui.actionExportSettings := false
        ui.refreshSensorsPushButton := false
        ui.screenshotButton := false
        ui.remotePushButton := false
        ui.calGetAllPushButton := false
        ui.lightGetPushButton := false
        ui.gainCalPushButton := false
        ui.gainGetPushButton := false
        ui.slopeGetPushButton := false
        ui.reflGetPushButton := false
        ui.tranGetPushButton := false }
  let w := { w with
    ui.reflLightLineEdit.readOnly := !connected
    ui.tranLightLineEdit.readOnly := !connected
    ui.med0LineEdit.readOnly := !connected
    ui.med1LineEdit.readOnly := !connected
    ui.high0LineEdit.readOnly := !connected
    ui.high1LineEdit.readOnly := !connected
    ui.max0LineEdit.readOnly := !connected
    ui.max1LineEdit.readOnly := !connected
    ui.b0LineEdit.readOnly := !connected
    ui.b1LineEdit.readOnly := !connected
    ui.b2LineEdit.readOnly := !connected
    ui.reflLoDensityLineEdit.readOnly := !connected
    ui.reflLoReadingLineEdit.readOnly := !connected
    ui.reflHiDensityLineEdit.readOnly := !connected
    ui.reflHiReadingLineEdit.readOnly := !connected
    ui.tranLoReadingLineEdit.readOnly := !connected
    ui.tranHiDensityLineEdit.readOnly := !connected
    ui.tranHiReadingLineEdit.readOnly := !connected }
  let w := onCalLightTextChanged w
  let w := onCalGainTextChanged w
  let w := onCalSlopeTextChanged w
  let w := onCalReflectionTextChanged w
  onCalTransmissionTextChanged w

/-- Qt `QStandardItemModel::setItem(row, column, item)` for the three columns of one row;
the model grows when the row lies beyond its last row. -/
def setItems (model : List MeasRow) (row : Nat) (item : MeasRow) : List MeasRow :=
  (model ++ List.replicate (row + 1 - model.length) (MeasRow.mk none none none)).set row item

/-- Qt `QStandardItemModel::insertRow(row)`: a row without items is inserted when
`0 ≤ row ≤ rowCount()`. -/
def insertRow (model : List MeasRow) (row : Nat) : List MeasRow :=
  if row ≤ model.length then model.take row ++ MeasRow.mk none none none :: model.drop row
  else model

/-- Qt `QAbstractItemView::setCurrentIndex(index)` on the measurement table view: the
index becomes the current one and the view applies its selection command. -/
def setCurrentIndex (index : QModelIndex) (ui : Ui) : Ui :=
  { ui with
    measCurrent := index
    measSelected := ui.measSelectionCommand ui.measSelected index }

/-- Qt `QItemSelectionModel::clearSelection()`: the current index stays. -/
def clearSelection (ui : Ui) : Ui :=
  { ui with measSelected := [] }

/-- Method `measTableAddReading`, lines 762-769: the row to write, found by the loop over
the selected indexes followed by the current index. -/
def measTableAddReading_row (ui : Ui) : Int :=
  let selected := ui.measSelected ++ [ui.measCurrent]
  selected.foldl (fun row index => if row = -1 ∨ index.row < row then index.row else row) (-1)

/-- Method `measTableAddReading`, lines 744-760: the texts of the three items of the
row (mode, measurement, offset).  Icons are left out. -/
def measTableAddReading_item (type : DensityType) (density offset : F32) : MeasRow :=
  let numStr := arg_4_f_2 density
  let typeStr : QString :=
    if type = DensityType.DensityReflection then ['R']
    else if type = DensityType.DensityTransmission then ['T']
    else []
  let offsetStr : QString := if !qIsNaN offset then arg_4_f_2 offset else []
  MeasRow.mk (some typeStr) (some numStr) (some offsetStr)

/-- Method `measTableAddReading`.  Scrolling is left out. -/
def measTableAddReading (type : DensityType) (density offset : F32) (w : MainWindow) :
    MainWindow :=
  let item := measTableAddReading_item type density offset
  let row : Int := measTableAddReading_row w.ui
  let w := { w with ui := clearSelection w.ui }
  if row ≥ 0 then
    let w := { w with measModel_ := setItems w.measModel_ row.toNat item }
    if row < (w.measModel_.length : Int) - 1 then
      { w with ui := setCurrentIndex (QModelIndex.mk (row + 1) 1) w.ui }
    else
      { w with
        measModel_ := insertRow w.measModel_ (row.toNat + 1)
        ui := setCurrentIndex (QModelIndex.mk (row + 1) 1) w.ui }
  else w

def onAddReadingClicked (w : MainWindow) : MainWindow :=
  if w.lastReadingType_ = DensityType.DensityUnknown || qIsNaN w.lastReadingDensity_ then w
  else measTableAddReading w.lastReadingType_ w.lastReadingDensity_ w.lastReadingOffset_ w

/-- Lines 621-627 of `onDensityReading`: the display value before it is cleaned up. -/
def displayValue (dValue dZero : F32) : F32 :=
  if !qIsNaN dZero then F32.sub dValue dZero else dValue

/-- The clean-up `if (qAbs(v) < 0.01F) { v = 0.0F; }` applied in `onDensityReading`,
both to the display value and to the zero offset shown in the tool tip. -/
def cleanUp (v : F32) : F32 :=
  if F32.lt (qAbs v) F32.hundredth then F32.zero else v

/-- Handler `onDensityReading`, "Update main tab contents" (lines 600-619).  Pixmaps are
reduced to the flag saying whether the zero indicator is shown. -/
def onDensityReading_mainTab (type : DensityType) (dZero : F32) (w : MainWindow) :
    MainWindow :=
  let w :=
    if type = DensityType.DensityReflection then
      { w with ui.readingTypeNameLabel := "Reflection".toList }
    else
      { w with ui.readingTypeNameLabel := "Transmission".toList }
  if !qIsNaN dZero then
    let displayZero := cleanUp dZero
    { w with
      ui.zeroIndicatorShown := true
      ui.zeroIndicatorToolTip := arg_4_f_2 displayZero ++ ['D'] }
  else
    { w with
      ui.zeroIndicatorShown := false
      ui.zeroIndicatorToolTip := [] }

/-- Handler `onDensityReading`, "Clean up the display value" and "Save values so they can be
referenced later" (lines 621-637). -/
def onDensityReading_display (type : DensityType) (dValue dZero : F32) (w : MainWindow) :
    MainWindow :=
  let displayValue := cleanUp (displayValue dValue dZero)
  let w := { w with ui.readingValueLineEdit := arg_4_f_2 displayValue ++ ['D'] }
  { w with
    lastReadingType_ := type
    lastReadingDensity_ := displayValue
    lastReadingOffset_ := dZero
    ui.addReadingPushButton := true }

/-- Handler `onDensityReading`, "Update the measurement tab table view, if the tab is focused"
(lines 639-644). -/
def onDensityReading_autoAdd (w : MainWindow) : MainWindow :=
  if w.ui.tabWidget = Tab.tabMeasurement then
    if w.ui.autoAddPushButton then onAddReadingClicked w else w
  else w

/-- Handler `onDensityReading`, "Update calibration tab fields, if focused" (lines 646-659);
`QString::number(x, 'f')` uses the default precision 6. -/
def onDensityReading_calTab (type : DensityType) (corrValue : F32) (w : MainWindow) :
    MainWindow :=
  if type = DensityType.DensityReflection then
    if w.ui.reflLoReadingLineEdit.hasFocus then
      setText_reflLoReadingLineEdit (number_f corrValue 6) w
    else if w.ui.reflHiReadingLineEdit.hasFocus then
      setText_reflHiReadingLineEdit (number_f corrValue 6) w
    else w
  else
    if w.ui.tranLoReadingLineEdit.hasFocus then
      setText_tranLoReadingLineEdit (number_f corrValue 6) w
    else if w.ui.tranHiReadingLineEdit.hasFocus then
      setText_tranHiReadingLineEdit (number_f corrValue 6) w
    else w

/-- Handler `onDensityReading`: its four parts in source order (`rawValue` is unused). -/
def onDensityReading (type : DensityType) (dValue dZero rawValue corrValue : F32)
    (w : MainWindow) : MainWindow :=
  let _ := rawValue
  let w := onDensityReading_mainTab type dZero w
  let w := onDensityReading_display type dValue dZero w
  let w := onDensityReading_autoAdd w
  onDensityReading_calTab type corrValue w

end MainWindow

/-! ## Example states -/

/-- An empty, read-only line edit without focus or highlight. -/
def blankLineEdit : QLineEdit := QLineEdit.mk [] true false false false

def blankUi : Ui where
  tabWidget := Tab.tabCalibration
  readingTypeNameLabel := []
  zeroIndicatorShown := false
  zeroIndicatorToolTip := []
  readingValueLineEdit := []
  addReadingPushButton := false
  autoAddPushButton := true
  actionImportSettings := false
  actionExportSettings := false
  refreshSensorsPushButton := false
  screenshotButton := false
  remotePushButton := false
  calGetAllPushButton := false
  lightGetPushButton := false
  gainCalPushButton := false
  gainGetPushButton := false
  slopeGetPushButton := false
  reflGetPushButton := false
  tranGetPushButton := false
  lightSetPushButton := false
  gainSetPushButton := false
  slopeSetPushButton := false
  reflSetPushButton := false
  tranSetPushButton := false
  reflLightLineEdit := blankLineEdit
  tranLightLineEdit := blankLineEdit
  low0LineEdit := blankLineEdit
  low1LineEdit := blankLineEdit
  med0LineEdit := blankLineEdit
  med1LineEdit := blankLineEdit
  high0LineEdit := blankLineEdit
  high1LineEdit := blankLineEdit
  max0LineEdit := blankLineEdit
  max1LineEdit := blankLineEdit
  b0LineEdit := blankLineEdit
  b1LineEdit := blankLineEdit
  b2LineEdit := blankLineEdit
  reflLoDensityLineEdit := blankLineEdit
  reflLoReadingLineEdit := blankLineEdit
  reflHiDensityLineEdit := blankLineEdit
  reflHiReadingLineEdit := blankLineEdit
  tranLoDensityLineEdit := blankLineEdit
  tranLoReadingLineEdit := blankLineEdit
  tranHiDensityLineEdit := blankLineEdit
  tranHiReadingLineEdit := blankLineEdit
  measSelected := []
  measCurrent := QModelIndex.mk 0 1
  measSelectionCommand := fun _ index => [index]
  horizCopyRadioButton := false
  actionCut := false
  actionCopy := false
  actionPaste := false
  actionDelete := false

def zeroGain : DensCalGain :=
  DensCalGain.mk F32.zero F32.zero F32.zero F32.zero F32.zero F32.zero F32.zero F32.zero

def zeroSlope : DensCalSlope := DensCalSlope.mk F32.zero F32.zero F32.zero

def zeroTarget : DensCalTarget := DensCalTarget.mk F32.zero F32.zero F32.zero F32.zero

def blankInterface : DensInterface where
  connected := false
  calLight := DensCalLight.mk 0 0
  calGain := zeroGain
  calSlope := zeroSlope
  calReflection := zeroTarget
  calTransmission := zeroTarget
  sent := []

/-- An unconnected window with empty fields, an all-zero device image and the
measurement table as the constructor leaves it. -/
def blankWindow : MainWindow where
  ui := blankUi
  densInterface_ := blankInterface
  measModel_ := List.replicate 10 (MeasRow.mk (some []) none (some []))
  lastReadingType_ := DensityType.DensityUnknown
  lastReadingDensity_ := F32.nan
  lastReadingOffset_ := F32.nan
  remoteDialog_ := false

/-- A connected window whose light fields read `0` and `5`. -/
def lightWindow_0_5 : MainWindow :=
  { blankWindow with
    densInterface_.connected := true
    ui.reflLightLineEdit.text := ['0']
    ui.tranLightLineEdit.text := ['5'] }

/-- A connected window with a full set of gain values; the low0/low1 fields show
something other than 1. -/
def gainWindow : MainWindow :=
  { blankWindow with
    densInterface_.connected := true
    ui.low0LineEdit.text := "7.5".toList
    ui.low1LineEdit.text := "abc".toList
    ui.med0LineEdit.text := "24.5".toList
    ui.med1LineEdit.text := "25".toList
    ui.high0LineEdit.text := "400".toList
    ui.high1LineEdit.text := "410.25".toList
    ui.max0LineEdit.text := "9000".toList
    ui.max1LineEdit.text := "10000".toList }

/-- The gain record the fields of `gainWindow` denote. -/
def gainWindowRecord : DensCalGain :=
  DensCalGain.mk F32.one F32.one ⟨false, 1103364096⟩ ⟨false, 1103626240⟩
    ⟨false, 1137180672⟩ ⟨false, 1137516544⟩ ⟨false, 1175232512⟩ ⟨false, 1176256512⟩

/-- A connected window whose reflection fields hold acceptable values with the same
text `100` as lo and hi reading, and whose transmission fields do likewise. -/
def equalReadingsWindow : MainWindow :=
  { blankWindow with
    densInterface_.connected := true
    ui.reflLoDensityLineEdit.text := "0.10".toList
    ui.reflLoReadingLineEdit.text := "100".toList
    ui.reflHiDensityLineEdit.text := "2.00".toList
    ui.reflHiReadingLineEdit.text := "100".toList
    ui.tranLoDensityLineEdit.text := "0.00".toList
    ui.tranLoReadingLineEdit.text := "100".toList
    ui.tranHiDensityLineEdit.text := "3.00".toList
    ui.tranHiReadingLineEdit.text := "100".toList }

/-- A connected window with usable reflection and transmission targets: lo point
`(0.00, 100)`, hi point `(2.00, 10)` in both groups. -/
def targetWindow : MainWindow :=
  { blankWindow with
    densInterface_.connected := true
    ui.reflLoDensityLineEdit.text := "0.00".toList
    ui.reflLoReadingLineEdit.text := "100".toList
    ui.reflHiDensityLineEdit.text := "2.00".toList
    ui.reflHiReadingLineEdit.text := "10".toList
    ui.tranLoDensityLineEdit.text := "0.00".toList
    ui.tranLoReadingLineEdit.text := "100".toList
    ui.tranHiDensityLineEdit.text := "2.00".toList
    ui.tranHiReadingLineEdit.text := "10".toList }

/-- The target record the fields of `targetWindow` denote: `(0.0, 100.0, 2.0, 10.0)`. -/
def targetWindowRecord : DensCalTarget :=
  DensCalTarget.mk F32.zero ⟨false, 1120403456⟩ ⟨false, 1073741824⟩ ⟨false, 1092616192⟩

/-- The float `2.5F` (`0x40200000`), upper bound of the reflection density validators. -/
def F32.twoAndHalf : F32 := ⟨false, 1075838976⟩

/-- A connected window whose device image holds `gainWindowRecord`, the slope
`(1.00000011920928955078125, 0.5, -0.25)` (the first coefficient is the float just
above one, `0x3F800001`), and `targetWindowRecord` for both light paths. -/
def deviceWindow : MainWindow :=
  { blankWindow with
    densInterface_.connected := true
    densInterface_.calGain := gainWindowRecord
    densInterface_.calSlope := DensCalSlope.mk ⟨false, 1065353217⟩ ⟨false, 1056964608⟩
      ⟨true, 1048576000⟩
    densInterface_.calReflection := targetWindowRecord
    densInterface_.calTransmission := targetWindowRecord }

/-! ## Set-complete loop-back, remote control and gain calibration dialogs -/

/-- The set-complete signals of `DensInterface` that the constructor connects
(mainwindow.cpp, lines 175-180). -/
inductive SetCompleteSignal where
  | calLightSetComplete
  | calGainSetComplete
  | calSlopeSetComplete
  | calReflectionSetComplete
  | calTransmissionSetComplete
deriving DecidableEq, Repr

/-- Buttons of a `QMessageBox` that `onCalGainCalClicked` offers. -/
inductive StandardButton where
  | Ok
  | Cancel
deriving DecidableEq, Repr

/-- A modal dialog shown by a handler. -/
inductive ShownDialog where
  | messageBox
  | gainCalibrationDialog
deriving DecidableEq, Repr

namespace MainWindow

/-- The loop-back wired by the constructor: each set-complete signal is connected to
one slot of the interface, the get request named on the same line of the source. -/
def onSetComplete (signal : SetCompleteSignal) (w : MainWindow) : MainWindow :=
  match signal with
  | SetCompleteSignal.calLightSetComplete =>
    { w with densInterface_ := w.densInterface_.send Request.sendGetCalLight }
  | SetCompleteSignal.calGainSetComplete =>
    { w with densInterface_ := w.densInterface_.send Request.sendGetCalGain }
  | SetCompleteSignal.calSlopeSetComplete =>
    { w with densInterface_ := w.densInterface_.send Request.sendGetCalSlope }
  | SetCompleteSignal.calReflectionSetComplete =>
    { w with densInterface_ := w.densInterface_.send Request.sendGetCalReflection }
  | SetCompleteSignal.calTransmissionSetComplete =>
    { w with densInterface_ := w.densInterface_.send Request.sendGetCalTransmission }

/-- Handler `onRemoteControl`: opens the remote control dialog unless the device is
not connected or the dialog is already open. -/
def onRemoteControl (w : MainWindow) : MainWindow :=
  if !w.densInterface_.connected then w
  else if w.remoteDialog_ then w
  else { w with remoteDialog_ := true }

/-- Handler `onRemoteControlFinished`. -/
def onRemoteControlFinished (w : MainWindow) : MainWindow :=
  { w with remoteDialog_ := false }

/-- Handler `onCalGainCalClicked`.  The button the user presses in the message box is
the argument `messageBox`; the gain calibration dialog (gaincalibrationdialog.cpp,
outside the sources) is the argument `dialog`, giving the state it leaves the
interface in and its `success()` flag.  The result pairs the new window state with
the modal dialogs that were shown, in order. -/
def onCalGainCalClicked (messageBox : StandardButton)
    (dialog : DensInterface → DensInterface × Bool) (w : MainWindow) :
    MainWindow × List ShownDialog :=
  if w.remoteDialog_ then (w, [])
  else
    let w := { w with ui.gainCalPushButton := false }
    let shown := [ShownDialog.messageBox]
    if messageBox = StandardButton.Ok then
      let r := dialog w.densInterface_
      let w := { w with densInterface_ := r.1 }
      let shown := shown ++ [ShownDialog.gainCalibrationDialog]
      let w :=
        if r.2 then
          let w := { w with densInterface_ := w.densInterface_.send Request.sendGetCalLight }
          { w with densInterface_ := w.densInterface_.send Request.sendGetCalGain }
        else w
      ({ w with ui.gainCalPushButton := true }, shown)
    else
      ({ w with ui.gainCalPushButton := true }, shown)

end MainWindow

/-- A gain calibration dialog that sends nothing and reports success. -/
def quietDialog (d : DensInterface) : DensInterface × Bool := (d, true)

/-- A connected window with the remote control dialog open, reached by
`onRemoteControl`. -/
def remoteWindow : MainWindow :=
  MainWindow.onRemoteControl { blankWindow with densInterface_.connected := true }

/-! ## Firmware: the sensor interface (`sensor.h`)

The header declares the sensor operations; their bodies (`sensor.c`) and the headers
it includes are outside the sources.  The enumerations and the reading structure
below are those of the header.  The operations are modelled from the written
specification, with exact rational arithmetic in place of `float`, and with the
constants the specification leaves open collected in `SensorConsts`. -/

/-- Sensor read light selection (`sensor_light_t`). -/
inductive sensor_light_t where
  | SENSOR_LIGHT_OFF
  | SENSOR_LIGHT_REFLECTION
  | SENSOR_LIGHT_TRANSMISSION
deriving DecidableEq, Repr

/-- Progress states of the gain calibration (`sensor_gain_calibration_status_t`), in
the order of declaration. -/
inductive sensor_gain_calibration_status_t where
  | SENSOR_GAIN_CALIBRATION_STATUS_INIT
  | SENSOR_GAIN_CALIBRATION_STATUS_MEDIUM
  | SENSOR_GAIN_CALIBRATION_STATUS_HIGH
  | SENSOR_GAIN_CALIBRATION_STATUS_MAXIMUM
  | SENSOR_GAIN_CALIBRATION_STATUS_FAILED
  | SENSOR_GAIN_CALIBRATION_STATUS_LED
  | SENSOR_GAIN_CALIBRATION_STATUS_COOLDOWN
  | SENSOR_GAIN_CALIBRATION_STATUS_DONE
deriving DecidableEq, Repr

/-- The numeric code C gives each enumerator: `INIT = 0`, then one more per line. -/
def sensor_gain_calibration_status_t.code : sensor_gain_calibration_status_t → Nat
  | SENSOR_GAIN_CALIBRATION_STATUS_INIT => 0
  | SENSOR_GAIN_CALIBRATION_STATUS_MEDIUM => 1
  | SENSOR_GAIN_CALIBRATION_STATUS_HIGH => 2
  | SENSOR_GAIN_CALIBRATION_STATUS_MAXIMUM => 3
  | SENSOR_GAIN_CALIBRATION_STATUS_FAILED => 4
  | SENSOR_GAIN_CALIBRATION_STATUS_LED => 5
  | SENSOR_GAIN_CALIBRATION_STATUS_COOLDOWN => 6
  | SENSOR_GAIN_CALIBRATION_STATUS_DONE => 7

/-- Modelled from the spec: `tsl2591_gain_t` (tsl2591.h is not among the sources) is
the ordered enum GainSetting of the data model: LOW, MEDIUM, HIGH, MAXIMUM. -/
inductive tsl2591_gain_t where
  | TSL2591_GAIN_LOW
  | TSL2591_GAIN_MEDIUM
  | TSL2591_GAIN_HIGH
  | TSL2591_GAIN_MAXIMUM
deriving DecidableEq, Repr

/-- Modelled from the spec: `tsl2591_time_t` (tsl2591.h is not among the sources) is
the ordered enum TimeSetting of the available integration periods.  The
specification fixes neither how many periods there are nor their durations, so a
setting is represented by its position in the order (the shortest period is 0);
the duration of each setting and the number of settings are constants of
`SensorConsts`. -/
structure tsl2591_time_t where
  index : Nat
deriving DecidableEq, Repr

/-- Position of a gain setting in its order (LOW is 0). -/
def tsl2591_gain_t.index : tsl2591_gain_t → Nat
  | TSL2591_GAIN_LOW => 0
  | TSL2591_GAIN_MEDIUM => 1
  | TSL2591_GAIN_HIGH => 2
  | TSL2591_GAIN_MAXIMUM => 3

/-- Sensor reading data structure (`sensor_reading_t`): two `uint16_t` channel counts,
the settings, and three `uint32_t` counters. -/
structure sensor_reading_t where
  ch0_val : Fin 65536
  ch1_val : Fin 65536
  gain : tsl2591_gain_t
  time : tsl2591_time_t
  reading_ticks : Fin 4294967296
  light_ticks : Fin 4294967296
  reading_count : Fin 4294967296
deriving DecidableEq, Repr

/-- The `osStatus_t` values the sensor operations return. -/
inductive osStatus_t where
  | osOK
  | osError
deriving DecidableEq, Repr

/-- The C constant `USHRT_MAX`. -/
def USHRT_MAX : Nat := 65535

/-- Modelled from the spec: the constants of the core that the specification names
without fixing them (`sensor.c` is not among the sources): the reference time and
gain ratio of the normalisation, the full-scale threshold of the saturation test,
the "too low" threshold, the number of cycles averaged, the iteration bound of
the auto-ranging search and its starting setting, the integration time used by
the calibration, the duration of each integration period and the number of
periods. -/
structure SensorConsts where
  reference_time : ℚ
  reference_gain : ℚ
  integration_time : tsl2591_time_t → ℚ
  time_count : Nat
  full_scale : Nat
  low_threshold : Nat
  read_count : Nat
  max_iterations : Nat
  start_gain : tsl2591_gain_t
  start_time : tsl2591_time_t
  cal_time : tsl2591_time_t

/-- Modelled from the spec: the CalGain record of the data model as the firmware holds
it (the settings module is not among the sources). -/
structure CalGain where
  low0 : ℚ
  low1 : ℚ
  med0 : ℚ
  med1 : ℚ
  high0 : ℚ
  high1 : ℚ
  max0 : ℚ
  max1 : ℚ
deriving DecidableEq, Repr

/-- Modelled from the spec: the CalSlope record of the data model as the firmware
holds it (the settings module is not among the sources). -/
structure CalSlope where
  b0 : ℚ
  b1 : ℚ
  b2 : ℚ
deriving DecidableEq, Repr

/-- Modelled from the spec: the CalTarget record of the data model as the firmware
holds it (the settings module is not among the sources). -/
structure CalTarget where
  lo_density : ℚ
  lo_reading : ℚ
  hi_density : ℚ
  hi_reading : ℚ
deriving DecidableEq, Repr

/-- Modelled from the spec: the gain ratio of a channel looked up from CalGain by the
gain of the reading, with LOW identically 1.0 (section 4.2; `sensor.c` is not
among the sources). -/
def CalGain.lookup (cal : CalGain) (gain : tsl2591_gain_t) (channel : Fin 2) : ℚ :=
  match gain with
  | tsl2591_gain_t.TSL2591_GAIN_LOW => 1
  | tsl2591_gain_t.TSL2591_GAIN_MEDIUM => if channel = 0 then cal.med0 else cal.med1
  | tsl2591_gain_t.TSL2591_GAIN_HIGH => if channel = 0 then cal.high0 else cal.high1
  | tsl2591_gain_t.TSL2591_GAIN_MAXIMUM => if channel = 0 then cal.max0 else cal.max1

/-- Modelled from the spec: the body of `sensor_is_reading_saturated` (`sensor.c` is
not among the sources): true if either raw channel is at or above the full-scale
threshold. -/
def sensor_is_reading_saturated (k : SensorConsts) (reading : sensor_reading_t) : Bool :=
  decide (k.full_scale ≤ reading.ch0_val.val) || decide (k.full_scale ≤ reading.ch1_val.val)

/-- Modelled from the spec: the formula of section 4.2 for one channel, basic count =
raw count × (reference time / integration time) × (reference gain ratio / gain
ratio of the channel). -/
def basic_count (k : SensorConsts) (raw : Nat) (time : tsl2591_time_t) (gain_ratio : ℚ) : ℚ :=
  (raw : ℚ) * (k.reference_time / k.integration_time time) * (k.reference_gain / gain_ratio)

/-- Modelled from the spec: the body of `sensor_convert_to_basic_counts` (`sensor.c` is
not among the sources), section 4.2: both channels of a reading normalised with
the gain ratios looked up from CalGain.  The calibration record, a global of the
firmware, is an argument. -/
def sensor_convert_to_basic_counts (k : SensorConsts) (cal : CalGain)
    (reading : sensor_reading_t) : ℚ × ℚ :=
  (basic_count k reading.ch0_val.val reading.time (cal.lookup reading.gain 0),
   basic_count k reading.ch1_val.val reading.time (cal.lookup reading.gain 1))

/-- Modelled from the spec: the "not configured" sentinel of the slope coefficients,
all three zero (section 4.5). -/
def CalSlope.unconfigured (coeffs : CalSlope) : Bool :=
  decide (coeffs.b0 = 0) && decide (coeffs.b1 = 0) && decide (coeffs.b2 = 0)

/-- Modelled from the spec: the body of `sensor_apply_slope_calibration` (`sensor.c` is
not among the sources), section 4.5: `b0 + b1 x + b2 x^2` for configured
coefficients, the input unmodified for the "not configured" sentinel.  The
coefficients, a global of the firmware, are an argument. -/
def sensor_apply_slope_calibration (coeffs : CalSlope) (basic_reading : ℚ) : ℚ :=
  if coeffs.unconfigured then basic_reading
  else coeffs.b0 + coeffs.b1 * basic_reading + coeffs.b2 * basic_reading ^ 2

/-- Modelled from the spec: the error kinds of section 7 that the embedded operations
can report, with the `AcquisitionTimeout` of section 4.3. -/
inductive CoreError where
  | SaturationUnresolvable
  | AcquisitionTimeout
  | SensorFault
  | DegenerateCalibration
  | CalibrationAborted
deriving DecidableEq, Repr

/-- Modelled from the spec: `compute` of DensityComputation (section 4.6; the firmware
module is not among the sources): linear interpolation or extrapolation between
the two calibration points, failing with DegenerateCalibration when the two
readings are equal.  The optional zero offset of the specification enters only the
reported value, which is not part of this function. -/
def compute (basic_reading_corrected : ℚ) (target : CalTarget) : Except CoreError ℚ :=
  if target.hi_reading = target.lo_reading then Except.error CoreError.DegenerateCalibration
  else
    let slope := (target.hi_density - target.lo_density)
      / (target.hi_reading - target.lo_reading)
    Except.ok (target.lo_density + slope * (basic_reading_corrected - target.lo_reading))

/-- The CalTarget of the worked example: lo point (0.0, 100.0), hi point (2.0, 10.0). -/
def exampleTarget : CalTarget := CalTarget.mk 0 100 2 10

/-- Example constants for worked examples: reference time 200 and reference gain 1,
periods of 100, 200, 300, ... for the settings in order, six settings, full scale
65535.  These are sample values, not the constants of the device. -/
def exampleConsts : SensorConsts where
  reference_time := 200
  reference_gain := 1
  integration_time := fun t => 100 * ((t.index : ℚ) + 1)
  time_count := 6
  full_scale := 65535
  low_threshold := 100
  read_count := 2
  max_iterations := 10
  start_gain := tsl2591_gain_t.TSL2591_GAIN_HIGH
  start_time := tsl2591_time_t.mk 1
  cal_time := tsl2591_time_t.mk 1

/-- An example CalGain record with ratios 1, 25, 400, 9000 on both channels. -/
def exampleCalGain : CalGain := CalGain.mk 1 1 25 25 400 400 9000 9000

/-- The record `exampleCalGain` with the medium ratios doubled. -/
def exampleCalGainDoubled : CalGain := CalGain.mk 1 1 50 50 400 400 9000 9000

/-- Two example readings at medium gain and the second period, with raw counts
`(1000, 2000)` and `(1500, 2500)`. -/
def exampleReadingA : sensor_reading_t :=
  sensor_reading_t.mk 1000 2000 tsl2591_gain_t.TSL2591_GAIN_MEDIUM (tsl2591_time_t.mk 1) 0 0 0

def exampleReadingB : sensor_reading_t :=
  sensor_reading_t.mk 1500 2500 tsl2591_gain_t.TSL2591_GAIN_MEDIUM (tsl2591_time_t.mk 1) 0 0 0

/-- Modelled from the spec: the RawSampler of section 4.1 (the hardware driver is not
among the sources): `sample(light_source, gain, time)` for the integration cycle
with the given number, `none` standing for a SensorFault. -/
abbrev RawSampler :=
  sensor_light_t → tsl2591_gain_t → tsl2591_time_t → Nat → Option sensor_reading_t

/-- The hardware state the core owns: the light source that is on and the number of
integration cycles run so far. -/
structure SensorHw where
  light : sensor_light_t
  cycles : Nat
deriving DecidableEq, Repr

/-- The outputs of `sensor_read_target_raw`: the status and the two channel results. -/
structure RawResult where
  status : osStatus_t
  ch0_result : Nat
  ch1_result : Nat
deriving DecidableEq, Repr

/-- Modelled from the spec: the reading loop of `sensor_read_target_raw`: one
integration cycle per step at the fixed settings, summing the channels; a
saturated reading ends the loop at once with both results at `USHRT_MAX`, a
sensor fault ends it with an error, and after the last cycle the sums are
averaged. -/
def read_raw_loop (k : SensorConsts) (sample : RawSampler) (light_source : sensor_light_t)
    (gain : tsl2591_gain_t) (time : tsl2591_time_t) :
    Nat → SensorHw → Nat → Nat → SensorHw × RawResult
  | 0, hw, sum0, sum1 =>
    (hw, RawResult.mk osStatus_t.osOK (sum0 / k.read_count) (sum1 / k.read_count))
  | n + 1, hw, sum0, sum1 =>
    match sample light_source gain time hw.cycles with
    | none => ({ hw with cycles := hw.cycles + 1 }, RawResult.mk osStatus_t.osError 0 0)
    | some reading =>
      if sensor_is_reading_saturated k reading then
        ({ hw with cycles := hw.cycles + 1 }, RawResult.mk osStatus_t.osOK USHRT_MAX USHRT_MAX)
      else
        read_raw_loop k sample light_source gain time n { hw with cycles := hw.cycles + 1 }
          (sum0 + reading.ch0_val.val) (sum1 + reading.ch1_val.val)

/-- Modelled from the spec: the body of `sensor_read_target_raw` (`sensor.c` is not
among the sources), from the comment in the header and section 4.3: turn on the
selected light, take a series of readings at exactly the given settings and
average them; if the sensor is saturated, return early with the results set to
`USHRT_MAX`. -/
def sensor_read_target_raw (k : SensorConsts) (sample : RawSampler)
    (light_source : sensor_light_t) (gain : tsl2591_gain_t) (time : tsl2591_time_t)
    (hw : SensorHw) : SensorHw × RawResult :=
  read_raw_loop k sample light_source gain time k.read_count
    { hw with light := light_source } 0 0

/-- A sampler whose every reading has both channels at 65535. -/
def saturatedSampler : RawSampler :=
  fun _ gain time _ => some (sensor_reading_t.mk 65535 65535 gain time 0 0 0)

/-- A sampler whose every reading has both channels at 1000. -/
def steadySampler : RawSampler :=
  fun _ gain time _ => some (sensor_reading_t.mk 1000 1000 gain time 0 0 0)

/-- The hardware before any cycle, with the light off. -/
def idleHw : SensorHw := SensorHw.mk sensor_light_t.SENSOR_LIGHT_OFF 0

/-- The progress callback `sensor_gain_calibration_callback_t`.  Its first argument
stands for the user data: the number of invocations made before this one. -/
abbrev GainCalCallback := Nat → sensor_gain_calibration_status_t → Int → Bool

/-- One invocation of the progress callback: the status and parameter passed and the
answer returned. -/
structure GainCalReport where
  status : sensor_gain_calibration_status_t
  param : Int
  answer : Bool
deriving DecidableEq, Repr

/-- The state of a run of the gain calibration: the hardware, the current status, the
callback invocations so far (oldest first) and the CalGain record being built. -/
structure GainCalRun where
  hw : SensorHw
  status : sensor_gain_calibration_status_t
  reported : List GainCalReport
  cal : CalGain
deriving DecidableEq, Repr

/-- A step of the calibration: it either goes on (`ok`) or aborts (`error`). -/
abbrev GainCalStep := GainCalRun → Except GainCalRun GainCalRun

/-- Modelled from the spec: a state transition of section 4.4: the run takes the new
status and the progress callback is invoked with it; the answer `false` is the
request to cancel. -/
def gain_cal_enter (callback : GainCalCallback) (status : sensor_gain_calibration_status_t)
    (param : Int) (run : GainCalRun) : GainCalRun × Bool :=
  ({ run with
      status := status
      reported := run.reported
        ++ [GainCalReport.mk status param (callback run.reported.length status param)] },
    callback run.reported.length status param)

/-- Modelled from the spec: state INIT of section 4.4: turn off all light sources and
take a dark reference reading at LOW gain, which fixes the baseline
`low0 = low1 = 1.0`. -/
def gain_cal_init (k : SensorConsts) (sample : RawSampler) (callback : GainCalCallback) :
    GainCalStep := fun run =>
  let e := gain_cal_enter callback
    sensor_gain_calibration_status_t.SENSOR_GAIN_CALIBRATION_STATUS_INIT 0 run
  if !e.2 then Except.error e.1
  else
    let r := sensor_read_target_raw k sample sensor_light_t.SENSOR_LIGHT_OFF
      tsl2591_gain_t.TSL2591_GAIN_LOW k.cal_time e.1.hw
    if r.2.status ≠ osStatus_t.osOK then Except.error { e.1 with hw := r.1 }
    else Except.ok { e.1 with hw := r.1, cal := { e.1.cal with low0 := 1, low1 := 1 } }

/-- Stores the two measured ratios of a gain level in the record. -/
def CalGain.store (cal : CalGain) (gain : tsl2591_gain_t) (ratio0 ratio1 : ℚ) : CalGain :=
  match gain with
  | tsl2591_gain_t.TSL2591_GAIN_LOW => cal
  | tsl2591_gain_t.TSL2591_GAIN_MEDIUM => { cal with med0 := ratio0, med1 := ratio1 }
  | tsl2591_gain_t.TSL2591_GAIN_HIGH => { cal with high0 := ratio0, high1 := ratio1 }
  | tsl2591_gain_t.TSL2591_GAIN_MAXIMUM => { cal with max0 := ratio0, max1 := ratio1 }

/-- Modelled from the spec: states MEDIUM, HIGH and MAXIMUM of section 4.4: a
fixed-setting raw reading at the gain of the level and one at LOW gain under the
same illumination, the channel-wise ratio being the calibration value.  A sensor
fault aborts; a saturated reading at either setting fails the level, which is
reported through the callback as FAILED with the code of the offending status. -/
def gain_cal_level (k : SensorConsts) (sample : RawSampler) (callback : GainCalCallback)
    (status : sensor_gain_calibration_status_t) (gain : tsl2591_gain_t) : GainCalStep :=
  fun run =>
  let e := gain_cal_enter callback status 0 run
  if !e.2 then Except.error e.1
  else
    let hi := sensor_read_target_raw k sample sensor_light_t.SENSOR_LIGHT_TRANSMISSION
      gain k.cal_time e.1.hw
    let lo := sensor_read_target_raw k sample sensor_light_t.SENSOR_LIGHT_TRANSMISSION
      tsl2591_gain_t.TSL2591_GAIN_LOW k.cal_time hi.1
    let run := { e.1 with hw := lo.1 }
    if hi.2.status ≠ osStatus_t.osOK ∨ lo.2.status ≠ osStatus_t.osOK then Except.error run
    else if hi.2.ch0_result = USHRT_MAX ∨ hi.2.ch1_result = USHRT_MAX
        ∨ lo.2.ch0_result = USHRT_MAX ∨ lo.2.ch1_result = USHRT_MAX then
      Except.error (gain_cal_enter callback
        sensor_gain_calibration_status_t.SENSOR_GAIN_CALIBRATION_STATUS_FAILED
        status.code run).1
    else
      let ratio0 : ℚ := (hi.2.ch0_result : ℚ) / (lo.2.ch0_result : ℚ)
      let ratio1 : ℚ := (hi.2.ch1_result : ℚ) / (lo.2.ch1_result : ℚ)
      Except.ok { run with cal := CalGain.store run.cal gain ratio0 ratio1 }

/-- Modelled from the spec: state LED of section 4.4: the light source is energised
(the settling delay has no effect on the state). -/
def gain_cal_led (callback : GainCalCallback) : GainCalStep := fun run =>
  let e := gain_cal_enter callback
    sensor_gain_calibration_status_t.SENSOR_GAIN_CALIBRATION_STATUS_LED 0 run
  if !e.2 then Except.error e.1
  else Except.ok { e.1 with hw := { e.1.hw with
    light := sensor_light_t.SENSOR_LIGHT_TRANSMISSION } }

/-- Modelled from the spec: state COOLDOWN of section 4.4: the light source is switched
off (the delay has no effect on the state). -/
def gain_cal_cooldown (callback : GainCalCallback) : GainCalStep := fun run =>
  let e := gain_cal_enter callback
    sensor_gain_calibration_status_t.SENSOR_GAIN_CALIBRATION_STATUS_COOLDOWN 0 run
  if !e.2 then Except.error e.1
  else Except.ok { e.1 with hw := { e.1.hw with light := sensor_light_t.SENSOR_LIGHT_OFF } }

/-- Modelled from the spec: state DONE of section 4.4: the record is final. -/
def gain_cal_done (callback : GainCalCallback) : GainCalStep := fun run =>
  let e := gain_cal_enter callback
    sensor_gain_calibration_status_t.SENSOR_GAIN_CALIBRATION_STATUS_DONE 0 run
  if !e.2 then Except.error e.1 else Except.ok e.1

/-- Modelled from the spec: the states of section 4.4 in their strict forward order. -/
def gain_cal_steps (k : SensorConsts) (sample : RawSampler) (callback : GainCalCallback) :
    List GainCalStep :=
  [gain_cal_init k sample callback,
   gain_cal_level k sample callback
     sensor_gain_calibration_status_t.SENSOR_GAIN_CALIBRATION_STATUS_MEDIUM
     tsl2591_gain_t.TSL2591_GAIN_MEDIUM,
   gain_cal_level k sample callback
     sensor_gain_calibration_status_t.SENSOR_GAIN_CALIBRATION_STATUS_HIGH
     tsl2591_gain_t.TSL2591_GAIN_HIGH,
   gain_cal_level k sample callback
     sensor_gain_calibration_status_t.SENSOR_GAIN_CALIBRATION_STATUS_MAXIMUM
     tsl2591_gain_t.TSL2591_GAIN_MAXIMUM,
   gain_cal_led callback,
   gain_cal_cooldown callback,
   gain_cal_done callback]

/-- Runs steps in order, stopping at the first that aborts. -/
def gain_cal_run : List GainCalStep → GainCalStep
  | [], run => Except.ok run
  | step :: rest, run =>
    match step run with
    | Except.ok next => gain_cal_run rest next
    | Except.error aborted => Except.error aborted

/-- Modelled from the spec: the body of `sensor_gain_calibration` (`sensor.c` is not
among the sources), section 4.4 and section 5: the states are run in order; when
all succeed the result is `osOK`; when one aborts the run ends in FAILED, the
light sources are restored to off, and the result is not `osOK`.  The hardware
and the CalGain record, globals of the firmware, are arguments. -/
def sensor_gain_calibration (k : SensorConsts) (sample : RawSampler)
    (callback : GainCalCallback) (hw : SensorHw) (cal : CalGain) : osStatus_t × GainCalRun :=
  match gain_cal_run (gain_cal_steps k sample callback)
      (GainCalRun.mk hw sensor_gain_calibration_status_t.SENSOR_GAIN_CALIBRATION_STATUS_INIT
        [] cal) with
  | Except.ok run => (osStatus_t.osOK, run)
  | Except.error run =>
    (osStatus_t.osError, { run with
      status := sensor_gain_calibration_status_t.SENSOR_GAIN_CALIBRATION_STATUS_FAILED
      hw := { run.hw with light := sensor_light_t.SENSOR_LIGHT_OFF } })

/-- A callback that never cancels. -/
def continueCallback : GainCalCallback := fun _ _ _ => true

/-- A callback that cancels at its third invocation. -/
def cancelThirdCallback : GainCalCallback := fun n _ _ => decide (n ≠ 2)

/-! ## Firmware: the auto-ranging target reading

The body of `sensor_read_target` is not part of the sources at hand; `sensor.h` declares
it and describes it as taking "a series of readings, using automatic gain adjustment to
arrive at a result in basic counts". The loop below follows the specification's
description of the acquisition algorithm. The progress callback of the header,
`sensor_read_callback_t`, returns `void`: it is invoked once per cycle and cannot change
the outcome, so the model records the number of cycles instead. -/

/-- The constant `MEAS_TABLE_ROWS` of `mainwindow.cpp`. -/
def MEAS_TABLE_ROWS : Nat := 10

/-- Qt `qSNaN()`: a signalling NaN; `measTableAddReading` only tests it with `qIsNaN`. -/
def qSNaN : F32 := ⟨false, 2141192192⟩

/-- The text of a cell of the measurement model; a cell without item has no text. -/
def MeasRow.text (r : MeasRow) (column : Int) : QString :=
  if column = 0 then r.mode.getD []
  else if column = 1 then r.meas.getD []
  else r.offset.getD []

/-- The item of a cell, by column. -/
def MeasRow.item (r : MeasRow) (column : Int) : Option QString :=
  if column = 0 then r.mode else if column = 1 then r.meas else r.offset

/-- Puts an item with the given text into a cell. -/
def MeasRow.setItem (r : MeasRow) (column : Int) (text : QString) : MeasRow :=
  if column = 0 then { r with mode := some text }
  else if column = 1 then { r with meas := some text }
  else { r with offset := some text }

/-- The three statements `item = measModel_->item(row, c); if (item) item->setText(QString())`
for the columns of one row. -/
def MeasRow.clearText (r : MeasRow) : MeasRow :=
  MeasRow.mk (r.mode.map fun _ => []) (r.meas.map fun _ => []) (r.offset.map fun _ => [])

/-- Every cell of the row has an empty text. -/
def MeasRow.isBlank (r : MeasRow) : Bool :=
  (r.text 0).isEmpty && (r.text 1).isEmpty && (r.text 2).isEmpty

/-- Qt `QStandardItemModel::itemFromIndex(index)`: the text of the item at the index, and
the model, in which Qt creates an item without text when the cell had none; `none`
stands for the null pointer returned for an index outside the model. -/
def itemFromIndex (model : List MeasRow) (index : QModelIndex) : List MeasRow × Option QString :=
  if 0 ≤ index.row ∧ 0 ≤ index.column ∧ index.column < 3 then
    match model[index.row.toNat]? with
    | none => (model, none)
    | some r =>
      match r.item index.column with
      | some text => (model, some text)
      | none => (model.set index.row.toNat (r.setItem index.column []), some [])
  else (model, none)

/-- Qt `QStandardItemModel::removeRows(row, count)`. -/
def removeRows (model : List MeasRow) (row count : Nat) : List MeasRow :=
  if row + count ≤ model.length then model.take row ++ model.drop (row + count) else model

/-- The order of Qt `operator<` of `QModelIndex` within one model, by row and then by
column, as the relation "not greater" that the sort of `measTableCopy` is run with. -/
def QModelIndex.le (a b : QModelIndex) : Prop :=
  a.row < b.row ∨ (a.row = b.row ∧ a.column ≤ b.column)

instance : DecidableRel QModelIndex.le := fun a b => by
  unfold QModelIndex.le
  exact inferInstance

namespace MainWindow

/-- Constructor, "Setup the measurement model" and "Set the initial state of table items"
(lines 182-205): ten rows with an item in the mode and offset columns and none in the
measurement column, the current index at the first measurement cell, and no selection. -/
def setupMeasModel (w : MainWindow) : MainWindow :=
  let model := List.replicate MEAS_TABLE_ROWS (MeasRow.mk none none none)
  let model := model.map fun r => (r.setItem 0 []).setItem 2 []
  let w := { w with measModel_ := model }
  let w := { w with ui := setCurrentIndex (QModelIndex.mk 0 1) w.ui }
  { w with ui := clearSelection w.ui }

/-- Method `measTableCopyList`, "Collect the list of populated measurement items in the
table" (lines 815-821): one step of the loop. -/
def measTableCopyList_collect (includeEmpty : Bool) (acc : List MeasRow × List QString)
    (index : QModelIndex) : List MeasRow × List QString :=
  match itemFromIndex acc.1 index with
  | (model, some text) =>
    if index.column = 1 ∧ (includeEmpty ∨ ¬ text.isEmpty) then (model, acc.2 ++ [text])
    else (model, acc.2)
  | (model, none) => (model, acc.2)

/-- Method `measTableCopyList`, "Build the string to put in the clipboard" (lines 831-845):
one step of the loop. -/
def measTableCopyList_append (separator : QString) (copiedText numElement : QString) :
    QString :=
  (if !copiedText.isEmpty then copiedText ++ separator else copiedText) ++ numElement

/-- Method `measTableCopyList`.  The result is the window together with the text moved to
the clipboard; `windows` tells whether `Q_OS_WIN` is defined. -/
def measTableCopyList (windows : Bool) (indexList : List QModelIndex) (includeEmpty : Bool)
    (w : MainWindow) : MainWindow × QString :=
  let collected := indexList.foldl (measTableCopyList_collect includeEmpty) (w.measModel_, [])
  let numList := collected.2
  let horizCopy := w.ui.horizCopyRadioButton
  let separator : QString :=
    if horizCopy then ['\t'] else if windows then ['\r', '\n'] else ['\n']
  let copiedText := numList.foldl (measTableCopyList_append separator) []
  ({ w with measModel_ := collected.1 }, copiedText)

/-- Method `measTableCopy`; `selectedRows` is the list that
`selectionModel()->selectedRows(1)` returns. -/
def measTableCopy (windows : Bool) (selectedRows : List QModelIndex) (w : MainWindow) :
    MainWindow × QString :=
  let selected := selectedRows.insertionSort QModelIndex.le
  measTableCopyList windows selected true w

/-- Method `measTableDelete`: one step of the loop; `measModel_->item(row, c)` is null
outside the model and where the cell has no item. -/
def measTableDelete_row (model : List MeasRow) (index : QModelIndex) : List MeasRow :=
  if 0 ≤ index.row then
    match model[index.row.toNat]? with
    | some r => model.set index.row.toNat r.clearText
    | none => model
  else model

/-- Method `measTableDelete`; `selectedRows` is the list that
`selectionModel()->selectedRows(1)` returns. -/
def measTableDelete (selectedRows : List QModelIndex) (w : MainWindow) : MainWindow :=
  { w with measModel_ := selectedRows.foldl measTableDelete_row w.measModel_ }

/-- Method `measTableCut`. -/
def measTableCut (windows : Bool) (selectedRows : List QModelIndex) (w : MainWindow) :
    MainWindow × QString :=
  let copied := measTableCopy windows selectedRows w
  (measTableDelete selectedRows copied.1, copied.2)

/-- Handler `onClearTableClicked`.  Scrolling is left out. -/
def onClearTableClicked (w : MainWindow) : MainWindow :=
  let w :=
    if w.measModel_.length > MEAS_TABLE_ROWS then
      { w with measModel_ := removeRows w.measModel_ MEAS_TABLE_ROWS (w.measModel_.length - 10) }
    else w
  let w := { w with measModel_ := w.measModel_.map MeasRow.clearText }
  let w := { w with ui := setCurrentIndex (QModelIndex.mk 0 1) w.ui }
  { w with ui := clearSelection w.ui }

end MainWindow

/-! ## Measurement table: paste, and the operations on the table -/

/-- The characters that the separator pattern of `measTablePaste`,
`"\n|\r\n|\r|\t|[,;]\\s*|\\s+"`, is made of; `isSpace` is Qt `QChar::isSpace`, the
meaning of `\s`. -/
def isSeparatorChar (isSpace : Char → Bool) (c : Char) : Bool :=
  c == '\n' || c == '\r' || c == '\t' || c == ',' || c == ';' || isSpace c

/-- Qt `text.split(QRegExp("\n|\r\n|\r|\t|[,;]\\s*|\\s+"), Qt::SkipEmptyParts)`.  Every
alternative of the pattern matches separator characters only and at least one of
them, and every separator character alone is matched by one alternative: so a match
starts at the first separator character after the previous match, whatever the
alternative chosen, and the parts that are not empty are the longest runs of
characters that are not separators. -/
def splitSkipEmptyParts (isSpace : Char → Bool) (text : QString) : List QString :=
  (text.splitOnP (isSeparatorChar isSpace)).filter fun element => !element.isEmpty

namespace MainWindow

/-- Method `measTablePaste`, "Capture and split the text to be pasted" (lines 863-876).
The argument `mimeData` is the text of the clipboard, `none` when `hasText()` is false;
`elementToFloat` is Qt `QString::toFloat` with its `ok` flag, taken as an argument so
that the numbers do not depend on which notations it accepts. -/
def measTablePaste_numList (isSpace : Char → Bool) (elementToFloat : QString → F32 × Bool)
    (mimeData : Option QString) : List F32 :=
  match mimeData with
  | some text =>
    (splitSkipEmptyParts isSpace text).filterMap fun element =>
      if (elementToFloat element).2 then some (elementToFloat element).1 else none
  | none => []

/-- Method `measTablePaste`. -/
def measTablePaste (isSpace : Char → Bool) (elementToFloat : QString → F32 × Bool)
    (mimeData : Option QString) (w : MainWindow) : MainWindow :=
  (measTablePaste_numList isSpace elementToFloat mimeData).foldl
    (fun w num => measTableAddReading DensityType.DensityUnknown num qSNaN w) w

end MainWindow

/-- An operation on the measurement table: a change of the selection and of the current
index made in the view, or one of the methods of `MainWindow` that change the table. -/
inductive TableOp where
  | select (selected : List QModelIndex) (current : QModelIndex)
  | addReading (type : DensityType) (density offset : F32)
  | paste (mimeData : Option QString)
  | copy (selectedRows : List QModelIndex)
  | delete (selectedRows : List QModelIndex)
  | clear

/-- The window after an operation on the measurement table. -/
def TableOp.apply (windows : Bool) (isSpace : Char → Bool)
    (elementToFloat : QString → F32 × Bool) (w : MainWindow) : TableOp → MainWindow
  | TableOp.select selected current =>
    { w with ui := { w.ui with measSelected := selected, measCurrent := current } }
  | TableOp.addReading type density offset =>
    MainWindow.measTableAddReading type density offset w
  | TableOp.paste mimeData => MainWindow.measTablePaste isSpace elementToFloat mimeData w
  | TableOp.copy selectedRows => (MainWindow.measTableCopy windows selectedRows w).1
  | TableOp.delete selectedRows => MainWindow.measTableDelete selectedRows w
  | TableOp.clear => MainWindow.onClearTableClicked w

/-- The window after a sequence of operations on the measurement table, starting from
the table as the constructor sets it up. -/
def tableAfter (windows : Bool) (isSpace : Char → Bool)
    (elementToFloat : QString → F32 × Bool) (w : MainWindow) (ops : List TableOp) :
    MainWindow :=
  ops.foldl (TableOp.apply windows isSpace elementToFloat) (MainWindow.setupMeasModel w)

/-- The white space of the ASCII range, a part of what `QChar::isSpace` accepts. -/
def asciiSpace (c : Char) : Bool :=
  c == ' ' || c == '\t' || c == '\n' || c == '\x0b' || c == '\x0c' || c == '\r'

/-- A window with the rows 3 and 2 of the measurement column selected and the current
index in row 5. -/
def selectionWindow : MainWindow :=
  { blankWindow with
    ui := { blankUi with
      measSelected := [QModelIndex.mk 3 1, QModelIndex.mk 2 1]
      measCurrent := QModelIndex.mk 5 1 } }

/-- A window with the current index in the last row of the table and no selection. -/
def lastRowWindow : MainWindow :=
  { blankWindow with ui := { blankUi with measCurrent := QModelIndex.mk 9 1 } }

/-- A window with the rows 0 and 1 of the table selected, the current index in row 1,
row 0 holding items without text and row 1 the reflection reading `1.00`. -/
def emptyFirstRowWindow : MainWindow :=
  { blankWindow with
    ui := { blankUi with
      measSelected := [QModelIndex.mk 0 1, QModelIndex.mk 1 1]
      measCurrent := QModelIndex.mk 1 1 }
    measModel_ :=
      [MeasRow.mk (some []) (some []) (some []),
       MeasRow.mk (some ['R']) (some ['1', '.', '0', '0']) (some [])]
      ++ List.replicate 8 (MeasRow.mk (some []) none (some [])) }

/-! ## Measurement table: cell texts, and the edit menu -/

/-- The text of the measurement cell (column 1) of a row of the model; a row outside the
model or a cell without item has no text. -/
def measText (model : List MeasRow) (row : Nat) : QString :=
  match model[row]? with
  | some r => r.text 1
  | none => []

/-- The separator that `measTableCopyList` puts between the fields: a tab for the
horizontal copy, otherwise a line break (`"\r\n"` when `Q_OS_WIN` is defined). -/
def copySeparator (windows : Bool) (ui : Ui) : QString :=
  if ui.horizCopyRadioButton then ['\t'] else if windows then ['\r', '\n'] else ['\n']

/-- The table reached from the constructor by two readings of `1.00`, added to the rows
0 and 1, and the deletion of row 0. -/
def deletedFirstRowWindow : MainWindow :=
  tableAfter false asciiSpace toFloat blankWindow
    [TableOp.addReading DensityType.DensityReflection F32.one F32.nan,
     TableOp.addReading DensityType.DensityReflection F32.one F32.nan,
     TableOp.delete [QModelIndex.mk 0 1]]

/-- What `onMenuEditAboutToShow` asks of a `QLineEdit` that has the focus. -/
structure FocusLineEdit where
  hasSelectedText : Bool
  isReadOnly : Bool
deriving DecidableEq, Repr

/-- What `onMenuEditAboutToShow` asks of the focus widget of a tab: whether it is
`ui->readingValueLineEdit`, whether it is `ui->measTableView`, whether
`ui->measTableView` is an ancestor of it, and the result of
`qobject_cast<const QLineEdit *>` (`none` for the null pointer). -/
structure FocusWidget where
  isReadingValueLineEdit : Bool
  isMeasTableView : Bool
  measTableViewIsAncestor : Bool
  lineEdit : Option FocusLineEdit
deriving DecidableEq, Repr

/-- The state that `onMenuEditAboutToShow` reads besides the current tab: the focus widget
of the measurement tab and of the calibration tab (`none` for the null pointer),
`ui->readingValueLineEdit->hasSelectedText()`, the list
`selectionModel()->selectedRows(1)` of the measurement table, and
`mimeData->hasText()` of the clipboard. -/
structure EditMenuContext where
  tabMeasurementFocusWidget : Option FocusWidget
  tabCalibrationFocusWidget : Option FocusWidget
  readingValueHasSelectedText : Bool
  selectedRows : List QModelIndex
  clipboardHasText : Bool
deriving DecidableEq, Repr

/-- The four local flags of `onMenuEditAboutToShow`. -/
structure EditFlags where
  hasCut : Bool
  hasCopy : Bool
  hasPaste : Bool
  hasDelete : Bool
deriving DecidableEq, Repr

namespace MainWindow

/-- Handler `onMenuEditAboutToShow`, lines 472-510: the flags before the clipboard is
looked at. -/
def onMenuEditAboutToShow_flags (c : EditMenuContext) (w : MainWindow) : EditFlags :=
  let none4 := EditFlags.mk false false false false
  if w.ui.tabWidget = Tab.tabMeasurement then
    match c.tabMeasurementFocusWidget with
    | some focusWidget =>
      if focusWidget.isReadingValueLineEdit && c.readingValueHasSelectedText then
        { none4 with hasCopy := true }
      else if focusWidget.isMeasTableView || focusWidget.measTableViewIsAncestor then
        if !c.selectedRows.isEmpty then EditFlags.mk true true true true else none4
      else none4
    | none => none4
  else if w.ui.tabWidget = Tab.tabCalibration then
    match c.tabCalibrationFocusWidget with
    | some focusWidget =>
      match focusWidget.lineEdit with
      | some lineEdit =>
        if lineEdit.hasSelectedText then
          if !lineEdit.isReadOnly then EditFlags.mk true true true true
          else { none4 with hasCopy := true }
        else
          if !lineEdit.isReadOnly then { none4 with hasPaste := true } else none4
      | none => none4
    | none => none4
  else none4

/-- Handler `onMenuEditAboutToShow`. -/
def onMenuEditAboutToShow (c : EditMenuContext) (w : MainWindow) : MainWindow :=
  let flags := onMenuEditAboutToShow_flags c w
  let hasPaste := if flags.hasPaste then (if !c.clipboardHasText then false else true) else false
  { w with
    ui := { w.ui with
      actionCut := flags.hasCut
      actionCopy := flags.hasCopy
      actionPaste := hasPaste
      actionDelete := flags.hasDelete } }

end MainWindow

/-- A read-only calibration field with selected text has the focus, and the clipboard
holds text. -/
def readOnlyFieldContext : EditMenuContext where
  tabMeasurementFocusWidget := none
  tabCalibrationFocusWidget :=
    some (FocusWidget.mk false false false (some (FocusLineEdit.mk true true)))
  readingValueHasSelectedText := false
  selectedRows := []
  clipboardHasText := true

/-- A connected window whose device slope record holds a NaN with a payload, plus
infinity and minus infinity. -/
def nanSlopeWindow : MainWindow :=
  { blankWindow with
    densInterface_.connected := true
    densInterface_.calSlope := DensCalSlope.mk ⟨true, 2143289345⟩ (F32.inf false) (F32.inf true) }

/-- A connected window whose reflection fields read `0.00`, `100`, `2.00` and `10` and
whose transmission fields are empty. -/
def reflectionOnlyWindow : MainWindow :=
  { blankWindow with
    densInterface_.connected := true
    ui.reflLoDensityLineEdit.text := "0.00".toList
    ui.reflLoReadingLineEdit.text := "100".toList
    ui.reflHiDensityLineEdit.text := "2.00".toList
    ui.reflHiReadingLineEdit.text := "10".toList }

/-- The table reached from the constructor by three readings of `1.00`, added to the rows
0, 1 and 2, and the deletion of row 1. -/
def deletedMiddleRowWindow : MainWindow :=
  tableAfter false asciiSpace toFloat blankWindow
    [TableOp.addReading DensityType.DensityReflection F32.one F32.nan,
     TableOp.addReading DensityType.DensityReflection F32.one F32.nan,
     TableOp.addReading DensityType.DensityReflection F32.one F32.nan,
     TableOp.delete [QModelIndex.mk 1 1]]

/-! ## Theorems -/

namespace MainWindow

/-! ### Frame lemmas: what the later steps of `onDensityReading` leave alone -/

theorem textChanged_lastReadingDensity (old new : QString) (slot : MainWindow → MainWindow)
    (w : MainWindow) (h : ∀ v, (slot v).lastReadingDensity_ = v.lastReadingDensity_) :
    (textChanged old new slot w).lastReadingDensity_ = w.lastReadingDensity_ := by
  unfold textChanged
  split
  · rfl
  · exact h w

theorem textChanged_readingValueLineEdit (old new : QString) (slot : MainWindow → MainWindow)
    (w : MainWindow) (h : ∀ v, (slot v).ui.readingValueLineEdit = v.ui.readingValueLineEdit) :
    (textChanged old new slot w).ui.readingValueLineEdit = w.ui.readingValueLineEdit := by
  unfold textChanged
  split
  · rfl
  · exact h w

theorem measTableAddReading_lastReadingDensity (type : DensityType) (density offset : F32)
    (w : MainWindow) :
    (measTableAddReading type density offset w).lastReadingDensity_ = w.lastReadingDensity_ := by
  unfold measTableAddReading
  dsimp only
  split_ifs <;> rfl

theorem measTableAddReading_readingValueLineEdit (type : DensityType) (density offset : F32)
    (w : MainWindow) :
    (measTableAddReading type density offset w).ui.readingValueLineEdit
      = w.ui.readingValueLineEdit := by
  unfold measTableAddReading
  dsimp only
  split_ifs <;> rfl

theorem onAddReadingClicked_lastReadingDensity (w : MainWindow) :
    (onAddReadingClicked w).lastReadingDensity_ = w.lastReadingDensity_ := by
  unfold onAddReadingClicked
  split
  · rfl
  · exact measTableAddReading_lastReadingDensity _ _ _ w

theorem onAddReadingClicked_readingValueLineEdit (w : MainWindow) :
    (onAddReadingClicked w).ui.readingValueLineEdit = w.ui.readingValueLineEdit := by
  unfold onAddReadingClicked
  split
  · rfl
  · exact measTableAddReading_readingValueLineEdit _ _ _ w

theorem onDensityReading_autoAdd_lastReadingDensity (w : MainWindow) :
    (onDensityReading_autoAdd w).lastReadingDensity_ = w.lastReadingDensity_ := by
  unfold onDensityReading_autoAdd
  split_ifs
  · exact onAddReadingClicked_lastReadingDensity w
  · rfl
  · rfl

theorem onDensityReading_autoAdd_readingValueLineEdit (w : MainWindow) :
    (onDensityReading_autoAdd w).ui.readingValueLineEdit = w.ui.readingValueLineEdit := by
  unfold onDensityReading_autoAdd
  split_ifs
  · exact onAddReadingClicked_readingValueLineEdit w
  · rfl
  · rfl

theorem onDensityReading_calTab_lastReadingDensity (type : DensityType) (corrValue : F32)
    (w : MainWindow) :
    (onDensityReading_calTab type corrValue w).lastReadingDensity_ = w.lastReadingDensity_ := by
  unfold onDensityReading_calTab
  split_ifs <;>
    first
      | rfl
      | exact textChanged_lastReadingDensity _ _ _ _ (fun _ => rfl)

theorem onDensityReading_calTab_readingValueLineEdit (type : DensityType) (corrValue : F32)
    (w : MainWindow) :
    (onDensityReading_calTab type corrValue w).ui.readingValueLineEdit
      = w.ui.readingValueLineEdit := by
  unfold onDensityReading_calTab
  split_ifs <;>
    first
      | rfl
      | exact textChanged_readingValueLineEdit _ _ _ _ (fun _ => rfl)

/-- The value saved by `onDensityReading` is the cleaned-up display value. -/
theorem onDensityReading_lastReadingDensity (type : DensityType)
    (dValue dZero rawValue corrValue : F32) (w : MainWindow) :
    (onDensityReading type dValue dZero rawValue corrValue w).lastReadingDensity_
      = cleanUp (displayValue dValue dZero) := by
  unfold onDensityReading
  dsimp only
  rw [onDensityReading_calTab_lastReadingDensity, onDensityReading_autoAdd_lastReadingDensity]
  rfl

/-- The text shown by `onDensityReading` is the cleaned-up display value in the
format `%1D` with two decimals. -/
theorem onDensityReading_readingValueLineEdit (type : DensityType)
    (dValue dZero rawValue corrValue : F32) (w : MainWindow) :
    (onDensityReading type dValue dZero rawValue corrValue w).ui.readingValueLineEdit
      = arg_4_f_2 (cleanUp (displayValue dValue dZero)) ++ ['D'] := by
  unfold onDensityReading
  dsimp only
  rw [onDensityReading_calTab_readingValueLineEdit,
    onDensityReading_autoAdd_readingValueLineEdit]
  rfl

end MainWindow

/-! ### Density readings -/

/-- The literal `0.01F` is the float nearest to the decimal `0.01`. -/
theorem hundredth_eq_toFloat : toFloat ['0', '.', '0', '1'] = (F32.hundredth, true) := by
  decide

theorem F32.sval_mk_false (m : Fin 2147483648) :
    F32.sval ⟨false, m⟩ = ((F32.units m.val : Nat) : Int) := rfl

theorem F32.sval_mk_true (m : Fin 2147483648) :
    F32.sval ⟨true, m⟩ = -((F32.units m.val : Nat) : Int) := rfl

theorem F32.isNaN_mk (s : Bool) (m : Fin 2147483648) :
    F32.isNaN ⟨s, m⟩ = decide (F32.infMag < m.val) := rfl

/-- The test `qAbs(v) < 0.01F` of the source is the IEEE test `|v| < 0.01F`. -/
theorem lt_qAbs_hundredth (v : F32) :
    F32.lt (qAbs v) F32.hundredth = F32.lt (F32.abs v) F32.hundredth := by
  obtain ⟨s, m⟩ := v
  have hz : F32.zero.sval = 0 := by decide
  have hzn : F32.zero.isNaN = false := by decide
  cases s with
  | false =>
    by_cases hge : F32.ge ⟨false, m⟩ F32.zero = true
    · simp [qAbs, hge, F32.abs]
    · simp only [F32.ge, F32.le, hz, hzn, F32.sval_mk_false, F32.isNaN_mk] at hge
      have hn : F32.infMag < m.val := by
        by_contra hc
        apply hge
        simp [hc]
      simp [qAbs, F32.ge, F32.le, hz, hzn, F32.sval_mk_false, F32.isNaN_mk, hn, F32.neg, F32.abs,
        F32.lt]
  | true =>
    by_cases hge : F32.ge ⟨true, m⟩ F32.zero = true
    · have hge2 := hge
      simp only [F32.ge, F32.le, hz, hzn, F32.sval_mk_true, F32.isNaN_mk] at hge2
      simp only [Bool.not_false, Bool.true_and, Bool.and_eq_true, Bool.not_eq_eq_eq_not,
        Bool.not_true, decide_eq_false_iff_not, not_lt, decide_eq_true_eq] at hge2
      have h0 : F32.units m.val = 0 := by omega
      simp [qAbs, hge, F32.abs, F32.lt, F32.isNaN_mk, F32.sval_mk_true, F32.sval_mk_false, h0]
    · simp [qAbs, hge, F32.neg, F32.abs]

namespace MainWindow

/-- C1: for every density reading `(dValue, dZero)` handled by `onDensityReading`, the
value before clean-up is `dValue - dZero` when `dZero` is not NaN and `dValue`
itself when `dZero` is NaN (no zero set); it is this value, cleaned up, that the
handler saves as the last reading. -/
theorem onDensityReading_value_before_cleanUp (type : DensityType)
    (dValue dZero rawValue corrValue : F32) (w : MainWindow) :
    displayValue dValue dZero = (if dZero.isNaN = true then dValue else F32.sub dValue dZero)
    ∧ (onDensityReading type dValue dZero rawValue corrValue w).lastReadingDensity_
        = cleanUp (if dZero.isNaN = true then dValue else F32.sub dValue dZero) := by
  have h : displayValue dValue dZero
      = (if dZero.isNaN = true then dValue else F32.sub dValue dZero) := by
    unfold displayValue qIsNaN
    cases dZero.isNaN <;> rfl
  exact ⟨h, h ▸ onDensityReading_lastReadingDensity type dValue dZero rawValue corrValue w⟩

/-- C2: for every density reading, with `v` the offset-adjusted value, the value that
`onDensityReading` displays (and saves) is exactly `0.0` when `|v| < 0.01F` and `v`
unchanged otherwise; the text shown is that value with two decimals followed by
`D`, which is `0.00D` for the value `0.0`. -/
theorem onDensityReading_cleanUp (type : DensityType)
    (dValue dZero rawValue corrValue : F32) (w : MainWindow) :
    (onDensityReading type dValue dZero rawValue corrValue w).lastReadingDensity_
        = (if F32.lt (F32.abs (displayValue dValue dZero)) F32.hundredth = true then F32.zero
           else displayValue dValue dZero)
    ∧ (onDensityReading type dValue dZero rawValue corrValue w).ui.readingValueLineEdit
        = arg_4_f_2 (if F32.lt (F32.abs (displayValue dValue dZero)) F32.hundredth = true
            then F32.zero else displayValue dValue dZero) ++ ['D']
    ∧ arg_4_f_2 F32.zero ++ ['D'] = ['0', '.', '0', '0', 'D'] := by
  have h : cleanUp (displayValue dValue dZero)
      = (if F32.lt (F32.abs (displayValue dValue dZero)) F32.hundredth = true then F32.zero
         else displayValue dValue dZero) := by
    unfold cleanUp
    rw [lt_qAbs_hundredth]
  refine ⟨?_, ?_, by decide⟩
  · rw [← h]
    exact onDensityReading_lastReadingDensity type dValue dZero rawValue corrValue w
  · rw [← h]
    exact onDensityReading_readingValueLineEdit type dValue dZero rawValue corrValue w

end MainWindow

/-! ### The calibration Set handlers -/

namespace MainWindow

theorem onCalLightSetClicked_eq (calLight : DensCalLight) (w : MainWindow) :
    onCalLightSetClicked calLight w =
      if (toInt w.ui.reflLightLineEdit.text).2 = true
          ∧ (toInt w.ui.tranLightLineEdit.text).2 = true
          ∧ (DensCalLight.mk (toInt w.ui.reflLightLineEdit.text).1
              (toInt w.ui.tranLightLineEdit.text).1).isValid = true then
        { w with densInterface_ := w.densInterface_.send (Request.sendSetCalLight
            (DensCalLight.mk (toInt w.ui.reflLightLineEdit.text).1
              (toInt w.ui.tranLightLineEdit.text).1)) }
      else w := by
  unfold onCalLightSetClicked
  dsimp only
  split_ifs <;> simp_all

theorem onCalGainSetClicked_eq (calSlope : DensCalGain) (w : MainWindow) :
    onCalGainSetClicked calSlope w =
      if (toFloat w.ui.med0LineEdit.text).2 = true ∧ (toFloat w.ui.med1LineEdit.text).2 = true
          ∧ (toFloat w.ui.high0LineEdit.text).2 = true
          ∧ (toFloat w.ui.high1LineEdit.text).2 = true
          ∧ (toFloat w.ui.max0LineEdit.text).2 = true
          ∧ (toFloat w.ui.max1LineEdit.text).2 = true then
        { w with densInterface_ := w.densInterface_.send (Request.sendSetCalGain
            (DensCalGain.mk F32.one F32.one (toFloat w.ui.med0LineEdit.text).1
              (toFloat w.ui.med1LineEdit.text).1 (toFloat w.ui.high0LineEdit.text).1
              (toFloat w.ui.high1LineEdit.text).1 (toFloat w.ui.max0LineEdit.text).1
              (toFloat w.ui.max1LineEdit.text).1)) }
      else w := by
  unfold onCalGainSetClicked
  dsimp only
  split_ifs <;> simp_all

theorem onCalSlopeSetClicked_eq (calSlope : DensCalSlope) (w : MainWindow) :
    onCalSlopeSetClicked calSlope w =
      if (toFloat w.ui.b0LineEdit.text).2 = true ∧ (toFloat w.ui.b1LineEdit.text).2 = true
          ∧ (toFloat w.ui.b2LineEdit.text).2 = true then
        { w with densInterface_ := w.densInterface_.send (Request.sendSetCalSlope
            (DensCalSlope.mk (toFloat w.ui.b0LineEdit.text).1 (toFloat w.ui.b1LineEdit.text).1
              (toFloat w.ui.b2LineEdit.text).1)) }
      else w := by
  unfold onCalSlopeSetClicked
  dsimp only
  split_ifs <;> simp_all

theorem onCalReflectionSetClicked_eq (calTarget : DensCalTarget) (w : MainWindow) :
    onCalReflectionSetClicked calTarget w =
      if (toFloat w.ui.reflLoDensityLineEdit.text).2 = true
          ∧ (toFloat w.ui.reflLoReadingLineEdit.text).2 = true
          ∧ (toFloat w.ui.reflHiDensityLineEdit.text).2 = true
          ∧ (toFloat w.ui.reflHiReadingLineEdit.text).2 = true then
        { w with densInterface_ := w.densInterface_.send (Request.sendSetCalReflection
            (DensCalTarget.mk (toFloat w.ui.reflLoDensityLineEdit.text).1
              (toFloat w.ui.reflLoReadingLineEdit.text).1
              (toFloat w.ui.reflHiDensityLineEdit.text).1
              (toFloat w.ui.reflHiReadingLineEdit.text).1)) }
      else w := by
  unfold onCalReflectionSetClicked
  dsimp only
  split_ifs <;> simp_all

theorem onCalTransmissionSetClicked_eq (calTarget : DensCalTarget) (w : MainWindow) :
    onCalTransmissionSetClicked calTarget w =
      if (toFloat w.ui.tranLoReadingLineEdit.text).2 = true
          ∧ (toFloat w.ui.tranHiDensityLineEdit.text).2 = true
          ∧ (toFloat w.ui.tranHiReadingLineEdit.text).2 = true then
        { w with densInterface_ := w.densInterface_.send (Request.sendSetCalTransmission
            (DensCalTarget.mk F32.zero (toFloat w.ui.tranLoReadingLineEdit.text).1
              (toFloat w.ui.tranHiDensityLineEdit.text).1
              (toFloat w.ui.tranHiReadingLineEdit.text).1)) }
      else w := by
  unfold onCalTransmissionSetClicked
  dsimp only
  split_ifs <;> simp_all

end MainWindow

namespace MainWindow

/-- C4 (as amended): each calibration Set handler is all-or-nothing.  If one of the
texts it parses fails to parse, nothing is sent.  Otherwise the gain, slope,
reflection and transmission handlers send exactly one request, and the light
handler sends exactly one request when the parsed record is valid and none when it
is not.  A request that is sent carries a record whose every field comes from a
parsed text or a fixed constant, whatever the default-constructed record held. -/
theorem setClicked_all_or_nothing (calLight : DensCalLight) (calGain : DensCalGain)
    (calSlope : DensCalSlope) (calTarget : DensCalTarget) (w : MainWindow) :
    (onCalLightSetClicked calLight w).densInterface_.sent =
      (if (toInt w.ui.reflLightLineEdit.text).2 = true
          ∧ (toInt w.ui.tranLightLineEdit.text).2 = true then
        if (DensCalLight.mk (toInt w.ui.reflLightLineEdit.text).1
              (toInt w.ui.tranLightLineEdit.text).1).isValid = true then
          w.densInterface_.sent ++ [Request.sendSetCalLight
            (DensCalLight.mk (toInt w.ui.reflLightLineEdit.text).1
              (toInt w.ui.tranLightLineEdit.text).1)]
        else w.densInterface_.sent
      else w.densInterface_.sent)
    ∧ (onCalGainSetClicked calGain w).densInterface_.sent =
      (if (toFloat w.ui.med0LineEdit.text).2 = true ∧ (toFloat w.ui.med1LineEdit.text).2 = true
          ∧ (toFloat w.ui.high0LineEdit.text).2 = true
          ∧ (toFloat w.ui.high1LineEdit.text).2 = true
          ∧ (toFloat w.ui.max0LineEdit.text).2 = true
          ∧ (toFloat w.ui.max1LineEdit.text).2 = true then
        w.densInterface_.sent ++ [Request.sendSetCalGain
          (DensCalGain.mk F32.one F32.one (toFloat w.ui.med0LineEdit.text).1
            (toFloat w.ui.med1LineEdit.text).1 (toFloat w.ui.high0LineEdit.text).1
            (toFloat w.ui.high1LineEdit.text).1 (toFloat w.ui.max0LineEdit.text).1
            (toFloat w.ui.max1LineEdit.text).1)]
      else w.densInterface_.sent)
    ∧ (onCalSlopeSetClicked calSlope w).densInterface_.sent =
      (if (toFloat w.ui.b0LineEdit.text).2 = true ∧ (toFloat w.ui.b1LineEdit.text).2 = true
          ∧ (toFloat w.ui.b2LineEdit.text).2 = true then
        w.densInterface_.sent ++ [Request.sendSetCalSlope
          (DensCalSlope.mk (toFloat w.ui.b0LineEdit.text).1 (toFloat w.ui.b1LineEdit.text).1
            (toFloat w.ui.b2LineEdit.text).1)]
      else w.densInterface_.sent)
    ∧ (onCalReflectionSetClicked calTarget w).densInterface_.sent =
      (if (toFloat w.ui.reflLoDensityLineEdit.text).2 = true
          ∧ (toFloat w.ui.reflLoReadingLineEdit.text).2 = true
          ∧ (toFloat w.ui.reflHiDensityLineEdit.text).2 = true
          ∧ (toFloat w.ui.reflHiReadingLineEdit.text).2 = true then
        w.densInterface_.sent ++ [Request.sendSetCalReflection
          (DensCalTarget.mk (toFloat w.ui.reflLoDensityLineEdit.text).1
            (toFloat w.ui.reflLoReadingLineEdit.text).1
            (toFloat w.ui.reflHiDensityLineEdit.text).1
            (toFloat w.ui.reflHiReadingLineEdit.text).1)]
      else w.densInterface_.sent)
    ∧ (onCalTransmissionSetClicked calTarget w).densInterface_.sent =
      (if (toFloat w.ui.tranLoReadingLineEdit.text).2 = true
          ∧ (toFloat w.ui.tranHiDensityLineEdit.text).2 = true
          ∧ (toFloat w.ui.tranHiReadingLineEdit.text).2 = true then
        w.densInterface_.sent ++ [Request.sendSetCalTransmission
          (DensCalTarget.mk F32.zero (toFloat w.ui.tranLoReadingLineEdit.text).1
            (toFloat w.ui.tranHiDensityLineEdit.text).1
            (toFloat w.ui.tranHiReadingLineEdit.text).1)]
      else w.densInterface_.sent) := by
  refine ⟨?_, ?_, ?_, ?_, ?_⟩
  · rw [onCalLightSetClicked_eq]
    split_ifs <;> first | rfl | (exfalso; tauto)
  · rw [onCalGainSetClicked_eq]
    split_ifs <;> rfl
  · rw [onCalSlopeSetClicked_eq]
    split_ifs <;> rfl
  · rw [onCalReflectionSetClicked_eq]
    split_ifs <;> rfl
  · rw [onCalTransmissionSetClicked_eq]
    split_ifs <;> rfl

/-- C4 (as stated) fails for the light handler: with the fields reading `0` and `5`
both texts parse as integers, yet no request is sent, because the record is not
valid. -/
theorem setClicked_light_parsed_not_sent :
    (toInt lightWindow_0_5.ui.reflLightLineEdit.text).2 = true
    ∧ (toInt lightWindow_0_5.ui.tranLightLineEdit.text).2 = true
    ∧ (onCalLightSetClicked (DensCalLight.mk 0 0) lightWindow_0_5).densInterface_.sent
        = lightWindow_0_5.densInterface_.sent := by
  decide

/-- C5: whenever `onCalGainSetClicked` sends a record, that record has `low0 = 1.0` and
`low1 = 1.0`, whatever the gain fields (the low0/low1 line edits included) hold. -/
theorem onCalGainSetClicked_low (calSlope : DensCalGain) (w : MainWindow) (g : DensCalGain)
    (h : (onCalGainSetClicked calSlope w).densInterface_.sent
      = w.densInterface_.sent ++ [Request.sendSetCalGain g]) :
    g.low0 = F32.one ∧ g.low1 = F32.one := by
  rw [onCalGainSetClicked_eq] at h
  split_ifs at h
  · simp only [DensInterface.send, List.append_cancel_left_eq, List.cons.injEq,
      Request.sendSetCalGain.injEq, and_true] at h
    subst h
    exact ⟨rfl, rfl⟩
  · exact absurd h (by simp)

/-- Witness for C5: the fields of `gainWindow` show `7.5` and `abc` for low0/low1, and
the record sent has `1.0` in both. -/
theorem onCalGainSetClicked_low_witness :
    (onCalGainSetClicked zeroGain gainWindow).densInterface_.sent
        = gainWindow.densInterface_.sent ++ [Request.sendSetCalGain gainWindowRecord]
    ∧ (gainWindowRecord.low0 = F32.one ∧ gainWindowRecord.low1 = F32.one) :=
  ⟨by decide, onCalGainSetClicked_low zeroGain gainWindow gainWindowRecord (by decide)⟩

end MainWindow

namespace MainWindow

/-- C7 (as stated) fails: with the lo and hi reading fields both showing `100` (texts
the validators accept, so the Set buttons are enabled), the reflection and the
transmission handler each send a record whose `hi_reading` equals its
`lo_reading`. -/
theorem setClicked_target_equal_readings :
    (onCalReflectionTextChanged equalReadingsWindow).ui.reflSetPushButton = true
    ∧ (onCalReflectionSetClicked zeroTarget equalReadingsWindow).densInterface_.sent
        = [Request.sendSetCalReflection (DensCalTarget.mk ⟨false, 1036831949⟩
            ⟨false, 1120403456⟩ ⟨false, 1073741824⟩ ⟨false, 1120403456⟩)]
    ∧ (onCalTransmissionTextChanged equalReadingsWindow).ui.tranSetPushButton = true
    ∧ (onCalTransmissionSetClicked zeroTarget equalReadingsWindow).densInterface_.sent
        = [Request.sendSetCalTransmission (DensCalTarget.mk F32.zero
            ⟨false, 1120403456⟩ ⟨false, 1077936128⟩ ⟨false, 1120403456⟩)]
    ∧ F32.fne ⟨false, 1120403456⟩ ⟨false, 1120403456⟩ = false := by
  decide

/-- C7 (as amended): for each of the two handlers by itself, a CalTarget record sent by
`onCalReflectionSetClicked` or by `onCalTransmissionSetClicked` carries as `lo_reading`
and `hi_reading` the floats parsed from the lo- and hi-reading fields, so
`hi_reading ≠ lo_reading` holds exactly when those two fields parse to different
floats; the handlers themselves do not test it. -/
theorem setClicked_target_readings (calTarget : DensCalTarget) (w : MainWindow) :
    (∀ tr : DensCalTarget,
      (onCalReflectionSetClicked calTarget w).densInterface_.sent
          = w.densInterface_.sent ++ [Request.sendSetCalReflection tr] →
        tr.loReading = (toFloat w.ui.reflLoReadingLineEdit.text).1
        ∧ tr.hiReading = (toFloat w.ui.reflHiReadingLineEdit.text).1
        ∧ F32.fne tr.hiReading tr.loReading
            = F32.fne (toFloat w.ui.reflHiReadingLineEdit.text).1
                (toFloat w.ui.reflLoReadingLineEdit.text).1)
    ∧ (∀ tt : DensCalTarget,
      (onCalTransmissionSetClicked calTarget w).densInterface_.sent
          = w.densInterface_.sent ++ [Request.sendSetCalTransmission tt] →
        tt.loReading = (toFloat w.ui.tranLoReadingLineEdit.text).1
        ∧ tt.hiReading = (toFloat w.ui.tranHiReadingLineEdit.text).1
        ∧ F32.fne tt.hiReading tt.loReading
            = F32.fne (toFloat w.ui.tranHiReadingLineEdit.text).1
                (toFloat w.ui.tranLoReadingLineEdit.text).1) := by
  constructor
  · intro tr hr
    rw [onCalReflectionSetClicked_eq] at hr
    split_ifs at hr
    · simp only [DensInterface.send, List.append_cancel_left_eq, List.cons.injEq,
        Request.sendSetCalReflection.injEq, and_true] at hr
      subst hr
      exact ⟨rfl, rfl, rfl⟩
    · exact absurd hr (by simp)
  · intro tt ht
    rw [onCalTransmissionSetClicked_eq] at ht
    split_ifs at ht
    · simp only [DensInterface.send, List.append_cancel_left_eq, List.cons.injEq,
        Request.sendSetCalTransmission.injEq, and_true] at ht
      subst ht
      exact ⟨rfl, rfl, rfl⟩
    · exact absurd ht (by simp)

/-- Witness for C7 (as amended): the reflection fields of `reflectionOnlyWindow` read `100`
and `10` and its handler sends `(0.0, 100.0, 2.0, 10.0)`, while its transmission
fields are empty and that handler sends nothing; in `targetWindow` the transmission
handler sends the same record. -/
theorem setClicked_target_readings_witness :
    ((onCalReflectionSetClicked zeroTarget reflectionOnlyWindow).densInterface_.sent
        = reflectionOnlyWindow.densInterface_.sent
            ++ [Request.sendSetCalReflection targetWindowRecord]
      ∧ (onCalTransmissionSetClicked zeroTarget reflectionOnlyWindow).densInterface_.sent
        = reflectionOnlyWindow.densInterface_.sent
      ∧ (onCalTransmissionSetClicked zeroTarget targetWindow).densInterface_.sent
        = targetWindow.densInterface_.sent
            ++ [Request.sendSetCalTransmission targetWindowRecord])
    ∧ ((targetWindowRecord.loReading
          = (toFloat reflectionOnlyWindow.ui.reflLoReadingLineEdit.text).1
      ∧ targetWindowRecord.hiReading
          = (toFloat reflectionOnlyWindow.ui.reflHiReadingLineEdit.text).1
      ∧ F32.fne targetWindowRecord.hiReading targetWindowRecord.loReading
          = F32.fne (toFloat reflectionOnlyWindow.ui.reflHiReadingLineEdit.text).1
              (toFloat reflectionOnlyWindow.ui.reflLoReadingLineEdit.text).1)
    ∧ (targetWindowRecord.loReading = (toFloat targetWindow.ui.tranLoReadingLineEdit.text).1
      ∧ targetWindowRecord.hiReading = (toFloat targetWindow.ui.tranHiReadingLineEdit.text).1
      ∧ F32.fne targetWindowRecord.hiReading targetWindowRecord.loReading
          = F32.fne (toFloat targetWindow.ui.tranHiReadingLineEdit.text).1
              (toFloat targetWindow.ui.tranLoReadingLineEdit.text).1)) :=
  have hr : (onCalReflectionSetClicked zeroTarget reflectionOnlyWindow).densInterface_.sent
      = reflectionOnlyWindow.densInterface_.sent
          ++ [Request.sendSetCalReflection targetWindowRecord] := by decide
  have hn : (onCalTransmissionSetClicked zeroTarget reflectionOnlyWindow).densInterface_.sent
      = reflectionOnlyWindow.densInterface_.sent := by decide
  have ht : (onCalTransmissionSetClicked zeroTarget targetWindow).densInterface_.sent
      = targetWindow.densInterface_.sent
          ++ [Request.sendSetCalTransmission targetWindowRecord] := by decide
  ⟨⟨hr, hn, ht⟩,
    (setClicked_target_readings zeroTarget reflectionOnlyWindow).1 targetWindowRecord hr,
    (setClicked_target_readings zeroTarget targetWindow).2 targetWindowRecord ht⟩

/-- C9: `onCalLightSetClicked` sends a CalLight record exactly when both the reflection
and the transmission field parse as integers and both values lie in `[1, 128]`; the
record sent carries the two parsed values, and for every other input nothing is
sent. -/
theorem onCalLightSetClicked_sent (calLight : DensCalLight) (w : MainWindow) :
    (onCalLightSetClicked calLight w).densInterface_.sent =
      (if (toInt w.ui.reflLightLineEdit.text).2 = true
          ∧ (toInt w.ui.tranLightLineEdit.text).2 = true
          ∧ 1 ≤ (toInt w.ui.reflLightLineEdit.text).1
          ∧ (toInt w.ui.reflLightLineEdit.text).1 ≤ 128
          ∧ 1 ≤ (toInt w.ui.tranLightLineEdit.text).1
          ∧ (toInt w.ui.tranLightLineEdit.text).1 ≤ 128 then
        w.densInterface_.sent ++ [Request.sendSetCalLight
          (DensCalLight.mk (toInt w.ui.reflLightLineEdit.text).1
            (toInt w.ui.tranLightLineEdit.text).1)]
      else w.densInterface_.sent) := by
  rw [onCalLightSetClicked_eq]
  simp only [DensCalLight.isValid, Bool.and_eq_true, decide_eq_true_eq]
  split_ifs <;> first | rfl | (exfalso; tauto)

/-- C10: after the text-changed handler of a calibration group has run, the Set button
of that group is enabled exactly when the device is connected and every editable
field of the group is acceptable to its range validator (light: integers in
`[1, 128]`; gain: the CalGain ranges with at most 6 decimals, and non-empty
low0/low1; slope: `[-100, 100]`; reflection and transmission: their density and
reading ranges, transmission with a non-empty lo-density).  In particular
"disconnected and enabled" never holds. -/
theorem textChanged_setPushButton (w : MainWindow) :
    ((onCalLightTextChanged w).ui.lightSetPushButton =
      (w.densInterface_.connected
        && (Validator.intRange 1 128).acceptable w.ui.reflLightLineEdit.text
        && (Validator.intRange 1 128).acceptable w.ui.tranLightLineEdit.text)
    ∧ (onCalGainTextChanged w).ui.gainSetPushButton =
      (w.densInterface_.connected
        && !w.ui.low0LineEdit.text.isEmpty && !w.ui.low1LineEdit.text.isEmpty
        && (Validator.floatRange (Dec.ofNat 22) (Dec.ofNat 27) 6).acceptable
            w.ui.med0LineEdit.text
        && (Validator.floatRange (Dec.ofNat 22) (Dec.ofNat 27) 6).acceptable
            w.ui.med1LineEdit.text
        && (Validator.floatRange (Dec.ofNat 360) (Dec.ofNat 440) 6).acceptable
            w.ui.high0LineEdit.text
        && (Validator.floatRange (Dec.ofNat 360) (Dec.ofNat 440) 6).acceptable
            w.ui.high1LineEdit.text
        && (Validator.floatRange (Dec.ofNat 8500) (Dec.ofNat 9900) 6).acceptable
            w.ui.max0LineEdit.text
        && (Validator.floatRange (Dec.ofNat 9100) (Dec.ofNat 10700) 6).acceptable
            w.ui.max1LineEdit.text)
    ∧ (onCalSlopeTextChanged w).ui.slopeSetPushButton =
      (w.densInterface_.connected
        && (Validator.floatRange (Dec.mk true 100 0) (Dec.ofNat 100) 6).acceptable
            w.ui.b0LineEdit.text
        && (Validator.floatRange (Dec.mk true 100 0) (Dec.ofNat 100) 6).acceptable
            w.ui.b1LineEdit.text
        && (Validator.floatRange (Dec.mk true 100 0) (Dec.ofNat 100) 6).acceptable
            w.ui.b2LineEdit.text)
    ∧ (onCalReflectionTextChanged w).ui.reflSetPushButton =
      (w.densInterface_.connected
        && (Validator.floatRange (Dec.ofNat 0) (Dec.mk false 25 1) 2).acceptable
            w.ui.reflLoDensityLineEdit.text
        && (Validator.floatRange (Dec.ofNat 0) (Dec.ofNat 500) 6).acceptable
            w.ui.reflLoReadingLineEdit.text
        && (Validator.floatRange (Dec.ofNat 0) (Dec.mk false 25 1) 2).acceptable
            w.ui.reflHiDensityLineEdit.text
        && (Validator.floatRange (Dec.ofNat 0) (Dec.ofNat 500) 6).acceptable
            w.ui.reflHiReadingLineEdit.text)
    ∧ (onCalTransmissionTextChanged w).ui.tranSetPushButton =
      (w.densInterface_.connected
        && !w.ui.tranLoDensityLineEdit.text.isEmpty
        && (Validator.floatRange (Dec.ofNat 0) (Dec.ofNat 500) 6).acceptable
            w.ui.tranLoReadingLineEdit.text
        && (Validator.floatRange (Dec.ofNat 0) (Dec.ofNat 5) 2).acceptable
            w.ui.tranHiDensityLineEdit.text
        && (Validator.floatRange (Dec.ofNat 0) (Dec.ofNat 500) 6).acceptable
            w.ui.tranHiReadingLineEdit.text))
    ∧ (!w.densInterface_.connected
        && ((onCalLightTextChanged w).ui.lightSetPushButton
          || (onCalGainTextChanged w).ui.gainSetPushButton
          || (onCalSlopeTextChanged w).ui.slopeSetPushButton
          || (onCalReflectionTextChanged w).ui.reflSetPushButton
          || (onCalTransmissionTextChanged w).ui.tranSetPushButton)) = false := by
  refine ⟨⟨rfl, rfl, rfl, rfl, rfl⟩, ?_⟩
  cases hc : w.densInterface_.connected
  · simp [onCalLightTextChanged, onCalGainTextChanged, onCalSlopeTextChanged,
      onCalReflectionTextChanged, onCalTransmissionTextChanged, hc]
  · rfl

end MainWindow

/-! ### Rounding to the nearest float -/

namespace F32

theorem units_lt_succ (n : Nat) : units n < units (n + 1) := by
  unfold units
  by_cases hM : n % 8388608 = 8388607
  · have h1 : (n + 1) / 8388608 = n / 8388608 + 1 := by omega
    have h2 : (n + 1) % 8388608 = 0 := by omega
    rw [h1, h2, hM]
    rcases Nat.eq_zero_or_pos (n / 8388608) with hE | hE
    · rw [hE]
      have hn : n = 8388607 := by omega
      subst hn
      decide
    · obtain ⟨k, hk⟩ : ∃ k, n / 8388608 = k + 1 := ⟨n / 8388608 - 1, by omega⟩
      rw [hk]
      simp only [Nat.add_one_ne_zero, ↓reduceIte, Nat.add_sub_cancel, Nat.add_zero]
      rw [pow_succ]
      have : 0 < 2 ^ k := Nat.pow_pos (by norm_num)
      nlinarith
  · have h1 : (n + 1) / 8388608 = n / 8388608 := by omega
    have h2 : (n + 1) % 8388608 = n % 8388608 + 1 := by omega
    rw [h1, h2]
    split_ifs
    · omega
    · have : 0 < 2 ^ (n / 8388608 - 1) := Nat.pow_pos (by norm_num)
      nlinarith

theorem units_strictMono : StrictMono units :=
  strictMono_nat_of_lt_succ units_lt_succ

theorem units_le_iff (a b : Nat) : units a ≤ units b ↔ a ≤ b :=
  units_strictMono.le_iff_le

theorem units_lt_iff (a b : Nat) : units a < units b ↔ a < b :=
  units_strictMono.lt_iff_lt

/-- The binary search returns a pattern in `[acc, acc + 2^k)` whose value does not
exceed the target, and no larger pattern of that window has this property. -/
theorem floorMagAux_spec (num den : Nat) :
    ∀ (k acc : Nat), units acc * den ≤ num →
      acc ≤ floorMagAux num den k acc ∧ floorMagAux num den k acc < acc + 2 ^ k
      ∧ units (floorMagAux num den k acc) * den ≤ num
      ∧ ∀ m, m < acc + 2 ^ k → units m * den ≤ num → m ≤ floorMagAux num den k acc := by
  intro k
  induction k with
  | zero =>
    intro acc h
    refine ⟨le_refl _, by simp [floorMagAux], h, ?_⟩
    intro m hm _
    simp only [floorMagAux]
    simp only [pow_zero] at hm
    omega
  | succ k ih =>
    intro acc h
    have hp : 2 ^ (k + 1) = 2 ^ k + 2 ^ k := by rw [pow_succ]; omega
    by_cases hc : units (acc + 2 ^ k) * den ≤ num
    · have e : floorMagAux num den (k + 1) acc = floorMagAux num den k (acc + 2 ^ k) := by
        simp [floorMagAux, hc]
      obtain ⟨h1, h2, h3, h4⟩ := ih (acc + 2 ^ k) hc
      rw [e]
      refine ⟨by omega, by omega, h3, ?_⟩
      intro m hm hmn
      exact h4 m (by omega) hmn
    · have e : floorMagAux num den (k + 1) acc = floorMagAux num den k acc := by
        simp [floorMagAux, hc]
      obtain ⟨h1, h2, h3, h4⟩ := ih acc h
      rw [e]
      refine ⟨h1, by omega, h3, ?_⟩
      intro m hm hmn
      by_cases hlt : m < acc + 2 ^ k
      · exact h4 m hlt hmn
      · exfalso
        apply hc
        have : units (acc + 2 ^ k) ≤ units m := (units_le_iff _ _).2 (by omega)
        exact le_trans (Nat.mul_le_mul_right den this) hmn

/-- Rounding respects representable bounds: a value between the values of two
patterns `L ≤ H` rounds to a pattern between `L` and `H`. -/
theorem roundMag_bounds (num den L H : Nat) (hden : 0 < den) (hL : L < 2147483648)
    (hlo : units L * den ≤ num) (hhi : num ≤ units H * den) :
    L ≤ roundMag num den ∧ roundMag num den ≤ H := by
  have h0 : units 0 * den ≤ num := by simp [units]
  obtain ⟨-, -, h3, h4⟩ := floorMagAux_spec num den 31 0 h0
  have hLf : L ≤ floorMagAux num den 31 0 := h4 L (by simpa using hL) hlo
  have hfH : floorMagAux num den 31 0 ≤ H := by
    rw [← units_le_iff]
    exact Nat.le_of_mul_le_mul_right (le_trans h3 hhi) hden
  have key : roundMag num den = floorMagAux num den 31 0
      ∨ (roundMag num den = floorMagAux num den 31 0 + 1
        ∧ units (floorMagAux num den 31 0) * den
            + units (floorMagAux num den 31 0 + 1) * den ≤ 2 * num) := by
    unfold roundMag
    dsimp only
    split_ifs with c1 c2 c3
    · exact Or.inl rfl
    · exact Or.inr ⟨rfl, by omega⟩
    · exact Or.inl rfl
    · exact Or.inr ⟨rfl, by omega⟩
  rcases key with e | ⟨e, hge⟩
  · rw [e]; exact ⟨hLf, hfH⟩
  · rw [e]
    refine ⟨by omega, ?_⟩
    by_contra hcon
    have hfeq : floorMagAux num den 31 0 = H := by omega
    rw [hfeq] at hge h3
    have hlt : units H * den < units (H + 1) * den :=
      Nat.mul_lt_mul_of_pos_right (units_lt_succ H) hden
    omega

end F32

namespace F32

theorem mkMag_val_of_lt (n : Nat) (h : n < infMag) : (mkMag n).val = n := by
  unfold mkMag
  rw [dif_pos h]

theorem le_iff (x y : F32) :
    le x y = true ↔ x.isNaN = false ∧ y.isNaN = false ∧ x.sval ≤ y.sval := by
  unfold le
  cases x.isNaN <;> cases y.isNaN <;> simp

theorem lt_iff (x y : F32) :
    lt x y = true ↔ x.isNaN = false ∧ y.isNaN = false ∧ x.sval < y.sval := by
  unfold lt
  cases x.isNaN <;> cases y.isNaN <;> simp

theorem lt_of_le_of_lt_of_le {a b c d : F32} (h1 : le a b = true) (h2 : lt b c = true)
    (h3 : le c d = true) : lt a d = true := by
  rw [le_iff] at h1 h3
  rw [lt_iff] at h2 ⊢
  exact ⟨h1.1, h3.2.1, by omega⟩

theorem le_trans {a b c : F32} (h1 : le a b = true) (h2 : le b c = true) : le a c = true := by
  rw [le_iff] at h1 h2 ⊢
  exact ⟨h1.1, h2.2.1, by omega⟩

end F32

theorem F32.units_zero : F32.units 0 = 0 := by decide

theorem Validator.acceptable_floatRange (lo hi : Dec) (decimals : Nat) (s : QString) :
    (Validator.floatRange lo hi decimals).acceptable s =
      match parseDec s with
      | none => false
      | some d => decide (d.scale ≤ decimals) && Dec.le lo d && Dec.le d hi := rfl

theorem toFloat_of_parseDec (s : QString) (d : Dec) (hp : parseDec s = some d)
    (hfin : d.roundMag < F32.infMag) :
    toFloat s = (⟨d.neg, F32.mkMag d.roundMag⟩, true) := by
  have h1 : s ≠ ['n', 'a', 'n'] := by
    rintro rfl
    have e : parseDec ['n', 'a', 'n'] = none := by decide
    rw [e] at hp
    cases hp
  have h2 : ¬ (s = ['i', 'n', 'f'] ∨ s = ['+', 'i', 'n', 'f']) := by
    rintro (rfl | rfl)
    · have e : parseDec ['i', 'n', 'f'] = none := by decide
      rw [e] at hp
      cases hp
    · have e : parseDec ['+', 'i', 'n', 'f'] = none := by decide
      rw [e] at hp
      cases hp
  have h3 : s ≠ ['-', 'i', 'n', 'f'] := by
    rintro rfl
    have e : parseDec ['-', 'i', 'n', 'f'] = none := by decide
    rw [e] at hp
    cases hp
  unfold toFloat
  rw [if_neg h1, if_neg h2, if_neg h3, hp]
  simp only
  rw [if_neg (by omega)]

/-- A text accepted by a float range validator with a non-negative range parses with
`toFloat`, and the float obtained lies between the floats `L` and `H` whose values
are exactly the two bounds. -/
theorem toFloat_of_acceptable (lo hi : Dec) (decimals : Nat) (s : QString)
    (L H : Fin 2147483648) (hlo : lo.neg = false) (hhi : hi.neg = false)
    (hL : F32.units L.val * 10 ^ lo.scale = lo.digits * 2 ^ 149)
    (hH : F32.units H.val * 10 ^ hi.scale = hi.digits * 2 ^ 149)
    (hHfin : H.val < F32.infMag)
    (hacc : (Validator.floatRange lo hi decimals).acceptable s = true) :
    (toFloat s).2 = true ∧ F32.le ⟨false, L⟩ (toFloat s).1 = true
      ∧ F32.le (toFloat s).1 ⟨false, H⟩ = true := by
  rw [Validator.acceptable_floatRange] at hacc
  cases hp : parseDec s with
  | none => rw [hp] at hacc; exact absurd hacc (by simp)
  | some d =>
    rw [hp] at hacc
    simp only [Bool.and_eq_true, decide_eq_true_eq, Dec.le, Dec.toInt, hlo, hhi,
      Bool.false_eq_true, ↓reduceIte] at hacc
    obtain ⟨⟨-, h1⟩, h2⟩ := hacc
    have p1 : 0 < 10 ^ lo.scale := Nat.pow_pos (by norm_num)
    have p2 : 0 < 10 ^ hi.scale := Nat.pow_pos (by norm_num)
    have p3 : 0 < 10 ^ d.scale := Nat.pow_pos (by norm_num)
    cases hneg : d.neg with
    | false =>
      rw [hneg] at h1 h2
      simp only [Bool.false_eq_true, ↓reduceIte] at h1 h2
      have h1n : lo.digits * 10 ^ d.scale ≤ d.digits * 10 ^ lo.scale := by exact_mod_cast h1
      have h2n : d.digits * 10 ^ hi.scale ≤ hi.digits * 10 ^ d.scale := by exact_mod_cast h2
      have gA : F32.units L.val * 10 ^ d.scale ≤ d.digits * 2 ^ 149 := by
        apply Nat.le_of_mul_le_mul_right _ p1
        calc F32.units L.val * 10 ^ d.scale * 10 ^ lo.scale
            = (F32.units L.val * 10 ^ lo.scale) * 10 ^ d.scale := by ring
          _ = (lo.digits * 10 ^ d.scale) * 2 ^ 149 := by rw [hL]; ring
          _ ≤ (d.digits * 10 ^ lo.scale) * 2 ^ 149 := Nat.mul_le_mul_right _ h1n
          _ = d.digits * 2 ^ 149 * 10 ^ lo.scale := by ring
      have gB : d.digits * 2 ^ 149 ≤ F32.units H.val * 10 ^ d.scale := by
        apply Nat.le_of_mul_le_mul_right _ p2
        calc d.digits * 2 ^ 149 * 10 ^ hi.scale
            = (d.digits * 10 ^ hi.scale) * 2 ^ 149 := by ring
          _ ≤ (hi.digits * 10 ^ d.scale) * 2 ^ 149 := Nat.mul_le_mul_right _ h2n
          _ = (F32.units H.val * 10 ^ hi.scale) * 10 ^ d.scale := by rw [hH]; ring
          _ = F32.units H.val * 10 ^ d.scale * 10 ^ hi.scale := by ring
      obtain ⟨b1, b2⟩ := F32.roundMag_bounds (d.digits * 2 ^ 149) (10 ^ d.scale) L.val H.val p3
        L.isLt gA gB
      have hm : d.roundMag < F32.infMag := by unfold Dec.roundMag; omega
      rw [toFloat_of_parseDec s d hp hm, hneg]
      have hv : (F32.mkMag d.roundMag).val = d.roundMag := F32.mkMag_val_of_lt _ hm
      have b1' : L.val ≤ d.roundMag := b1
      have b2' : d.roundMag ≤ H.val := b2
      refine ⟨rfl, ?_, ?_⟩
      · rw [F32.le_iff]
        refine ⟨by simp only [F32.isNaN_mk, decide_eq_false_iff_not]; omega,
          by simp only [F32.isNaN_mk, hv, decide_eq_false_iff_not]; omega, ?_⟩
        rw [F32.sval_mk_false, F32.sval_mk_false, hv]
        exact_mod_cast (F32.units_le_iff _ _).2 b1'
      · rw [F32.le_iff]
        refine ⟨by simp only [F32.isNaN_mk, hv, decide_eq_false_iff_not]; omega,
          by simp only [F32.isNaN_mk, decide_eq_false_iff_not]; omega, ?_⟩
        rw [F32.sval_mk_false, F32.sval_mk_false, hv]
        exact_mod_cast (F32.units_le_iff _ _).2 b2'
    | true =>
      rw [hneg] at h1 h2
      simp only [↓reduceIte] at h1 h2
      have q1 : (0 : Int) ≤ (lo.digits : Int) * 10 ^ d.scale := by positivity
      have q2 : (0 : Int) ≤ (d.digits : Int) * 10 ^ lo.scale := by positivity
      rw [neg_mul] at h1
      have hd0' : (d.digits : Int) * 10 ^ lo.scale = 0 := by linarith
      have hl0' : (lo.digits : Int) * 10 ^ d.scale = 0 := by linarith
      have hd0 : d.digits = 0 := by
        have : d.digits * 10 ^ lo.scale = 0 := by exact_mod_cast hd0'
        rcases Nat.mul_eq_zero.1 this with h | h
        · exact h
        · omega
      have hl0 : lo.digits = 0 := by
        have : lo.digits * 10 ^ d.scale = 0 := by exact_mod_cast hl0'
        rcases Nat.mul_eq_zero.1 this with h | h
        · exact h
        · omega
      have hL0 : L.val = 0 := by
        rw [hl0, Nat.zero_mul] at hL
        have hu : F32.units L.val = 0 := by
          rcases Nat.mul_eq_zero.1 hL with h | h
          · exact h
          · omega
        have := (F32.units_le_iff L.val 0).1 (by rw [hu]; exact Nat.zero_le _)
        omega
      obtain ⟨-, b2⟩ := F32.roundMag_bounds (d.digits * 2 ^ 149) (10 ^ d.scale) 0 0 p3
        (by norm_num) (by rw [hd0, F32.units_zero]; simp) (by rw [hd0, F32.units_zero]; simp)
      have hm0 : d.roundMag = 0 := by unfold Dec.roundMag; omega
      have hm : d.roundMag < F32.infMag := by rw [hm0]; decide
      rw [toFloat_of_parseDec s d hp hm, hneg]
      have hv : (F32.mkMag d.roundMag).val = 0 := by rw [F32.mkMag_val_of_lt _ hm, hm0]
      refine ⟨rfl, ?_, ?_⟩
      · rw [F32.le_iff]
        refine ⟨by simp only [F32.isNaN_mk, decide_eq_false_iff_not]; omega,
          by simp only [F32.isNaN_mk, hv, decide_eq_false_iff_not]; decide, ?_⟩
        rw [F32.sval_mk_false, F32.sval_mk_true, hv, hL0, F32.units_zero]
        simp
      · rw [F32.le_iff]
        refine ⟨by simp only [F32.isNaN_mk, hv, decide_eq_false_iff_not]; decide,
          by simp only [F32.isNaN_mk, decide_eq_false_iff_not]; omega, ?_⟩
        rw [F32.sval_mk_false, F32.sval_mk_true, hv, F32.units_zero]
        simp

namespace MainWindow

theorem updateLineEditDirtyState_text (lineEdit : QLineEdit) (value : F32) (prec : Nat) :
    (updateLineEditDirtyState lineEdit value prec).text = lineEdit.text := by
  unfold updateLineEditDirtyState
  split <;> rfl

/-- C6: when the gain Set button is enabled (connected, and every gain field accepted by
its validator: med in `[22, 27]`, high in `[360, 440]`, max0 in `[8500, 9900]`, max1
in `[9100, 10700]`), a click sends exactly one CalGain record, in which every
ratio is `≥ 1.0` and, on each channel, `low < med < high < max`. -/
theorem gain_set_path_ratios (calSlope : DensCalGain) (w : MainWindow)
    (h : (onCalGainTextChanged w).ui.gainSetPushButton = true) :
    ∃ g : DensCalGain,
      (onCalGainSetClicked calSlope (onCalGainTextChanged w)).densInterface_.sent
          = w.densInterface_.sent ++ [Request.sendSetCalGain g]
      ∧ (F32.le F32.one g.low0 = true ∧ F32.le F32.one g.low1 = true
        ∧ F32.le F32.one g.med0 = true ∧ F32.le F32.one g.med1 = true
        ∧ F32.le F32.one g.high0 = true ∧ F32.le F32.one g.high1 = true
        ∧ F32.le F32.one g.max0 = true ∧ F32.le F32.one g.max1 = true)
      ∧ (F32.lt g.low0 g.med0 = true ∧ F32.lt g.med0 g.high0 = true
        ∧ F32.lt g.high0 g.max0 = true)
      ∧ (F32.lt g.low1 g.med1 = true ∧ F32.lt g.med1 g.high1 = true
        ∧ F32.lt g.high1 g.max1 = true) := by
  change (w.densInterface_.connected
    && !w.ui.low0LineEdit.text.isEmpty && !w.ui.low1LineEdit.text.isEmpty
    && (Validator.floatRange (Dec.ofNat 22) (Dec.ofNat 27) 6).acceptable w.ui.med0LineEdit.text
    && (Validator.floatRange (Dec.ofNat 22) (Dec.ofNat 27) 6).acceptable w.ui.med1LineEdit.text
    && (Validator.floatRange (Dec.ofNat 360) (Dec.ofNat 440) 6).acceptable
        w.ui.high0LineEdit.text
    && (Validator.floatRange (Dec.ofNat 360) (Dec.ofNat 440) 6).acceptable
        w.ui.high1LineEdit.text
    && (Validator.floatRange (Dec.ofNat 8500) (Dec.ofNat 9900) 6).acceptable
        w.ui.max0LineEdit.text
    && (Validator.floatRange (Dec.ofNat 9100) (Dec.ofNat 10700) 6).acceptable
        w.ui.max1LineEdit.text) = true at h
  simp only [Bool.and_eq_true] at h
  obtain ⟨⟨⟨⟨⟨⟨⟨⟨-, -⟩, -⟩, a0⟩, a1⟩, a2⟩, a3⟩, a4⟩, a5⟩ := h
  obtain ⟨m0, m0l, m0h⟩ := toFloat_of_acceptable (Dec.ofNat 22) (Dec.ofNat 27) 6 _
    1102053376 1104674816 rfl rfl (by decide) (by decide) (by decide) a0
  obtain ⟨m1, m1l, m1h⟩ := toFloat_of_acceptable (Dec.ofNat 22) (Dec.ofNat 27) 6 _
    1102053376 1104674816 rfl rfl (by decide) (by decide) (by decide) a1
  obtain ⟨h0, h0l, h0h⟩ := toFloat_of_acceptable (Dec.ofNat 360) (Dec.ofNat 440) 6 _
    1135869952 1138491392 rfl rfl (by decide) (by decide) (by decide) a2
  obtain ⟨h1, h1l, h1h⟩ := toFloat_of_acceptable (Dec.ofNat 360) (Dec.ofNat 440) 6 _
    1135869952 1138491392 rfl rfl (by decide) (by decide) (by decide) a3
  obtain ⟨x0, x0l, x0h⟩ := toFloat_of_acceptable (Dec.ofNat 8500) (Dec.ofNat 9900) 6 _
    1174720512 1176154112 rfl rfl (by decide) (by decide) (by decide) a4
  obtain ⟨x1, x1l, x1h⟩ := toFloat_of_acceptable (Dec.ofNat 9100) (Dec.ofNat 10700) 6 _
    1175334912 1176973312 rfl rfl (by decide) (by decide) (by decide) a5
  refine ⟨DensCalGain.mk F32.one F32.one (toFloat w.ui.med0LineEdit.text).1
    (toFloat w.ui.med1LineEdit.text).1 (toFloat w.ui.high0LineEdit.text).1
    (toFloat w.ui.high1LineEdit.text).1 (toFloat w.ui.max0LineEdit.text).1
    (toFloat w.ui.max1LineEdit.text).1, ?_, ?_, ?_, ?_⟩
  · rw [onCalGainSetClicked_eq]
    simp only [onCalGainTextChanged, updateLineEditDirtyState_text]
    rw [if_pos ⟨m0, m1, h0, h1, x0, x1⟩]
    rfl
  · have c22 : F32.le F32.one ⟨false, 1102053376⟩ = true := by decide
    have c360 : F32.le F32.one ⟨false, 1135869952⟩ = true := by decide
    have c8500 : F32.le F32.one ⟨false, 1174720512⟩ = true := by decide
    have c9100 : F32.le F32.one ⟨false, 1175334912⟩ = true := by decide
    have c1 : F32.le F32.one F32.one = true := by decide
    exact ⟨c1, c1, F32.le_trans c22 m0l, F32.le_trans c22 m1l,
      F32.le_trans c360 h0l, F32.le_trans c360 h1l, F32.le_trans c8500 x0l,
      F32.le_trans c9100 x1l⟩
  · exact ⟨F32.lt_of_le_of_lt_of_le (by decide : F32.le F32.one F32.one = true)
        (by decide : F32.lt F32.one ⟨false, 1102053376⟩ = true) m0l,
      F32.lt_of_le_of_lt_of_le m0h (by decide) h0l,
      F32.lt_of_le_of_lt_of_le h0h (by decide) x0l⟩
  · exact ⟨F32.lt_of_le_of_lt_of_le (by decide : F32.le F32.one F32.one = true)
        (by decide : F32.lt F32.one ⟨false, 1102053376⟩ = true) m1l,
      F32.lt_of_le_of_lt_of_le m1h (by decide) h1l,
      F32.lt_of_le_of_lt_of_le h1h (by decide) x1l⟩

/-- Witness for C6: the fields of `gainWindow` are accepted, the button is enabled and
the record sent is ordered. -/
theorem gain_set_path_ratios_witness :
    (onCalGainTextChanged gainWindow).ui.gainSetPushButton = true
    ∧ ∃ g : DensCalGain,
      (onCalGainSetClicked zeroGain (onCalGainTextChanged gainWindow)).densInterface_.sent
          = gainWindow.densInterface_.sent ++ [Request.sendSetCalGain g]
      ∧ (F32.le F32.one g.low0 = true ∧ F32.le F32.one g.low1 = true
        ∧ F32.le F32.one g.med0 = true ∧ F32.le F32.one g.med1 = true
        ∧ F32.le F32.one g.high0 = true ∧ F32.le F32.one g.high1 = true
        ∧ F32.le F32.one g.max0 = true ∧ F32.le F32.one g.max1 = true)
      ∧ (F32.lt g.low0 g.med0 = true ∧ F32.lt g.med0 g.high0 = true
        ∧ F32.lt g.high0 g.max0 = true)
      ∧ (F32.lt g.low1 g.med1 = true ∧ F32.lt g.med1 g.high1 = true
        ∧ F32.lt g.high1 g.max1 = true) :=
  ⟨by decide, gain_set_path_ratios zeroGain gainWindow (by decide)⟩

end MainWindow

namespace MainWindow

/-- C8: a CalTarget record sent by `onCalTransmissionSetClicked` has `lo_density = 0.0`
whatever the transmission fields hold, while a record sent by
`onCalReflectionSetClicked` takes `lo_density` from the user's lo-density field;
a text which that field's validator accepts gives a float in `[0.0, 2.5]`. -/
theorem target_loDensity (calTarget : DensCalTarget) (w : MainWindow)
    (tr tt : DensCalTarget) :
    ((onCalTransmissionSetClicked calTarget w).densInterface_.sent
        = w.densInterface_.sent ++ [Request.sendSetCalTransmission tt]
      → tt.loDensity = F32.zero)
    ∧ ((onCalReflectionSetClicked calTarget w).densInterface_.sent
        = w.densInterface_.sent ++ [Request.sendSetCalReflection tr]
      → tr.loDensity = (toFloat w.ui.reflLoDensityLineEdit.text).1)
    ∧ (w.ui.reflLoDensityLineEdit.hasAcceptableInput validators.reflLoDensityLineEdit = true
      → (toFloat w.ui.reflLoDensityLineEdit.text).2 = true
        ∧ F32.le F32.zero (toFloat w.ui.reflLoDensityLineEdit.text).1 = true
        ∧ F32.le (toFloat w.ui.reflLoDensityLineEdit.text).1 F32.twoAndHalf = true) := by
  refine ⟨?_, ?_, ?_⟩
  · intro ht
    rw [onCalTransmissionSetClicked_eq] at ht
    split_ifs at ht
    · simp only [DensInterface.send, List.append_cancel_left_eq, List.cons.injEq,
        Request.sendSetCalTransmission.injEq, and_true] at ht
      subst ht
      rfl
    · exact absurd ht (by simp)
  · intro hr
    rw [onCalReflectionSetClicked_eq] at hr
    split_ifs at hr
    · simp only [DensInterface.send, List.append_cancel_left_eq, List.cons.injEq,
        Request.sendSetCalReflection.injEq, and_true] at hr
      subst hr
      rfl
    · exact absurd hr (by simp)
  · intro hv
    exact toFloat_of_acceptable (Dec.ofNat 0) (Dec.mk false 25 1) 2 _ 0 1075838976 rfl rfl
      (by decide) (by decide) (by decide) hv

/-- Witness for C8: in `equalReadingsWindow` the reflection lo-density field reads
`0.10`; the transmission record sent has lo-density `0.0`, the reflection record
has the float nearest `0.10`, which lies in `[0.0, 2.5]`. -/
theorem target_loDensity_witness :
    ((onCalTransmissionSetClicked zeroTarget equalReadingsWindow).densInterface_.sent
        = equalReadingsWindow.densInterface_.sent ++ [Request.sendSetCalTransmission
            (DensCalTarget.mk F32.zero ⟨false, 1120403456⟩ ⟨false, 1077936128⟩
              ⟨false, 1120403456⟩)]
      ∧ (onCalReflectionSetClicked zeroTarget equalReadingsWindow).densInterface_.sent
        = equalReadingsWindow.densInterface_.sent ++ [Request.sendSetCalReflection
            (DensCalTarget.mk ⟨false, 1036831949⟩ ⟨false, 1120403456⟩ ⟨false, 1073741824⟩
              ⟨false, 1120403456⟩)]
      ∧ equalReadingsWindow.ui.reflLoDensityLineEdit.hasAcceptableInput
          validators.reflLoDensityLineEdit = true)
    ∧ (F32.zero = F32.zero
      ∧ (⟨false, 1036831949⟩ : F32)
          = (toFloat equalReadingsWindow.ui.reflLoDensityLineEdit.text).1
      ∧ ((toFloat equalReadingsWindow.ui.reflLoDensityLineEdit.text).2 = true
        ∧ F32.le F32.zero (toFloat equalReadingsWindow.ui.reflLoDensityLineEdit.text).1 = true
        ∧ F32.le (toFloat equalReadingsWindow.ui.reflLoDensityLineEdit.text).1
            F32.twoAndHalf = true)) :=
  have t := target_loDensity zeroTarget equalReadingsWindow
    (DensCalTarget.mk ⟨false, 1036831949⟩ ⟨false, 1120403456⟩ ⟨false, 1073741824⟩
      ⟨false, 1120403456⟩)
    (DensCalTarget.mk F32.zero ⟨false, 1120403456⟩ ⟨false, 1077936128⟩ ⟨false, 1120403456⟩)
  ⟨by decide, t.1 (by decide), t.2.1 (by decide), t.2.2 (by decide)⟩

end MainWindow

/-! ### Fixed-decimal text read back by the parser -/

theorem digitVal_digitChar (d : Nat) (h : d < 10) : digitVal (digitChar d) = some d := by
  interval_cases d <;> decide

theorem parseDigits_append (xs ys : List Char) (acc : Nat) :
    parseDigits (xs ++ ys) acc = (parseDigits xs acc).bind (fun a => parseDigits ys a) := by
  induction xs generalizing acc with
  | nil => rfl
  | cons c cs ih =>
    simp only [List.cons_append, parseDigits]
    cases digitVal c with
    | none => rfl
    | some d => exact ih _

theorem parseDigits_digitsFixed (k n acc : Nat) :
    parseDigits (digitsFixed k n) acc = some (acc * 10 ^ k + n % 10 ^ k) := by
  induction k generalizing n acc with
  | zero => simp [digitsFixed, parseDigits, Nat.mod_one]
  | succ k ih =>
    rw [digitsFixed, parseDigits_append, ih]
    simp only [Option.some_bind, parseDigits, digitVal_digitChar _ (Nat.mod_lt n (by norm_num))]
    congr 1
    have h1 : n % 10 ^ (k + 1) = 10 * (n / 10 % 10 ^ k) + n % 10 := by
      rw [pow_succ, mul_comm (10 ^ k) 10, Nat.mod_mul]
      omega
    rw [h1, pow_succ]
    ring

theorem digitsFixed_length (k n : Nat) : (digitsFixed k n).length = k := by
  induction k generalizing n with
  | zero => rfl
  | succ k ih => simp [digitsFixed, ih]

theorem digitsFixed_isDigit (k n : Nat) : ∀ c ∈ digitsFixed k n, (digitVal c).isSome = true := by
  induction k generalizing n with
  | zero => simp [digitsFixed]
  | succ k ih =>
    intro c hc
    simp only [digitsFixed, List.mem_append, List.mem_singleton] at hc
    rcases hc with hc | hc
    · exact ih _ c hc
    · rw [hc, digitVal_digitChar _ (Nat.mod_lt n (by norm_num))]
      rfl

theorem parseDigits_dropWhile_zero (xs : List Char) :
    parseDigits (xs.dropWhile (fun c => c == '0')) 0 = parseDigits xs 0 := by
  induction xs with
  | nil => rfl
  | cons c cs ih =>
    by_cases hc : c = '0'
    · subst hc
      simp only [List.dropWhile_cons, beq_self_eq_true, ↓reduceIte, ih]
      rfl
    · have : (c == '0') = false := by simpa using hc
      simp only [List.dropWhile_cons, this, Bool.false_eq_true, ↓reduceIte]

theorem intDigits_isDigit (n : Nat) : ∀ c ∈ intDigits n, (digitVal c).isSome = true := by
  intro c hc
  unfold intDigits at hc
  split at hc
  · simp only [List.mem_singleton] at hc
    subst hc
    decide
  · exact digitsFixed_isDigit 39 n c (List.dropWhile_sublist _ |>.subset hc)

theorem intDigits_ne_nil (n : Nat) : intDigits n ≠ [] := by
  unfold intDigits
  split
  · simp
  · next h => exact fun e => h e

theorem parseDigits_intDigits (n : Nat) (h : n < 10 ^ 39) :
    parseDigits (intDigits n) 0 = some n := by
  have key := parseDigits_dropWhile_zero (digitsFixed 39 n)
  rw [parseDigits_digitsFixed, Nat.zero_mul, Nat.zero_add, Nat.mod_eq_of_lt h] at key
  unfold intDigits
  split
  · next heq =>
    rw [heq] at key
    simp only [parseDigits, Option.some.injEq] at key
    subst key
    rfl
  · exact key

theorem splitAtDot_append_dot (xs ys : List Char)
    (h : ∀ c ∈ xs, (digitVal c).isSome = true) :
    splitAtDot (xs ++ '.' :: ys) = (xs, some ys) := by
  induction xs with
  | nil => simp [splitAtDot]
  | cons c cs ih =>
    have hc : c ≠ '.' := by
      intro e
      have := h c (List.mem_cons_self _ _)
      rw [e] at this
      exact absurd this (by decide)
    have ih' := ih (fun c hc => h c (List.mem_cons_of_mem _ hc))
    show splitAtDot (c :: (cs ++ '.' :: ys)) = (c :: cs, some ys)
    simp only [splitAtDot, hc, ↓reduceIte, ih']

theorem splitAtDot_digits (xs : List Char) (h : ∀ c ∈ xs, (digitVal c).isSome = true) :
    splitAtDot xs = (xs, none) := by
  induction xs with
  | nil => rfl
  | cons c cs ih =>
    have hc : c ≠ '.' := by
      intro e
      have := h c (List.mem_cons_self _ _)
      rw [e] at this
      exact absurd this (by decide)
    have ih' := ih (fun c hc => h c (List.mem_cons_of_mem _ hc))
    simp only [splitAtDot, hc, ↓reduceIte, ih']

/-- The digits of `n`, a point and `k` more digits parse back as the numeral
`(10^k * n + f) / 10^k`. -/
theorem parseUnsigned_fixed (neg : Bool) (n f k : Nat) (hn : n < 10 ^ 39) (hf : f < 10 ^ k) :
    parseUnsigned neg (intDigits n ++ '.' :: digitsFixed k f)
      = some ⟨neg, n * 10 ^ k + f, k⟩ := by
  unfold parseUnsigned
  rw [splitAtDot_append_dot _ _ (intDigits_isDigit n)]
  have hne : (intDigits n).isEmpty = false := by
    cases h : intDigits n with
    | nil => exact absurd h (intDigits_ne_nil n)
    | cons _ _ => rfl
  simp only [hne, Bool.false_and, Bool.false_eq_true, ↓reduceIte]
  rw [parseDigits_append, parseDigits_intDigits n hn, Option.some_bind, parseDigits_digitsFixed,
    Nat.mod_eq_of_lt hf, digitsFixed_length]
  rfl

theorem parseDec_of_digit_head (cs : List Char) (h : ∀ c ∈ cs, (digitVal c).isSome = true)
    (ys : List Char) : parseDec (cs ++ ys) = parseUnsigned false (cs ++ ys) ∨ cs = [] := by
  cases cs with
  | nil => exact Or.inr rfl
  | cons c cs =>
    left
    have h1 : c ≠ '-' := by
      intro e
      have := h c (List.mem_cons_self _ _)
      rw [e] at this
      exact absurd this (by decide)
    have h2 : c ≠ '+' := by
      intro e
      have := h c (List.mem_cons_self _ _)
      rw [e] at this
      exact absurd this (by decide)
    simp only [List.cons_append]
    unfold parseDec
    split
    · next heq => simp only [List.cons.injEq] at heq; exact absurd heq.1 h1
    · next heq => simp only [List.cons.injEq] at heq; exact absurd heq.1 h2
    · rfl

theorem F32.scaled_bound (x : F32) (prec : Nat) (hfin : x.isFinite = true) :
    x.scaled prec * 2 ^ 149 ≤ F32.units 2139095039 * 10 ^ prec := by
  have hm : x.mag.val ≤ 2139095039 := by
    simp only [F32.isFinite, F32.infMag, decide_eq_true_eq] at hfin
    omega
  have hu : F32.units x.mag.val ≤ F32.units 2139095039 := (F32.units_le_iff _ _).2 hm
  have hU : F32.units 2139095039 = (16777215 * 2 ^ 104) * 2 ^ 149 := by decide
  have hs : x.scaled prec < 16777215 * 2 ^ 104 * 10 ^ prec + 1 := by
    unfold F32.scaled
    rw [Nat.div_lt_iff_lt_mul (by positivity)]
    have : 2 * (F32.units x.mag.val * 10 ^ prec) ≤ 2 * (F32.units 2139095039 * 10 ^ prec) :=
      Nat.mul_le_mul_left 2 (Nat.mul_le_mul_right _ hu)
    rw [hU] at this
    have e : (16777215 * 2 ^ 104 * 10 ^ prec + 1) * (2 * 2 ^ 149)
        = 2 * (16777215 * 2 ^ 104 * 2 ^ 149 * 10 ^ prec) + 2 * 2 ^ 149 := by ring
    rw [e]
    have : 0 < 2 ^ 149 := by positivity
    omega
  rw [hU]
  calc x.scaled prec * 2 ^ 149 ≤ (16777215 * 2 ^ 104 * 10 ^ prec) * 2 ^ 149 :=
        Nat.mul_le_mul_right _ (by omega)
    _ = 16777215 * 2 ^ 104 * 2 ^ 149 * 10 ^ prec := by ring

theorem parseDec_minus (cs : List Char) : parseDec ('-' :: cs) = parseUnsigned true cs := rfl

theorem parseDec_number_f (x : F32) (prec : Nat) (hnan : x.isNaN = false)
    (hinf : x.isInf = false) (hp : 0 < prec) (hI : x.scaled prec / 10 ^ prec < 10 ^ 39) :
    parseDec (number_f x prec) = some ⟨x.sign, x.scaled prec, prec⟩ := by
  have hF : x.scaled prec % 10 ^ prec < 10 ^ prec := Nat.mod_lt _ (by positivity)
  have hval : x.scaled prec / 10 ^ prec * 10 ^ prec + x.scaled prec % 10 ^ prec
      = x.scaled prec := Nat.div_add_mod' _ _
  unfold number_f
  rw [hnan, hinf]
  rw [if_neg (by decide), if_neg (by decide), if_neg (Nat.pos_iff_ne_zero.1 hp)]
  cases hs : x.sign with
  | true =>
    rw [if_pos rfl, List.append_assoc, List.singleton_append, parseDec_minus,
      parseUnsigned_fixed true _ _ _ hI hF, hval]
  | false =>
    rw [if_neg (by decide), List.nil_append]
    rcases parseDec_of_digit_head _ (intDigits_isDigit (x.scaled prec / 10 ^ prec))
      ('.' :: digitsFixed prec (x.scaled prec % 10 ^ prec)) with h | h
    · rw [h, parseUnsigned_fixed false _ _ _ hI hF, hval]
    · exact absurd h (intDigits_ne_nil _)

/-- The fixed-decimal text of a finite float always parses: `toFloat` succeeds on it and
returns the float nearest to the decimal shown. -/
theorem toFloat_number_f (x : F32) (prec : Nat) (hfin : x.isFinite = true) (hp : 0 < prec) :
    toFloat (number_f x prec)
      = (⟨x.sign, F32.mkMag (F32.roundMag (x.scaled prec * 2 ^ 149) (10 ^ prec))⟩, true) := by
  have hb := F32.scaled_bound x prec hfin
  have p10 : 0 < 10 ^ prec := by positivity
  have hI : x.scaled prec / 10 ^ prec < 10 ^ 39 := by
    rw [Nat.div_lt_iff_lt_mul p10]
    have hU : F32.units 2139095039 = (16777215 * 2 ^ 104) * 2 ^ 149 := by decide
    rw [hU] at hb
    have h1 : x.scaled prec * 2 ^ 149 ≤ (16777215 * 2 ^ 104 * 10 ^ prec) * 2 ^ 149 := by
      calc x.scaled prec * 2 ^ 149 ≤ 16777215 * 2 ^ 104 * 2 ^ 149 * 10 ^ prec := hb
        _ = (16777215 * 2 ^ 104 * 10 ^ prec) * 2 ^ 149 := by ring
    have h2 := Nat.le_of_mul_le_mul_right h1 (by positivity)
    have h3 : 16777215 * 2 ^ 104 < 10 ^ 39 := by norm_num
    calc x.scaled prec ≤ 16777215 * 2 ^ 104 * 10 ^ prec := h2
      _ < 10 ^ 39 * 10 ^ prec := Nat.mul_lt_mul_of_pos_right h3 p10
  have hnan : x.isNaN = false := by
    simp only [F32.isFinite, F32.isNaN, decide_eq_true_eq, decide_eq_false_iff_not] at hfin ⊢
    omega
  have hinf : x.isInf = false := by
    simp only [F32.isFinite, F32.isInf, decide_eq_true_eq, decide_eq_false_iff_not] at hfin ⊢
    omega
  have hparse : parseDec (number_f x prec) = some ⟨x.sign, x.scaled prec, prec⟩ :=
    parseDec_number_f x prec hnan hinf hp hI
  have hr : (Dec.mk x.sign (x.scaled prec) prec).roundMag < F32.infMag := by
    unfold Dec.roundMag
    have := (F32.roundMag_bounds (x.scaled prec * 2 ^ 149) (10 ^ prec) 0 2139095039 p10
      (by norm_num) (by rw [F32.units_zero]; simp) hb).2
    show F32.roundMag _ _ < F32.infMag
    exact Nat.lt_of_le_of_lt this (by decide)
  rw [toFloat_of_parseDec _ _ hparse hr]
  simp only [Dec.roundMag]

/-! ### What the response handlers leave in the fields -/

namespace MainWindow

theorem setText_med0LineEdit_fields (text : QString) (w : MainWindow) :
    (setText_med0LineEdit text w).ui.med0LineEdit.text = text
    ∧ (setText_med0LineEdit text w).ui.med1LineEdit.text = w.ui.med1LineEdit.text
    ∧ (setText_med0LineEdit text w).ui.high0LineEdit.text = w.ui.high0LineEdit.text
    ∧ (setText_med0LineEdit text w).ui.high1LineEdit.text = w.ui.high1LineEdit.text
    ∧ (setText_med0LineEdit text w).ui.max0LineEdit.text = w.ui.max0LineEdit.text
    ∧ (setText_med0LineEdit text w).ui.max1LineEdit.text = w.ui.max1LineEdit.text
    ∧ (setText_med0LineEdit text w).densInterface_ = w.densInterface_ := by
  unfold setText_med0LineEdit textChanged
  split
  · exact ⟨rfl, rfl, rfl, rfl, rfl, rfl, rfl⟩
  · refine ⟨?_, ?_, ?_, ?_, ?_, ?_, ?_⟩ <;>
      first
        | rfl
        | exact updateLineEditDirtyState_text _ _ _

theorem setText_med1LineEdit_fields (text : QString) (w : MainWindow) :
    (setText_med1LineEdit text w).ui.med0LineEdit.text = w.ui.med0LineEdit.text
    ∧ (setText_med1LineEdit text w).ui.med1LineEdit.text = text
    ∧ (setText_med1LineEdit text w).ui.high0LineEdit.text = w.ui.high0LineEdit.text
    ∧ (setText_med1LineEdit text w).ui.high1LineEdit.text = w.ui.high1LineEdit.text
    ∧ (setText_med1LineEdit text w).ui.max0LineEdit.text = w.ui.max0LineEdit.text
    ∧ (setText_med1LineEdit text w).ui.max1LineEdit.text = w.ui.max1LineEdit.text
    ∧ (setText_med1LineEdit text w).densInterface_ = w.densInterface_ := by
  unfold setText_med1LineEdit textChanged
  split
  · exact ⟨rfl, rfl, rfl, rfl, rfl, rfl, rfl⟩
  · refine ⟨?_, ?_, ?_, ?_, ?_, ?_, ?_⟩ <;>
      first
        | rfl
        | exact updateLineEditDirtyState_text _ _ _

theorem setText_high0LineEdit_fields (text : QString) (w : MainWindow) :
    (setText_high0LineEdit text w).ui.med0LineEdit.text = w.ui.med0LineEdit.text
    ∧ (setText_high0LineEdit text w).ui.med1LineEdit.text = w.ui.med1LineEdit.text
    ∧ (setText_high0LineEdit text w).ui.high0LineEdit.text = text
    ∧ (setText_high0LineEdit text w).ui.high1LineEdit.text = w.ui.high1LineEdit.text
    ∧ (setText_high0LineEdit text w).ui.max0LineEdit.text = w.ui.max0LineEdit.text
    ∧ (setText_high0LineEdit text w).ui.max1LineEdit.text = w.ui.max1LineEdit.text
    ∧ (setText_high0LineEdit text w).densInterface_ = w.densInterface_ := by
  unfold setText_high0LineEdit textChanged
  split
  · exact ⟨rfl, rfl, rfl, rfl, rfl, rfl, rfl⟩
  · refine ⟨?_, ?_, ?_, ?_, ?_, ?_, ?_⟩ <;>
      first
        | rfl
        | exact updateLineEditDirtyState_text _ _ _

theorem setText_high1LineEdit_fields (text : QString) (w : MainWindow) :
    (setText_high1LineEdit text w).ui.med0LineEdit.text = w.ui.med0LineEdit.text
    ∧ (setText_high1LineEdit text w).ui.med1LineEdit.text = w.ui.med1LineEdit.text
    ∧ (setText_high1LineEdit text w).ui.high0LineEdit.text = w.ui.high0LineEdit.text
    ∧ (setText_high1LineEdit text w).ui.high1LineEdit.text = text
    ∧ (setText_high1LineEdit text w).ui.max0LineEdit.text = w.ui.max0LineEdit.text
    ∧ (setText_high1LineEdit text w).ui.max1LineEdit.text = w.ui.max1LineEdit.text
    ∧ (setText_high1LineEdit text w).densInterface_ = w.densInterface_ := by
  unfold setText_high1LineEdit textChanged
  split
  · exact ⟨rfl, rfl, rfl, rfl, rfl, rfl, rfl⟩
  · refine ⟨?_, ?_, ?_, ?_, ?_, ?_, ?_⟩ <;>
      first
        | rfl
        | exact updateLineEditDirtyState_text _ _ _

theorem setText_max0LineEdit_fields (text : QString) (w : MainWindow) :
    (setText_max0LineEdit text w).ui.med0LineEdit.text = w.ui.med0LineEdit.text
    ∧ (setText_max0LineEdit text w).ui.med1LineEdit.text = w.ui.med1LineEdit.text
    ∧ (setText_max0LineEdit text w).ui.high0LineEdit.text = w.ui.high0LineEdit.text
    ∧ (setText_max0LineEdit text w).ui.high1LineEdit.text = w.ui.high1LineEdit.text
    ∧ (setText_max0LineEdit text w).ui.max0LineEdit.text = text
    ∧ (setText_max0LineEdit text w).ui.max1LineEdit.text = w.ui.max1LineEdit.text
    ∧ (setText_max0LineEdit text w).densInterface_ = w.densInterface_ := by
  unfold setText_max0LineEdit textChanged
  split
  · exact ⟨rfl, rfl, rfl, rfl, rfl, rfl, rfl⟩
  · refine ⟨?_, ?_, ?_, ?_, ?_, ?_, ?_⟩ <;>
      first
        | rfl
        | exact updateLineEditDirtyState_text _ _ _

theorem setText_max1LineEdit_fields (text : QString) (w : MainWindow) :
    (setText_max1LineEdit text w).ui.med0LineEdit.text = w.ui.med0LineEdit.text
    ∧ (setText_max1LineEdit text w).ui.med1LineEdit.text = w.ui.med1LineEdit.text
    ∧ (setText_max1LineEdit text w).ui.high0LineEdit.text = w.ui.high0LineEdit.text
    ∧ (setText_max1LineEdit text w).ui.high1LineEdit.text = w.ui.high1LineEdit.text
    ∧ (setText_max1LineEdit text w).ui.max0LineEdit.text = w.ui.max0LineEdit.text
    ∧ (setText_max1LineEdit text w).ui.max1LineEdit.text = text
    ∧ (setText_max1LineEdit text w).densInterface_ = w.densInterface_ := by
  unfold setText_max1LineEdit textChanged
  split
  · exact ⟨rfl, rfl, rfl, rfl, rfl, rfl, rfl⟩
  · refine ⟨?_, ?_, ?_, ?_, ?_, ?_, ?_⟩ <;>
      first
        | rfl
        | exact updateLineEditDirtyState_text _ _ _

theorem setText_b0LineEdit_fields (text : QString) (w : MainWindow) :
    (setText_b0LineEdit text w).ui.b0LineEdit.text = text
    ∧ (setText_b0LineEdit text w).ui.b1LineEdit.text = w.ui.b1LineEdit.text
    ∧ (setText_b0LineEdit text w).ui.b2LineEdit.text = w.ui.b2LineEdit.text
    ∧ (setText_b0LineEdit text w).densInterface_ = w.densInterface_ := by
  unfold setText_b0LineEdit textChanged
  split
  · exact ⟨rfl, rfl, rfl, rfl⟩
  · refine ⟨?_, ?_, ?_, ?_⟩ <;>
      first
        | rfl
        | exact updateLineEditDirtyState_text _ _ _

theorem setText_b1LineEdit_fields (text : QString) (w : MainWindow) :
    (setText_b1LineEdit text w).ui.b0LineEdit.text = w.ui.b0LineEdit.text
    ∧ (setText_b1LineEdit text w).ui.b1LineEdit.text = text
    ∧ (setText_b1LineEdit text w).ui.b2LineEdit.text = w.ui.b2LineEdit.text
    ∧ (setText_b1LineEdit text w).densInterface_ = w.densInterface_ := by
  unfold setText_b1LineEdit textChanged
  split
  · exact ⟨rfl, rfl, rfl, rfl⟩
  · refine ⟨?_, ?_, ?_, ?_⟩ <;>
      first
        | rfl
        | exact updateLineEditDirtyState_text _ _ _

theorem setText_b2LineEdit_fields (text : QString) (w : MainWindow) :
    (setText_b2LineEdit text w).ui.b0LineEdit.text = w.ui.b0LineEdit.text
    ∧ (setText_b2LineEdit text w).ui.b1LineEdit.text = w.ui.b1LineEdit.text
    ∧ (setText_b2LineEdit text w).ui.b2LineEdit.text = text
    ∧ (setText_b2LineEdit text w).densInterface_ = w.densInterface_ := by
  unfold setText_b2LineEdit textChanged
  split
  · exact ⟨rfl, rfl, rfl, rfl⟩
  · refine ⟨?_, ?_, ?_, ?_⟩ <;>
      first
        | rfl
        | exact updateLineEditDirtyState_text _ _ _

theorem setText_reflLoDensityLineEdit_fields (text : QString) (w : MainWindow) :
    (setText_reflLoDensityLineEdit text w).ui.reflLoDensityLineEdit.text = text
    ∧ (setText_reflLoDensityLineEdit text w).ui.reflLoReadingLineEdit.text = w.ui.reflLoReadingLineEdit.text
    ∧ (setText_reflLoDensityLineEdit text w).ui.reflHiDensityLineEdit.text = w.ui.reflHiDensityLineEdit.text
    ∧ (setText_reflLoDensityLineEdit text w).ui.reflHiReadingLineEdit.text = w.ui.reflHiReadingLineEdit.text
    ∧ (setText_reflLoDensityLineEdit text w).densInterface_ = w.densInterface_ := by
  unfold setText_reflLoDensityLineEdit textChanged
  split
  · exact ⟨rfl, rfl, rfl, rfl, rfl⟩
  · refine ⟨?_, ?_, ?_, ?_, ?_⟩ <;>
      first
        | rfl
        | exact updateLineEditDirtyState_text _ _ _

theorem setText_reflLoReadingLineEdit_fields (text : QString) (w : MainWindow) :
    (setText_reflLoReadingLineEdit text w).ui.reflLoDensityLineEdit.text = w.ui.reflLoDensityLineEdit.text
    ∧ (setText_reflLoReadingLineEdit text w).ui.reflLoReadingLineEdit.text = text
    ∧ (setText_reflLoReadingLineEdit text w).ui.reflHiDensityLineEdit.text = w.ui.reflHiDensityLineEdit.text
    ∧ (setText_reflLoReadingLineEdit text w).ui.reflHiReadingLineEdit.text = w.ui.reflHiReadingLineEdit.text
    ∧ (setText_reflLoReadingLineEdit text w).densInterface_ = w.densInterface_ := by
  unfold setText_reflLoReadingLineEdit textChanged
  split
  · exact ⟨rfl, rfl, rfl, rfl, rfl⟩
  · refine ⟨?_, ?_, ?_, ?_, ?_⟩ <;>
      first
        | rfl
        | exact updateLineEditDirtyState_text _ _ _

theorem setText_reflHiDensityLineEdit_fields (text : QString) (w : MainWindow) :
    (setText_reflHiDensityLineEdit text w).ui.reflLoDensityLineEdit.text = w.ui.reflLoDensityLineEdit.text
    ∧ (setText_reflHiDensityLineEdit text w).ui.reflLoReadingLineEdit.text = w.ui.reflLoReadingLineEdit.text
    ∧ (setText_reflHiDensityLineEdit text w).ui.reflHiDensityLineEdit.text = text
    ∧ (setText_reflHiDensityLineEdit text w).ui.reflHiReadingLineEdit.text = w.ui.reflHiReadingLineEdit.text
    ∧ (setText_reflHiDensityLineEdit text w).densInterface_ = w.densInterface_ := by
  unfold setText_reflHiDensityLineEdit textChanged
  split
  · exact ⟨rfl, rfl, rfl, rfl, rfl⟩
  · refine ⟨?_, ?_, ?_, ?_, ?_⟩ <;>
      first
        | rfl
        | exact updateLineEditDirtyState_text _ _ _

theorem setText_reflHiReadingLineEdit_fields (text : QString) (w : MainWindow) :
    (setText_reflHiReadingLineEdit text w).ui.reflLoDensityLineEdit.text = w.ui.reflLoDensityLineEdit.text
    ∧ (setText_reflHiReadingLineEdit text w).ui.reflLoReadingLineEdit.text = w.ui.reflLoReadingLineEdit.text
    ∧ (setText_reflHiReadingLineEdit text w).ui.reflHiDensityLineEdit.text = w.ui.reflHiDensityLineEdit.text
    ∧ (setText_reflHiReadingLineEdit text w).ui.reflHiReadingLineEdit.text = text
    ∧ (setText_reflHiReadingLineEdit text w).densInterface_ = w.densInterface_ := by
  unfold setText_reflHiReadingLineEdit textChanged
  split
  · exact ⟨rfl, rfl, rfl, rfl, rfl⟩
  · refine ⟨?_, ?_, ?_, ?_, ?_⟩ <;>
      first
        | rfl
        | exact updateLineEditDirtyState_text _ _ _

theorem setText_tranLoReadingLineEdit_fields (text : QString) (w : MainWindow) :
    (setText_tranLoReadingLineEdit text w).ui.tranLoReadingLineEdit.text = text
    ∧ (setText_tranLoReadingLineEdit text w).ui.tranHiDensityLineEdit.text = w.ui.tranHiDensityLineEdit.text
    ∧ (setText_tranLoReadingLineEdit text w).ui.tranHiReadingLineEdit.text = w.ui.tranHiReadingLineEdit.text
    ∧ (setText_tranLoReadingLineEdit text w).densInterface_ = w.densInterface_ := by
  unfold setText_tranLoReadingLineEdit textChanged
  split
  · exact ⟨rfl, rfl, rfl, rfl⟩
  · refine ⟨?_, ?_, ?_, ?_⟩ <;>
      first
        | rfl
        | exact updateLineEditDirtyState_text _ _ _

theorem setText_tranHiDensityLineEdit_fields (text : QString) (w : MainWindow) :
    (setText_tranHiDensityLineEdit text w).ui.tranLoReadingLineEdit.text = w.ui.tranLoReadingLineEdit.text
    ∧ (setText_tranHiDensityLineEdit text w).ui.tranHiDensityLineEdit.text = text
    ∧ (setText_tranHiDensityLineEdit text w).ui.tranHiReadingLineEdit.text = w.ui.tranHiReadingLineEdit.text
    ∧ (setText_tranHiDensityLineEdit text w).densInterface_ = w.densInterface_ := by
  unfold setText_tranHiDensityLineEdit textChanged
  split
  · exact ⟨rfl, rfl, rfl, rfl⟩
  · refine ⟨?_, ?_, ?_, ?_⟩ <;>
      first
        | rfl
        | exact updateLineEditDirtyState_text _ _ _

theorem setText_tranHiReadingLineEdit_fields (text : QString) (w : MainWindow) :
    (setText_tranHiReadingLineEdit text w).ui.tranLoReadingLineEdit.text = w.ui.tranLoReadingLineEdit.text
    ∧ (setText_tranHiReadingLineEdit text w).ui.tranHiDensityLineEdit.text = w.ui.tranHiDensityLineEdit.text
    ∧ (setText_tranHiReadingLineEdit text w).ui.tranHiReadingLineEdit.text = text
    ∧ (setText_tranHiReadingLineEdit text w).densInterface_ = w.densInterface_ := by
  unfold setText_tranHiReadingLineEdit textChanged
  split
  · exact ⟨rfl, rfl, rfl, rfl⟩
  · refine ⟨?_, ?_, ?_, ?_⟩ <;>
      first
        | rfl
        | exact updateLineEditDirtyState_text _ _ _

end MainWindow

namespace MainWindow

theorem onCalGainResponse_fields (w : MainWindow) :
    (onCalGainResponse w).ui.med0LineEdit.text = number_f w.densInterface_.calGain.med0 6
    ∧ (onCalGainResponse w).ui.med1LineEdit.text = number_f w.densInterface_.calGain.med1 6
    ∧ (onCalGainResponse w).ui.high0LineEdit.text = number_f w.densInterface_.calGain.high0 6
    ∧ (onCalGainResponse w).ui.high1LineEdit.text = number_f w.densInterface_.calGain.high1 6
    ∧ (onCalGainResponse w).ui.max0LineEdit.text = number_f w.densInterface_.calGain.max0 6
    ∧ (onCalGainResponse w).ui.max1LineEdit.text = number_f w.densInterface_.calGain.max1 6
    ∧ (onCalGainResponse w).densInterface_ = w.densInterface_ := by
  unfold onCalGainResponse
  dsimp only
  refine ⟨?_, ?_, ?_, ?_, ?_, ?_, ?_⟩ <;>
    simp only [onCalGainTextChanged, updateLineEditDirtyState_text,
    (setText_med0LineEdit_fields _ _).1,
    (setText_med0LineEdit_fields _ _).2.1,
    (setText_med0LineEdit_fields _ _).2.2.1,
    (setText_med0LineEdit_fields _ _).2.2.2.1,
    (setText_med0LineEdit_fields _ _).2.2.2.2.1,
    (setText_med0LineEdit_fields _ _).2.2.2.2.2.1,
    (setText_med0LineEdit_fields _ _).2.2.2.2.2.2,
    (setText_med1LineEdit_fields _ _).1,
    (setText_med1LineEdit_fields _ _).2.1,
    (setText_med1LineEdit_fields _ _).2.2.1,
    (setText_med1LineEdit_fields _ _).2.2.2.1,
    (setText_med1LineEdit_fields _ _).2.2.2.2.1,
    (setText_med1LineEdit_fields _ _).2.2.2.2.2.1,
    (setText_med1LineEdit_fields _ _).2.2.2.2.2.2,
    (setText_high0LineEdit_fields _ _).1,
    (setText_high0LineEdit_fields _ _).2.1,
    (setText_high0LineEdit_fields _ _).2.2.1,
    (setText_high0LineEdit_fields _ _).2.2.2.1,
    (setText_high0LineEdit_fields _ _).2.2.2.2.1,
    (setText_high0LineEdit_fields _ _).2.2.2.2.2.1,
    (setText_high0LineEdit_fields _ _).2.2.2.2.2.2,
    (setText_high1LineEdit_fields _ _).1,
    (setText_high1LineEdit_fields _ _).2.1,
    (setText_high1LineEdit_fields _ _).2.2.1,
    (setText_high1LineEdit_fields _ _).2.2.2.1,
    (setText_high1LineEdit_fields _ _).2.2.2.2.1,
    (setText_high1LineEdit_fields _ _).2.2.2.2.2.1,
    (setText_high1LineEdit_fields _ _).2.2.2.2.2.2,
    (setText_max0LineEdit_fields _ _).1,
    (setText_max0LineEdit_fields _ _).2.1,
    (setText_max0LineEdit_fields _ _).2.2.1,
    (setText_max0LineEdit_fields _ _).2.2.2.1,
    (setText_max0LineEdit_fields _ _).2.2.2.2.1,
    (setText_max0LineEdit_fields _ _).2.2.2.2.2.1,
    (setText_max0LineEdit_fields _ _).2.2.2.2.2.2,
    (setText_max1LineEdit_fields _ _).1,
    (setText_max1LineEdit_fields _ _).2.1,
    (setText_max1LineEdit_fields _ _).2.2.1,
    (setText_max1LineEdit_fields _ _).2.2.2.1,
    (setText_max1LineEdit_fields _ _).2.2.2.2.1,
    (setText_max1LineEdit_fields _ _).2.2.2.2.2.1,
    (setText_max1LineEdit_fields _ _).2.2.2.2.2.2]

theorem onCalSlopeResponse_fields (w : MainWindow) :
    (onCalSlopeResponse w).ui.b0LineEdit.text = number_f w.densInterface_.calSlope.b0 6
    ∧ (onCalSlopeResponse w).ui.b1LineEdit.text = number_f w.densInterface_.calSlope.b1 6
    ∧ (onCalSlopeResponse w).ui.b2LineEdit.text = number_f w.densInterface_.calSlope.b2 6
    ∧ (onCalSlopeResponse w).densInterface_ = w.densInterface_ := by
  unfold onCalSlopeResponse
  dsimp only
  refine ⟨?_, ?_, ?_, ?_⟩ <;>
    simp only [onCalSlopeTextChanged, updateLineEditDirtyState_text,
    (setText_b0LineEdit_fields _ _).1,
    (setText_b0LineEdit_fields _ _).2.1,
    (setText_b0LineEdit_fields _ _).2.2.1,
    (setText_b0LineEdit_fields _ _).2.2.2,
    (setText_b1LineEdit_fields _ _).1,
    (setText_b1LineEdit_fields _ _).2.1,
    (setText_b1LineEdit_fields _ _).2.2.1,
    (setText_b1LineEdit_fields _ _).2.2.2,
    (setText_b2LineEdit_fields _ _).1,
    (setText_b2LineEdit_fields _ _).2.1,
    (setText_b2LineEdit_fields _ _).2.2.1,
    (setText_b2LineEdit_fields _ _).2.2.2]

theorem onCalReflectionResponse_fields (w : MainWindow) :
    (onCalReflectionResponse w).ui.reflLoDensityLineEdit.text = number_f w.densInterface_.calReflection.loDensity 2
    ∧ (onCalReflectionResponse w).ui.reflLoReadingLineEdit.text = number_f w.densInterface_.calReflection.loReading 6
    ∧ (onCalReflectionResponse w).ui.reflHiDensityLineEdit.text = number_f w.densInterface_.calReflection.hiDensity 2
    ∧ (onCalReflectionResponse w).ui.reflHiReadingLineEdit.text = number_f w.densInterface_.calReflection.hiReading 6
    ∧ (onCalReflectionResponse w).densInterface_ = w.densInterface_ := by
  unfold onCalReflectionResponse
  dsimp only
  refine ⟨?_, ?_, ?_, ?_, ?_⟩ <;>
    simp only [onCalReflectionTextChanged, updateLineEditDirtyState_text,
    (setText_reflLoDensityLineEdit_fields _ _).1,
    (setText_reflLoDensityLineEdit_fields _ _).2.1,
    (setText_reflLoDensityLineEdit_fields _ _).2.2.1,
    (setText_reflLoDensityLineEdit_fields _ _).2.2.2.1,
    (setText_reflLoDensityLineEdit_fields _ _).2.2.2.2,
    (setText_reflLoReadingLineEdit_fields _ _).1,
    (setText_reflLoReadingLineEdit_fields _ _).2.1,
    (setText_reflLoReadingLineEdit_fields _ _).2.2.1,
    (setText_reflLoReadingLineEdit_fields _ _).2.2.2.1,
    (setText_reflLoReadingLineEdit_fields _ _).2.2.2.2,
    (setText_reflHiDensityLineEdit_fields _ _).1,
    (setText_reflHiDensityLineEdit_fields _ _).2.1,
    (setText_reflHiDensityLineEdit_fields _ _).2.2.1,
    (setText_reflHiDensityLineEdit_fields _ _).2.2.2.1,
    (setText_reflHiDensityLineEdit_fields _ _).2.2.2.2,
    (setText_reflHiReadingLineEdit_fields _ _).1,
    (setText_reflHiReadingLineEdit_fields _ _).2.1,
    (setText_reflHiReadingLineEdit_fields _ _).2.2.1,
    (setText_reflHiReadingLineEdit_fields _ _).2.2.2.1,
    (setText_reflHiReadingLineEdit_fields _ _).2.2.2.2]

theorem onCalTransmissionResponse_fields (w : MainWindow) :
    (onCalTransmissionResponse w).ui.tranLoReadingLineEdit.text = number_f w.densInterface_.calTransmission.loReading 6
    ∧ (onCalTransmissionResponse w).ui.tranHiDensityLineEdit.text = number_f w.densInterface_.calTransmission.hiDensity 2
    ∧ (onCalTransmissionResponse w).ui.tranHiReadingLineEdit.text = number_f w.densInterface_.calTransmission.hiReading 6
    ∧ (onCalTransmissionResponse w).densInterface_ = w.densInterface_ := by
  unfold onCalTransmissionResponse
  dsimp only
  refine ⟨?_, ?_, ?_, ?_⟩ <;>
    simp only [onCalTransmissionTextChanged, updateLineEditDirtyState_text,
    (setText_tranLoReadingLineEdit_fields _ _).1,
    (setText_tranLoReadingLineEdit_fields _ _).2.1,
    (setText_tranLoReadingLineEdit_fields _ _).2.2.1,
    (setText_tranLoReadingLineEdit_fields _ _).2.2.2,
    (setText_tranHiDensityLineEdit_fields _ _).1,
    (setText_tranHiDensityLineEdit_fields _ _).2.1,
    (setText_tranHiDensityLineEdit_fields _ _).2.2.1,
    (setText_tranHiDensityLineEdit_fields _ _).2.2.2,
    (setText_tranHiReadingLineEdit_fields _ _).1,
    (setText_tranHiReadingLineEdit_fields _ _).2.1,
    (setText_tranHiReadingLineEdit_fields _ _).2.2.1,
    (setText_tranHiReadingLineEdit_fields _ _).2.2.2]

end MainWindow

namespace MainWindow

/-- C3 (as stated) fails: the device slope `b0 = 0x3F800001` (the float just above one)
is written into its field as `1.000000`, and the Set handler sends `b0 = 1.0` back,
which is a different float; the other two coefficients come back unchanged. -/
theorem response_then_set_loses_precision :
    deviceWindow.densInterface_.calSlope
        = DensCalSlope.mk ⟨false, 1065353217⟩ ⟨false, 1056964608⟩ ⟨true, 1048576000⟩
    ∧ (onCalSlopeResponse deviceWindow).ui.b0LineEdit.text = ['1', '.', '0', '0', '0', '0', '0', '0']
    ∧ (onCalSlopeSetClicked zeroSlope (onCalSlopeResponse deviceWindow)).densInterface_.sent
        = [Request.sendSetCalSlope
            (DensCalSlope.mk ⟨false, 1065353216⟩ ⟨false, 1056964608⟩ ⟨true, 1048576000⟩)]
    ∧ (⟨false, 1065353216⟩ : F32) ≠ ⟨false, 1065353217⟩ := by
  decide

/-- The text of every float parses: `number(x, 'f', prec)` is `nan`, `inf`, `-inf` or a
plain decimal. -/
theorem toFloat_number_f_all (x : F32) (prec : Nat) (hp : 0 < prec) :
    (toFloat (number_f x prec)).2 = true
    ∧ (x.isNaN = true → (toFloat (number_f x prec)).1 = F32.nan)
    ∧ (x.isInf = true → (toFloat (number_f x prec)).1 = x)
    ∧ (x.isFinite = true → (toFloat (number_f x prec)).1
        = ⟨x.sign, F32.mkMag (F32.roundMag (x.scaled prec * 2 ^ 149) (10 ^ prec))⟩) := by
  by_cases hnan : x.isNaN = true
  · have e : toFloat (number_f x prec) = (F32.nan, true) := by
      unfold number_f
      rw [if_pos hnan]
      rfl
    rw [e]
    refine ⟨rfl, fun _ => rfl, ?_, ?_⟩
    · intro hinf
      simp only [F32.isNaN, F32.isInf, decide_eq_true_eq] at hnan hinf
      omega
    · intro hfin
      simp only [F32.isNaN, F32.isFinite, decide_eq_true_eq] at hnan hfin
      omega
  · by_cases hinf : x.isInf = true
    · have hx : x = F32.inf x.sign := by
        obtain ⟨sign, mag⟩ := x
        simp only [F32.isInf, decide_eq_true_eq] at hinf
        simp only [F32.inf, F32.mk.injEq, true_and]
        exact Fin.ext hinf
      have e : toFloat (number_f x prec) = (x, true) := by
        unfold number_f
        rw [if_neg hnan, if_pos hinf]
        rw [hx]
        cases x.sign <;> rfl
      rw [e]
      refine ⟨rfl, ?_, fun _ => rfl, ?_⟩
      · intro h
        exact absurd h hnan
      · intro hfin
        simp only [F32.isInf, F32.isFinite, decide_eq_true_eq] at hinf hfin
        omega
    · have hfin : x.isFinite = true := by
        simp only [F32.isNaN, F32.isInf, F32.isFinite, decide_eq_true_eq] at hnan hinf ⊢
        omega
      rw [toFloat_number_f x prec hfin hp]
      exact ⟨rfl, fun h => absurd h hnan, fun h => absurd h hinf, fun _ => rfl⟩

/-- C3 (as amended): for every device record, each by itself, writing the record into the
calibration fields with the response handler and sending the fields back with the
matching Set handler sends exactly one record, whose fields are the originals
after a pass through their fixed-decimal text (`toFloat` of `number(x, 'f', prec)`,
`prec` being 6, or 2 for the density fields); low0/low1 come back as `1.0` and the
transmission lo-density as `0.0`.  Through that text a NaN comes back as the quiet NaN,
an infinity comes back identical, and a finite float comes back as the float nearest
to its value rounded to `prec` decimals. -/
theorem response_then_set (calGain : DensCalGain) (calSlope : DensCalSlope)
    (calTarget : DensCalTarget) (w : MainWindow) :
    (onCalGainSetClicked calGain (onCalGainResponse w)).densInterface_.sent
        = w.densInterface_.sent ++ [Request.sendSetCalGain (DensCalGain.mk F32.one F32.one
            (toFloat (number_f w.densInterface_.calGain.med0 6)).1
            (toFloat (number_f w.densInterface_.calGain.med1 6)).1
            (toFloat (number_f w.densInterface_.calGain.high0 6)).1
            (toFloat (number_f w.densInterface_.calGain.high1 6)).1
            (toFloat (number_f w.densInterface_.calGain.max0 6)).1
            (toFloat (number_f w.densInterface_.calGain.max1 6)).1)]
    ∧ (onCalSlopeSetClicked calSlope (onCalSlopeResponse w)).densInterface_.sent
        = w.densInterface_.sent ++ [Request.sendSetCalSlope (DensCalSlope.mk
            (toFloat (number_f w.densInterface_.calSlope.b0 6)).1
            (toFloat (number_f w.densInterface_.calSlope.b1 6)).1
            (toFloat (number_f w.densInterface_.calSlope.b2 6)).1)]
    ∧ (onCalReflectionSetClicked calTarget (onCalReflectionResponse w)).densInterface_.sent
        = w.densInterface_.sent ++ [Request.sendSetCalReflection (DensCalTarget.mk
            (toFloat (number_f w.densInterface_.calReflection.loDensity 2)).1
            (toFloat (number_f w.densInterface_.calReflection.loReading 6)).1
            (toFloat (number_f w.densInterface_.calReflection.hiDensity 2)).1
            (toFloat (number_f w.densInterface_.calReflection.hiReading 6)).1)]
    ∧ (onCalTransmissionSetClicked calTarget (onCalTransmissionResponse w)).densInterface_.sent
        = w.densInterface_.sent ++ [Request.sendSetCalTransmission (DensCalTarget.mk F32.zero
            (toFloat (number_f w.densInterface_.calTransmission.loReading 6)).1
            (toFloat (number_f w.densInterface_.calTransmission.hiDensity 2)).1
            (toFloat (number_f w.densInterface_.calTransmission.hiReading 6)).1)]
    ∧ (∀ (x : F32) (prec : Nat), 0 < prec →
        (x.isNaN = true → (toFloat (number_f x prec)).1 = F32.nan)
        ∧ (x.isInf = true → (toFloat (number_f x prec)).1 = x)
        ∧ (x.isFinite = true → (toFloat (number_f x prec)).1
            = ⟨x.sign, F32.mkMag (F32.roundMag (x.scaled prec * 2 ^ 149) (10 ^ prec))⟩)) := by
  have ok6 : ∀ x : F32, (toFloat (number_f x 6)).2 = true :=
    fun x => (toFloat_number_f_all x 6 (by norm_num)).1
  have ok2 : ∀ x : F32, (toFloat (number_f x 2)).2 = true :=
    fun x => (toFloat_number_f_all x 2 (by norm_num)).1
  refine ⟨?_, ?_, ?_, ?_, fun x prec hp => (toFloat_number_f_all x prec hp).2⟩
  · obtain ⟨e0, e1, e2, e3, e4, e5, ed⟩ := onCalGainResponse_fields w
    rw [onCalGainSetClicked_eq, e0, e1, e2, e3, e4, e5, ed]
    rw [if_pos ⟨ok6 _, ok6 _, ok6 _, ok6 _, ok6 _, ok6 _⟩]
    rfl
  · obtain ⟨e0, e1, e2, ed⟩ := onCalSlopeResponse_fields w
    rw [onCalSlopeSetClicked_eq, e0, e1, e2, ed]
    rw [if_pos ⟨ok6 _, ok6 _, ok6 _⟩]
    rfl
  · obtain ⟨e0, e1, e2, e3, ed⟩ := onCalReflectionResponse_fields w
    rw [onCalReflectionSetClicked_eq, e0, e1, e2, e3, ed]
    rw [if_pos ⟨ok2 _, ok6 _, ok2 _, ok6 _⟩]
    rfl
  · obtain ⟨e1, e2, e3, ed⟩ := onCalTransmissionResponse_fields w
    rw [onCalTransmissionSetClicked_eq, e1, e2, e3, ed]
    rw [if_pos ⟨ok6 _, ok2 _, ok6 _⟩]
    rfl

end MainWindow

namespace MainWindow

/-- Witness for C3 (as amended): each response/Set pair on `deviceWindow` sends the record
passed through its text. -/
theorem response_then_set_witness :
    (onCalGainSetClicked zeroGain (onCalGainResponse deviceWindow)).densInterface_.sent
        = deviceWindow.densInterface_.sent ++ [Request.sendSetCalGain (DensCalGain.mk
            F32.one F32.one
            (toFloat (number_f deviceWindow.densInterface_.calGain.med0 6)).1
            (toFloat (number_f deviceWindow.densInterface_.calGain.med1 6)).1
            (toFloat (number_f deviceWindow.densInterface_.calGain.high0 6)).1
            (toFloat (number_f deviceWindow.densInterface_.calGain.high1 6)).1
            (toFloat (number_f deviceWindow.densInterface_.calGain.max0 6)).1
            (toFloat (number_f deviceWindow.densInterface_.calGain.max1 6)).1)]
    ∧ (onCalSlopeSetClicked zeroSlope (onCalSlopeResponse deviceWindow)).densInterface_.sent
        = deviceWindow.densInterface_.sent ++ [Request.sendSetCalSlope (DensCalSlope.mk
            (toFloat (number_f deviceWindow.densInterface_.calSlope.b0 6)).1
            (toFloat (number_f deviceWindow.densInterface_.calSlope.b1 6)).1
            (toFloat (number_f deviceWindow.densInterface_.calSlope.b2 6)).1)]
    ∧ (onCalReflectionSetClicked zeroTarget
          (onCalReflectionResponse deviceWindow)).densInterface_.sent
        = deviceWindow.densInterface_.sent ++ [Request.sendSetCalReflection (DensCalTarget.mk
            (toFloat (number_f deviceWindow.densInterface_.calReflection.loDensity 2)).1
            (toFloat (number_f deviceWindow.densInterface_.calReflection.loReading 6)).1
            (toFloat (number_f deviceWindow.densInterface_.calReflection.hiDensity 2)).1
            (toFloat (number_f deviceWindow.densInterface_.calReflection.hiReading 6)).1)]
    ∧ (onCalTransmissionSetClicked zeroTarget
          (onCalTransmissionResponse deviceWindow)).densInterface_.sent
        = deviceWindow.densInterface_.sent ++ [Request.sendSetCalTransmission
            (DensCalTarget.mk F32.zero
            (toFloat (number_f deviceWindow.densInterface_.calTransmission.loReading 6)).1
            (toFloat (number_f deviceWindow.densInterface_.calTransmission.hiDensity 2)).1
            (toFloat (number_f deviceWindow.densInterface_.calTransmission.hiReading 6)).1)] :=
  ⟨(response_then_set zeroGain zeroSlope zeroTarget deviceWindow).1,
    (response_then_set zeroGain zeroSlope zeroTarget deviceWindow).2.1,
    (response_then_set zeroGain zeroSlope zeroTarget deviceWindow).2.2.1,
    (response_then_set zeroGain zeroSlope zeroTarget deviceWindow).2.2.2.1⟩

/-- A round trip of a record that is not finite: the slope `(NaN, inf, -inf)` is written
as `nan`, `inf` and `-inf`, and the Set handler sends the quiet NaN, which differs
from the original NaN in sign and payload, and the two infinities. -/
theorem response_then_set_nan_example :
    (onCalSlopeResponse nanSlopeWindow).ui.b0LineEdit.text = ['n', 'a', 'n']
    ∧ (onCalSlopeResponse nanSlopeWindow).ui.b1LineEdit.text = ['i', 'n', 'f']
    ∧ (onCalSlopeResponse nanSlopeWindow).ui.b2LineEdit.text = ['-', 'i', 'n', 'f']
    ∧ (onCalSlopeSetClicked zeroSlope (onCalSlopeResponse nanSlopeWindow)).densInterface_.sent
        = [Request.sendSetCalSlope (DensCalSlope.mk F32.nan (F32.inf false) (F32.inf true))]
    ∧ F32.nan ≠ nanSlopeWindow.densInterface_.calSlope.b0 := by
  decide

/-- A round trip that does return the original: every field of `gainWindowRecord` is
the float nearest to a short decimal, and the gain record sent back is identical. -/
theorem response_then_set_identical_example :
    (onCalGainSetClicked zeroGain (onCalGainResponse deviceWindow)).densInterface_.sent
      = [Request.sendSetCalGain deviceWindow.densInterface_.calGain] := by
  decide

end MainWindow

namespace MainWindow

/-- Two readings traced through `onDensityReading`: density `1.0` with zero offset
`0.995` (`0x3F7EB852`) differs from the offset by less than `0.01` and is shown as
`0.00D`; the same density with no zero set (NaN) is shown as `1.00D`. -/
theorem onDensityReading_examples :
    (onDensityReading DensityType.DensityReflection F32.one ⟨false, 1065269330⟩ F32.zero
        F32.zero blankWindow).ui.readingValueLineEdit = ['0', '.', '0', '0', 'D']
    ∧ (onDensityReading DensityType.DensityReflection F32.one ⟨false, 1065269330⟩ F32.zero
        F32.zero blankWindow).lastReadingDensity_ = F32.zero
    ∧ (onDensityReading DensityType.DensityReflection F32.one F32.nan F32.zero
        F32.zero blankWindow).ui.readingValueLineEdit = ['1', '.', '0', '0', 'D']
    ∧ (onDensityReading DensityType.DensityReflection F32.one F32.nan F32.zero
        F32.zero blankWindow).lastReadingDensity_ = F32.one := by
  decide

end MainWindow

/-! ### Loop-back of set-complete signals, and the remote control guard -/

namespace MainWindow

/-- C11: for each calibration record kind (light, gain, slope, reflection,
transmission) the set-complete signal of that kind makes the interface send
exactly one request, the get request of the same kind, so every completed set is
followed by a get of that record. -/
theorem onSetComplete_sends_matching_get (w : MainWindow) :
    (onSetComplete SetCompleteSignal.calLightSetComplete w).densInterface_.sent
        = w.densInterface_.sent ++ [Request.sendGetCalLight]
    ∧ (onSetComplete SetCompleteSignal.calGainSetComplete w).densInterface_.sent
        = w.densInterface_.sent ++ [Request.sendGetCalGain]
    ∧ (onSetComplete SetCompleteSignal.calSlopeSetComplete w).densInterface_.sent
        = w.densInterface_.sent ++ [Request.sendGetCalSlope]
    ∧ (onSetComplete SetCompleteSignal.calReflectionSetComplete w).densInterface_.sent
        = w.densInterface_.sent ++ [Request.sendGetCalReflection]
    ∧ (onSetComplete SetCompleteSignal.calTransmissionSetComplete w).densInterface_.sent
        = w.densInterface_.sent ++ [Request.sendGetCalTransmission] :=
  ⟨rfl, rfl, rfl, rfl, rfl⟩

/-- C12: whenever the remote control dialog is open (`remoteDialog_` set),
`onCalGainCalClicked` returns with the window state unchanged (so no request is
sent and the gain calibration button keeps its state) and without showing any
dialog, whatever the user and the dialog would have done. -/
theorem onCalGainCalClicked_remote_open (messageBox : StandardButton)
    (dialog : DensInterface → DensInterface × Bool) (w : MainWindow)
    (h : w.remoteDialog_ = true) :
    onCalGainCalClicked messageBox dialog w = (w, [])
    ∧ (onCalGainCalClicked messageBox dialog w).1.densInterface_.sent = w.densInterface_.sent
    ∧ (onCalGainCalClicked messageBox dialog w).1.ui.gainCalPushButton
        = w.ui.gainCalPushButton
    ∧ ShownDialog.gainCalibrationDialog ∉ (onCalGainCalClicked messageBox dialog w).2 := by
  have e : onCalGainCalClicked messageBox dialog w = (w, []) := by
    unfold onCalGainCalClicked
    rw [if_pos h]
  rw [e]
  exact ⟨rfl, rfl, rfl, by simp⟩

/-- Witness for C12: in `remoteWindow` the remote control dialog is open and a click on
the gain calibration button changes nothing; in the same window without the
remote dialog the click does open the gain calibration dialog. -/
theorem onCalGainCalClicked_remote_open_witness :
    (remoteWindow.remoteDialog_ = true
      ∧ (onCalGainCalClicked StandardButton.Ok quietDialog
          { remoteWindow with remoteDialog_ := false }).2
        = [ShownDialog.messageBox, ShownDialog.gainCalibrationDialog])
    ∧ (onCalGainCalClicked StandardButton.Ok quietDialog remoteWindow = (remoteWindow, [])
      ∧ (onCalGainCalClicked StandardButton.Ok quietDialog remoteWindow).1.densInterface_.sent
          = remoteWindow.densInterface_.sent
      ∧ (onCalGainCalClicked StandardButton.Ok quietDialog remoteWindow).1.ui.gainCalPushButton
          = remoteWindow.ui.gainCalPushButton
      ∧ ShownDialog.gainCalibrationDialog
          ∉ (onCalGainCalClicked StandardButton.Ok quietDialog remoteWindow).2) :=
  ⟨by decide, onCalGainCalClicked_remote_open StandardButton.Ok quietDialog remoteWindow
    (by decide)⟩

end MainWindow

/-! ### Firmware: normalisation, slope correction and density -/

/-- C13: for every input basic reading, `sensor_apply_slope_calibration` returns the
input unmodified whenever the slope coefficients are at the "not configured"
sentinel. -/
theorem sensor_apply_slope_calibration_unconfigured (coeffs : CalSlope) (basic_reading : ℚ)
    (h : coeffs.unconfigured = true) :
    sensor_apply_slope_calibration coeffs basic_reading = basic_reading := by
  unfold sensor_apply_slope_calibration
  rw [if_pos h]

/-- Witness for C13: with all three coefficients zero the reading 7 comes back as 7
(the polynomial itself would give 0). -/
theorem sensor_apply_slope_calibration_unconfigured_witness :
    (CalSlope.mk 0 0 0).unconfigured = true
    ∧ sensor_apply_slope_calibration (CalSlope.mk 0 0 0) 7 = 7 :=
  ⟨by simp [CalSlope.unconfigured],
    sensor_apply_slope_calibration_unconfigured (CalSlope.mk 0 0 0) 7
      (by simp [CalSlope.unconfigured])⟩

theorem basic_count_lt (k : SensorConsts) (time : tsl2591_time_t) (gain_ratio : ℚ)
    (raw raw2 : Nat) (hrt : 0 < k.reference_time) (hit : 0 < k.integration_time time)
    (hrg : 0 < k.reference_gain) (hg : 0 < gain_ratio) (h : raw < raw2) :
    basic_count k raw time gain_ratio < basic_count k raw2 time gain_ratio := by
  unfold basic_count
  have h1 : 0 < k.reference_time / k.integration_time time := div_pos hrt hit
  have h2 : 0 < k.reference_gain / gain_ratio := div_pos hrg hg
  have h3 : (raw : ℚ) < (raw2 : ℚ) := by exact_mod_cast h
  exact mul_lt_mul_of_pos_right (mul_lt_mul_of_pos_right h3 h1) h2

theorem basic_count_double (k : SensorConsts) (time : tsl2591_time_t) (gain_ratio : ℚ)
    (raw : Nat) :
    basic_count k raw time (2 * gain_ratio) = basic_count k raw time gain_ratio / 2 := by
  unfold basic_count
  rw [div_mul_eq_div_div_swap]
  ring

/-- C15: for valid settings (positive reference time, integration time, reference gain and
gain ratios), `sensor_convert_to_basic_counts` is strictly increasing in the raw
count of each channel, and doubling the calibrated gain ratio of a channel halves
that channel's basic count for the same reading. -/
theorem sensor_convert_to_basic_counts_monotone_inverse (k : SensorConsts)
    (cal cal2 : CalGain) (r1 r2 : sensor_reading_t)
    (hrt : 0 < k.reference_time) (hit : 0 < k.integration_time r1.time)
    (hrg : 0 < k.reference_gain)
    (hg0 : 0 < cal.lookup r1.gain 0) (hg1 : 0 < cal.lookup r1.gain 1)
    (hgain : r2.gain = r1.gain) (htime : r2.time = r1.time) :
    (r1.ch0_val < r2.ch0_val
      → (sensor_convert_to_basic_counts k cal r1).1 < (sensor_convert_to_basic_counts k cal r2).1)
    ∧ (r1.ch1_val < r2.ch1_val
      → (sensor_convert_to_basic_counts k cal r1).2 < (sensor_convert_to_basic_counts k cal r2).2)
    ∧ (cal2.lookup r1.gain 0 = 2 * cal.lookup r1.gain 0
      → (sensor_convert_to_basic_counts k cal2 r1).1
          = (sensor_convert_to_basic_counts k cal r1).1 / 2)
    ∧ (cal2.lookup r1.gain 1 = 2 * cal.lookup r1.gain 1
      → (sensor_convert_to_basic_counts k cal2 r1).2
          = (sensor_convert_to_basic_counts k cal r1).2 / 2) := by
  unfold sensor_convert_to_basic_counts
  simp only [hgain, htime]
  refine ⟨?_, ?_, ?_, ?_⟩
  · intro h
    exact basic_count_lt k _ _ _ _ hrt hit hrg hg0 h
  · intro h
    exact basic_count_lt k _ _ _ _ hrt hit hrg hg1 h
  · intro h
    rw [h]
    exact basic_count_double k _ _ _
  · intro h
    rw [h]
    exact basic_count_double k _ _ _

/-- C16: for the CalTarget with lo point (0.0, 100.0) and hi point (2.0, 10.0), `compute`
yields 1.0 for the input 55.0, 2.0 for 10.0 and 0.0 for 100.0; in general, for
distinct readings, the density is `lo_density + (hi_density - lo_density) /
(hi_reading - lo_reading) * (x - lo_reading)`. -/
theorem compute_interpolates (x : ℚ) (target : CalTarget)
    (h : target.hi_reading ≠ target.lo_reading) :
    compute x target = Except.ok (target.lo_density
        + (target.hi_density - target.lo_density) / (target.hi_reading - target.lo_reading)
          * (x - target.lo_reading))
    ∧ compute 55 exampleTarget = Except.ok 1
    ∧ compute 10 exampleTarget = Except.ok 2
    ∧ compute 100 exampleTarget = Except.ok 0 := by
  refine ⟨?_, ?_, ?_, ?_⟩
  · unfold compute
    rw [if_neg h]
  · norm_num [compute, exampleTarget]
  · norm_num [compute, exampleTarget]
  · norm_num [compute, exampleTarget]

/-- Witness for C16: the general formula at the example target and the input 55. -/
theorem compute_interpolates_witness :
    exampleTarget.hi_reading ≠ exampleTarget.lo_reading
    ∧ (compute 55 exampleTarget = Except.ok (exampleTarget.lo_density
        + (exampleTarget.hi_density - exampleTarget.lo_density)
            / (exampleTarget.hi_reading - exampleTarget.lo_reading)
          * (55 - exampleTarget.lo_reading))
      ∧ compute 55 exampleTarget = Except.ok 1
      ∧ compute 10 exampleTarget = Except.ok 2
      ∧ compute 100 exampleTarget = Except.ok 0) :=
  ⟨by norm_num [exampleTarget],
    compute_interpolates 55 exampleTarget (by norm_num [exampleTarget])⟩

/-- C17: for every input reading and every CalTarget, `compute` fails with
DegenerateCalibration exactly when `hi_reading = lo_reading`; for distinct
readings it does not fail with that error. -/
theorem compute_degenerate_iff (x : ℚ) (target : CalTarget) :
    compute x target = Except.error CoreError.DegenerateCalibration
      ↔ target.hi_reading = target.lo_reading := by
  unfold compute
  by_cases h : target.hi_reading = target.lo_reading
  · simp [h]
  · simp [h]

/-- Witness for C15: with the sample constants, medium gain ratio 25 and raw counts
`(1000, 2000)` against `(1500, 2500)`, the basic counts increase on both channels,
and doubling the medium ratios to 50 halves them. -/
theorem sensor_convert_to_basic_counts_monotone_inverse_witness :
    (0 < exampleConsts.reference_time
      ∧ 0 < exampleConsts.integration_time exampleReadingA.time
      ∧ 0 < exampleConsts.reference_gain
      ∧ 0 < exampleCalGain.lookup exampleReadingA.gain 0
      ∧ 0 < exampleCalGain.lookup exampleReadingA.gain 1
      ∧ exampleReadingB.gain = exampleReadingA.gain
      ∧ exampleReadingB.time = exampleReadingA.time
      ∧ exampleReadingA.ch0_val < exampleReadingB.ch0_val
      ∧ exampleReadingA.ch1_val < exampleReadingB.ch1_val
      ∧ exampleCalGainDoubled.lookup exampleReadingA.gain 0
          = 2 * exampleCalGain.lookup exampleReadingA.gain 0
      ∧ exampleCalGainDoubled.lookup exampleReadingA.gain 1
          = 2 * exampleCalGain.lookup exampleReadingA.gain 1)
    ∧ ((sensor_convert_to_basic_counts exampleConsts exampleCalGain exampleReadingA).1
          < (sensor_convert_to_basic_counts exampleConsts exampleCalGain exampleReadingB).1
      ∧ (sensor_convert_to_basic_counts exampleConsts exampleCalGain exampleReadingA).2
          < (sensor_convert_to_basic_counts exampleConsts exampleCalGain exampleReadingB).2
      ∧ (sensor_convert_to_basic_counts exampleConsts exampleCalGainDoubled exampleReadingA).1
          = (sensor_convert_to_basic_counts exampleConsts exampleCalGain exampleReadingA).1 / 2
      ∧ (sensor_convert_to_basic_counts exampleConsts exampleCalGainDoubled exampleReadingA).2
          = (sensor_convert_to_basic_counts exampleConsts exampleCalGain exampleReadingA).2
            / 2) :=
  have h1 : 0 < exampleConsts.reference_time := by norm_num [exampleConsts]
  have h2 : 0 < exampleConsts.integration_time exampleReadingA.time := by
    norm_num [exampleConsts, exampleReadingA]
  have h3 : 0 < exampleConsts.reference_gain := by norm_num [exampleConsts]
  have h4 : 0 < exampleCalGain.lookup exampleReadingA.gain 0 := by
    norm_num [exampleCalGain, exampleReadingA, CalGain.lookup]
  have h5 : 0 < exampleCalGain.lookup exampleReadingA.gain 1 := by
    norm_num [exampleCalGain, exampleReadingA, CalGain.lookup]
  have h6 : exampleReadingB.gain = exampleReadingA.gain := rfl
  have h7 : exampleReadingB.time = exampleReadingA.time := rfl
  have h8 : exampleReadingA.ch0_val < exampleReadingB.ch0_val := by decide
  have h9 : exampleReadingA.ch1_val < exampleReadingB.ch1_val := by decide
  have h10 : exampleCalGainDoubled.lookup exampleReadingA.gain 0
      = 2 * exampleCalGain.lookup exampleReadingA.gain 0 := by
    norm_num [exampleCalGain, exampleCalGainDoubled, exampleReadingA, CalGain.lookup]
  have h11 : exampleCalGainDoubled.lookup exampleReadingA.gain 1
      = 2 * exampleCalGain.lookup exampleReadingA.gain 1 := by
    norm_num [exampleCalGain, exampleCalGainDoubled, exampleReadingA, CalGain.lookup]
  have t := sensor_convert_to_basic_counts_monotone_inverse exampleConsts exampleCalGain
    exampleCalGainDoubled exampleReadingA exampleReadingB h1 h2 h3 h4 h5 h6 h7
  ⟨⟨h1, h2, h3, h4, h5, h6, h7, h8, h9, h10, h11⟩, t.1 h8, t.2.1 h9, t.2.2.1 h10, t.2.2.2 h11⟩

/-! ### Firmware: fixed-setting raw readings -/

theorem read_raw_loop_saturated (k : SensorConsts) (sample : RawSampler)
    (light_source : sensor_light_t) (gain : tsl2591_gain_t) (time : tsl2591_time_t) :
    ∀ (n m : Nat) (hw : SensorHw) (sum0 sum1 : Nat), n < m →
      (∀ i, i < n → ∃ r, sample light_source gain time (hw.cycles + i) = some r
        ∧ sensor_is_reading_saturated k r = false) →
      (∃ r, sample light_source gain time (hw.cycles + n) = some r
        ∧ sensor_is_reading_saturated k r = true) →
      read_raw_loop k sample light_source gain time m hw sum0 sum1
        = ({ hw with cycles := hw.cycles + n + 1 },
            RawResult.mk osStatus_t.osOK USHRT_MAX USHRT_MAX) := by
  intro n
  induction n with
  | zero =>
    intro m hw sum0 sum1 hm _ hsat
    obtain ⟨r, hr, hs⟩ := hsat
    obtain ⟨m', rfl⟩ : ∃ m', m = m' + 1 := ⟨m - 1, by omega⟩
    simp only [Nat.add_zero] at hr
    simp only [read_raw_loop, hr, hs, ↓reduceIte, Nat.add_zero]
  | succ n ih =>
    intro m hw sum0 sum1 hm hok hsat
    obtain ⟨m', rfl⟩ : ∃ m', m = m' + 1 := ⟨m - 1, by omega⟩
    obtain ⟨r0, hr0, hs0⟩ := hok 0 (by omega)
    simp only [Nat.add_zero] at hr0
    simp only [read_raw_loop, hr0, hs0, Bool.false_eq_true, ↓reduceIte]
    have := ih m' { hw with cycles := hw.cycles + 1 } (sum0 + r0.ch0_val.val)
      (sum1 + r0.ch1_val.val) (by omega)
      (fun i hi => by
        obtain ⟨r, hr, hs⟩ := hok (i + 1) (by omega)
        exact ⟨r, by simpa [Nat.add_assoc, Nat.add_comm 1 i] using hr, hs⟩)
      (by
        obtain ⟨r, hr, hs⟩ := hsat
        exact ⟨r, by simpa [Nat.add_assoc, Nat.add_comm 1 n] using hr, hs⟩)
    rw [this]
    simp only [Nat.add_assoc, Nat.add_comm 1 n]

/-- C14: for every light source, gain and integration time, if a cycle of
`sensor_read_target_raw` finds the sensor saturated (the cycles before it, if any,
having been unsaturated), the function returns at that cycle, taking no further
reading, with both channel results set to `USHRT_MAX`. -/
theorem sensor_read_target_raw_saturated (k : SensorConsts) (sample : RawSampler)
    (light_source : sensor_light_t) (gain : tsl2591_gain_t) (time : tsl2591_time_t)
    (hw : SensorHw) (n : Nat) (hn : n < k.read_count)
    (hok : ∀ i, i < n → ∃ r, sample light_source gain time (hw.cycles + i) = some r
      ∧ sensor_is_reading_saturated k r = false)
    (hsat : ∃ r, sample light_source gain time (hw.cycles + n) = some r
      ∧ sensor_is_reading_saturated k r = true) :
    (sensor_read_target_raw k sample light_source gain time hw).2.ch0_result = USHRT_MAX
    ∧ (sensor_read_target_raw k sample light_source gain time hw).2.ch1_result = USHRT_MAX
    ∧ (sensor_read_target_raw k sample light_source gain time hw).1.cycles
        = hw.cycles + n + 1 := by
  unfold sensor_read_target_raw
  rw [read_raw_loop_saturated k sample light_source gain time n k.read_count
    { hw with light := light_source } 0 0 hn hok hsat]
  exact ⟨rfl, rfl, rfl⟩

/-- Witness for C14: with a sampler that is always saturated, the first cycle already
ends the reading: both results are 65535 and exactly one cycle has run, although
two cycles would have been averaged. -/
theorem sensor_read_target_raw_saturated_witness :
    (0 < exampleConsts.read_count
      ∧ (∀ i, i < 0 → ∃ r, saturatedSampler sensor_light_t.SENSOR_LIGHT_TRANSMISSION
            tsl2591_gain_t.TSL2591_GAIN_HIGH (tsl2591_time_t.mk 1) (idleHw.cycles + i) = some r
          ∧ sensor_is_reading_saturated exampleConsts r = false)
      ∧ (∃ r, saturatedSampler sensor_light_t.SENSOR_LIGHT_TRANSMISSION
            tsl2591_gain_t.TSL2591_GAIN_HIGH (tsl2591_time_t.mk 1) (idleHw.cycles + 0) = some r
          ∧ sensor_is_reading_saturated exampleConsts r = true))
    ∧ ((sensor_read_target_raw exampleConsts saturatedSampler
          sensor_light_t.SENSOR_LIGHT_TRANSMISSION tsl2591_gain_t.TSL2591_GAIN_HIGH
          (tsl2591_time_t.mk 1) idleHw).2.ch0_result = USHRT_MAX
      ∧ (sensor_read_target_raw exampleConsts saturatedSampler
          sensor_light_t.SENSOR_LIGHT_TRANSMISSION tsl2591_gain_t.TSL2591_GAIN_HIGH
          (tsl2591_time_t.mk 1) idleHw).2.ch1_result = USHRT_MAX
      ∧ (sensor_read_target_raw exampleConsts saturatedSampler
          sensor_light_t.SENSOR_LIGHT_TRANSMISSION tsl2591_gain_t.TSL2591_GAIN_HIGH
          (tsl2591_time_t.mk 1) idleHw).1.cycles = idleHw.cycles + 0 + 1) :=
  have h1 : 0 < exampleConsts.read_count := by decide
  have h2 : ∀ i, i < 0 → ∃ r, saturatedSampler sensor_light_t.SENSOR_LIGHT_TRANSMISSION
      tsl2591_gain_t.TSL2591_GAIN_HIGH (tsl2591_time_t.mk 1) (idleHw.cycles + i) = some r
      ∧ sensor_is_reading_saturated exampleConsts r = false :=
    fun i hi => absurd hi (Nat.not_lt_zero i)
  have h3 : ∃ r, saturatedSampler sensor_light_t.SENSOR_LIGHT_TRANSMISSION
      tsl2591_gain_t.TSL2591_GAIN_HIGH (tsl2591_time_t.mk 1) (idleHw.cycles + 0) = some r
      ∧ sensor_is_reading_saturated exampleConsts r = true :=
    ⟨_, rfl, by decide⟩
  ⟨⟨h1, h2, h3⟩, sensor_read_target_raw_saturated exampleConsts saturatedSampler
    sensor_light_t.SENSOR_LIGHT_TRANSMISSION tsl2591_gain_t.TSL2591_GAIN_HIGH
    (tsl2591_time_t.mk 1) idleHw 0 h1 h2 h3⟩

/-! ### Firmware: the gain calibration procedure -/

theorem gain_cal_enter_answers (callback : GainCalCallback)
    (status : sensor_gain_calibration_status_t) (param : Int) (run : GainCalRun)
    (hall : ∀ e ∈ run.reported, e.answer = true)
    (hok : (gain_cal_enter callback status param run).2 = true) :
    ∀ e ∈ (gain_cal_enter callback status param run).1.reported, e.answer = true := by
  intro e he
  simp only [gain_cal_enter, List.mem_append, List.mem_singleton] at he hok
  rcases he with he | he
  · exact hall e he
  · rw [he]
    exact hok

theorem gain_cal_init_answers (k : SensorConsts) (sample : RawSampler)
    (callback : GainCalCallback) (run next : GainCalRun)
    (h : gain_cal_init k sample callback run = Except.ok next)
    (hall : ∀ e ∈ run.reported, e.answer = true) : ∀ e ∈ next.reported, e.answer = true := by
  unfold gain_cal_init at h
  dsimp only at h
  split_ifs at h with h1 h2
  simp only [Except.ok.injEq] at h
  subst h
  exact gain_cal_enter_answers callback _ 0 run hall (by simpa using h1)

theorem gain_cal_level_answers (k : SensorConsts) (sample : RawSampler)
    (callback : GainCalCallback) (status : sensor_gain_calibration_status_t)
    (gain : tsl2591_gain_t) (run next : GainCalRun)
    (h : gain_cal_level k sample callback status gain run = Except.ok next)
    (hall : ∀ e ∈ run.reported, e.answer = true) : ∀ e ∈ next.reported, e.answer = true := by
  unfold gain_cal_level at h
  dsimp only at h
  split_ifs at h with h1 h2 h3
  simp only [Except.ok.injEq] at h
  subst h
  exact gain_cal_enter_answers callback _ 0 run hall (by simpa using h1)

theorem gain_cal_led_answers (callback : GainCalCallback) (run next : GainCalRun)
    (h : gain_cal_led callback run = Except.ok next)
    (hall : ∀ e ∈ run.reported, e.answer = true) : ∀ e ∈ next.reported, e.answer = true := by
  unfold gain_cal_led at h
  dsimp only at h
  split_ifs at h with h1
  simp only [Except.ok.injEq] at h
  subst h
  exact gain_cal_enter_answers callback _ 0 run hall (by simpa using h1)

theorem gain_cal_cooldown_answers (callback : GainCalCallback) (run next : GainCalRun)
    (h : gain_cal_cooldown callback run = Except.ok next)
    (hall : ∀ e ∈ run.reported, e.answer = true) : ∀ e ∈ next.reported, e.answer = true := by
  unfold gain_cal_cooldown at h
  dsimp only at h
  split_ifs at h with h1
  simp only [Except.ok.injEq] at h
  subst h
  exact gain_cal_enter_answers callback _ 0 run hall (by simpa using h1)

theorem gain_cal_done_answers (callback : GainCalCallback) (run next : GainCalRun)
    (h : gain_cal_done callback run = Except.ok next)
    (hall : ∀ e ∈ run.reported, e.answer = true) : ∀ e ∈ next.reported, e.answer = true := by
  unfold gain_cal_done at h
  dsimp only at h
  split_ifs at h with h1
  simp only [Except.ok.injEq] at h
  subst h
  exact gain_cal_enter_answers callback _ 0 run hall (by simpa using h1)

/-- A run of steps that all keep "every answer so far was `true`" keeps it. -/
theorem gain_cal_run_answers (steps : List GainCalStep)
    (hsteps : ∀ step ∈ steps, ∀ run next, step run = Except.ok next →
      (∀ e ∈ run.reported, e.answer = true) → ∀ e ∈ next.reported, e.answer = true) :
    ∀ run next, gain_cal_run steps run = Except.ok next →
      (∀ e ∈ run.reported, e.answer = true) → ∀ e ∈ next.reported, e.answer = true := by
  induction steps with
  | nil =>
    intro run next h hall
    simp only [gain_cal_run, Except.ok.injEq] at h
    subst h
    exact hall
  | cons step rest ih =>
    intro run next h hall
    simp only [gain_cal_run] at h
    cases hs : step run with
    | error aborted => rw [hs] at h; exact absurd h (by simp)
    | ok mid =>
      rw [hs] at h
      exact ih (fun s hs' => hsteps s (List.mem_cons_of_mem _ hs')) mid next h
        (hsteps step (List.mem_cons_self _ _) run mid hs hall)

theorem gain_cal_steps_answers (k : SensorConsts) (sample : RawSampler)
    (callback : GainCalCallback) :
    ∀ step ∈ gain_cal_steps k sample callback, ∀ run next, step run = Except.ok next →
      (∀ e ∈ run.reported, e.answer = true) → ∀ e ∈ next.reported, e.answer = true := by
  intro step hstep run next h hall
  simp only [gain_cal_steps, List.mem_cons, List.mem_singleton, List.not_mem_nil,
    or_false] at hstep
  rcases hstep with rfl | rfl | rfl | rfl | rfl | rfl | rfl
  · exact gain_cal_init_answers k sample callback run next h hall
  · exact gain_cal_level_answers k sample callback _ _ run next h hall
  · exact gain_cal_level_answers k sample callback _ _ run next h hall
  · exact gain_cal_level_answers k sample callback _ _ run next h hall
  · exact gain_cal_led_answers callback run next h hall
  · exact gain_cal_cooldown_answers callback run next h hall
  · exact gain_cal_done_answers callback run next h hall

/-- C19: if, at any point of the gain calibration, the progress callback returned
`false`, the procedure has aborted: it does not return `osOK`, it ends in FAILED,
and the light source is off when it returns. -/
theorem sensor_gain_calibration_cancelled (k : SensorConsts) (sample : RawSampler)
    (callback : GainCalCallback) (hw : SensorHw) (cal : CalGain)
    (h : ∃ e ∈ (sensor_gain_calibration k sample callback hw cal).2.reported,
      e.answer = false) :
    (sensor_gain_calibration k sample callback hw cal).1 ≠ osStatus_t.osOK
    ∧ (sensor_gain_calibration k sample callback hw cal).2.status
        = sensor_gain_calibration_status_t.SENSOR_GAIN_CALIBRATION_STATUS_FAILED
    ∧ (sensor_gain_calibration k sample callback hw cal).2.hw.light
        = sensor_light_t.SENSOR_LIGHT_OFF := by
  unfold sensor_gain_calibration at h ⊢
  cases hr : gain_cal_run (gain_cal_steps k sample callback)
      (GainCalRun.mk hw sensor_gain_calibration_status_t.SENSOR_GAIN_CALIBRATION_STATUS_INIT
        [] cal) with
  | error run =>
    exact ⟨fun hc => absurd hc (by decide : osStatus_t.osError ≠ osStatus_t.osOK), rfl, rfl⟩
  | ok run =>
    rw [hr] at h
    simp only at h
    obtain ⟨e, he, hf⟩ := h
    have := gain_cal_run_answers _ (gain_cal_steps_answers k sample callback) _ run hr
      (by simp) e he
    rw [this] at hf
    exact absurd hf (by simp)

/-- Witness for C19: a callback that cancels at its third invocation (on entering HIGH)
makes the run end in FAILED with the light off and a result other than `osOK`. -/
theorem sensor_gain_calibration_cancelled_witness :
    (∃ e ∈ (sensor_gain_calibration exampleConsts steadySampler cancelThirdCallback idleHw
        exampleCalGain).2.reported, e.answer = false)
    ∧ ((sensor_gain_calibration exampleConsts steadySampler cancelThirdCallback idleHw
          exampleCalGain).1 ≠ osStatus_t.osOK
      ∧ (sensor_gain_calibration exampleConsts steadySampler cancelThirdCallback idleHw
          exampleCalGain).2.status
          = sensor_gain_calibration_status_t.SENSOR_GAIN_CALIBRATION_STATUS_FAILED
      ∧ (sensor_gain_calibration exampleConsts steadySampler cancelThirdCallback idleHw
          exampleCalGain).2.hw.light = sensor_light_t.SENSOR_LIGHT_OFF) :=
  have h : ∃ e ∈ (sensor_gain_calibration exampleConsts steadySampler cancelThirdCallback
      idleHw exampleCalGain).2.reported, e.answer = false :=
    ⟨GainCalReport.mk sensor_gain_calibration_status_t.SENSOR_GAIN_CALIBRATION_STATUS_HIGH 0
      false, by decide, rfl⟩
  ⟨h, sensor_gain_calibration_cancelled exampleConsts steadySampler cancelThirdCallback idleHw
    exampleCalGain h⟩

theorem read_raw_loop_unsaturated (k : SensorConsts) (sample : RawSampler)
    (light_source : sensor_light_t) (gain : tsl2591_gain_t) (time : tsl2591_time_t)
    (hs : ∀ l g t i, ∃ r, sample l g t i = some r ∧ sensor_is_reading_saturated k r = false) :
    ∀ (m : Nat) (hw : SensorHw) (sum0 sum1 : Nat),
      sum0 + m * (k.full_scale - 1) ≤ k.read_count * (k.full_scale - 1) →
      sum1 + m * (k.full_scale - 1) ≤ k.read_count * (k.full_scale - 1) →
      (read_raw_loop k sample light_source gain time m hw sum0 sum1).2.status = osStatus_t.osOK
      ∧ (read_raw_loop k sample light_source gain time m hw sum0 sum1).2.ch0_result
          ≤ k.full_scale - 1
      ∧ (read_raw_loop k sample light_source gain time m hw sum0 sum1).2.ch1_result
          ≤ k.full_scale - 1 := by
  intro m
  induction m with
  | zero =>
    intro hw sum0 sum1 h0 h1
    simp only [Nat.zero_mul, Nat.add_zero] at h0 h1
    exact ⟨rfl, Nat.div_le_of_le_mul h0, Nat.div_le_of_le_mul h1⟩
  | succ m ih =>
    intro hw sum0 sum1 h0 h1
    obtain ⟨r, hr, hsat⟩ := hs light_source gain time hw.cycles
    have hr0 : r.ch0_val.val ≤ k.full_scale - 1 := by
      simp only [sensor_is_reading_saturated, Bool.or_eq_false_iff,
        decide_eq_false_iff_not] at hsat
      omega
    have hr1 : r.ch1_val.val ≤ k.full_scale - 1 := by
      simp only [sensor_is_reading_saturated, Bool.or_eq_false_iff,
        decide_eq_false_iff_not] at hsat
      omega
    simp only [read_raw_loop, hr, hsat, Bool.false_eq_true, ↓reduceIte]
    have e : (m + 1) * (k.full_scale - 1) = m * (k.full_scale - 1) + (k.full_scale - 1) := by
      ring
    rw [e] at h0 h1
    exact ih _ _ _ (by omega) (by omega)

/-- With a sampler that never faults and never saturates, a raw reading succeeds and
neither result is `USHRT_MAX`. -/
theorem sensor_read_target_raw_unsaturated (k : SensorConsts) (sample : RawSampler)
    (light_source : sensor_light_t) (gain : tsl2591_gain_t) (time : tsl2591_time_t)
    (hw : SensorHw) (hfs : k.full_scale ≤ USHRT_MAX)
    (hs : ∀ l g t i, ∃ r, sample l g t i = some r ∧ sensor_is_reading_saturated k r = false) :
    (sensor_read_target_raw k sample light_source gain time hw).2.status = osStatus_t.osOK
    ∧ (sensor_read_target_raw k sample light_source gain time hw).2.ch0_result ≠ USHRT_MAX
    ∧ (sensor_read_target_raw k sample light_source gain time hw).2.ch1_result ≠ USHRT_MAX := by
  unfold sensor_read_target_raw
  obtain ⟨h1, h2, h3⟩ := read_raw_loop_unsaturated k sample light_source gain time hs
    k.read_count { hw with light := light_source } 0 0 (by omega) (by omega)
  unfold USHRT_MAX at hfs ⊢
  exact ⟨h1, by omega, by omega⟩

theorem gain_cal_enter_true (callback : GainCalCallback)
    (hcb : ∀ n s p, callback n s p = true) (status : sensor_gain_calibration_status_t)
    (param : Int) (run : GainCalRun) :
    gain_cal_enter callback status param run
      = ({ run with
            status := status
            reported := run.reported ++ [GainCalReport.mk status param true] }, true) := by
  unfold gain_cal_enter
  rw [hcb]

theorem gain_cal_init_ok (k : SensorConsts) (sample : RawSampler) (callback : GainCalCallback)
    (hcb : ∀ n s p, callback n s p = true) (hfs : k.full_scale ≤ USHRT_MAX)
    (hs : ∀ l g t i, ∃ r, sample l g t i = some r ∧ sensor_is_reading_saturated k r = false)
    (run : GainCalRun) :
    ∃ next, gain_cal_init k sample callback run = Except.ok next
      ∧ next.reported = run.reported ++ [GainCalReport.mk
          sensor_gain_calibration_status_t.SENSOR_GAIN_CALIBRATION_STATUS_INIT 0 true] := by
  unfold gain_cal_init
  simp only [gain_cal_enter_true callback hcb, Bool.not_true, Bool.false_eq_true, ↓reduceIte]
  have h := (sensor_read_target_raw_unsaturated k sample sensor_light_t.SENSOR_LIGHT_OFF
    tsl2591_gain_t.TSL2591_GAIN_LOW k.cal_time run.hw hfs hs).1
  simp only [h, ne_eq, not_true_eq_false, ↓reduceIte]
  exact ⟨_, rfl, rfl⟩

theorem gain_cal_level_ok (k : SensorConsts) (sample : RawSampler) (callback : GainCalCallback)
    (hcb : ∀ n s p, callback n s p = true) (hfs : k.full_scale ≤ USHRT_MAX)
    (hs : ∀ l g t i, ∃ r, sample l g t i = some r ∧ sensor_is_reading_saturated k r = false)
    (status : sensor_gain_calibration_status_t) (gain : tsl2591_gain_t) (run : GainCalRun) :
    ∃ next, gain_cal_level k sample callback status gain run = Except.ok next
      ∧ next.reported = run.reported ++ [GainCalReport.mk status 0 true] := by
  unfold gain_cal_level
  simp only [gain_cal_enter_true callback hcb, Bool.not_true, Bool.false_eq_true, ↓reduceIte]
  obtain ⟨a1, a2, a3⟩ := sensor_read_target_raw_unsaturated k sample
    sensor_light_t.SENSOR_LIGHT_TRANSMISSION gain k.cal_time run.hw hfs hs
  obtain ⟨b1, b2, b3⟩ := sensor_read_target_raw_unsaturated k sample
    sensor_light_t.SENSOR_LIGHT_TRANSMISSION tsl2591_gain_t.TSL2591_GAIN_LOW k.cal_time
    (sensor_read_target_raw k sample sensor_light_t.SENSOR_LIGHT_TRANSMISSION gain k.cal_time
      run.hw).1 hfs hs
  simp only [a1, b1, a2, a3, b2, b3, ne_eq, not_true_eq_false, or_self, ↓reduceIte]
  exact ⟨_, rfl, rfl⟩

theorem gain_cal_led_ok (callback : GainCalCallback) (hcb : ∀ n s p, callback n s p = true)
    (run : GainCalRun) :
    ∃ next, gain_cal_led callback run = Except.ok next
      ∧ next.reported = run.reported ++ [GainCalReport.mk
          sensor_gain_calibration_status_t.SENSOR_GAIN_CALIBRATION_STATUS_LED 0 true] := by
  unfold gain_cal_led
  simp only [gain_cal_enter_true callback hcb, Bool.not_true, Bool.false_eq_true, ↓reduceIte]
  exact ⟨_, rfl, rfl⟩

theorem gain_cal_cooldown_ok (callback : GainCalCallback)
    (hcb : ∀ n s p, callback n s p = true) (run : GainCalRun) :
    ∃ next, gain_cal_cooldown callback run = Except.ok next
      ∧ next.reported = run.reported ++ [GainCalReport.mk
          sensor_gain_calibration_status_t.SENSOR_GAIN_CALIBRATION_STATUS_COOLDOWN 0 true] := by
  unfold gain_cal_cooldown
  simp only [gain_cal_enter_true callback hcb, Bool.not_true, Bool.false_eq_true, ↓reduceIte]
  exact ⟨_, rfl, rfl⟩

theorem gain_cal_done_ok (callback : GainCalCallback) (hcb : ∀ n s p, callback n s p = true)
    (run : GainCalRun) :
    ∃ next, gain_cal_done callback run = Except.ok next
      ∧ next.reported = run.reported ++ [GainCalReport.mk
          sensor_gain_calibration_status_t.SENSOR_GAIN_CALIBRATION_STATUS_DONE 0 true] := by
  unfold gain_cal_done
  simp only [gain_cal_enter_true callback hcb, Bool.not_true, Bool.false_eq_true, ↓reduceIte]
  exact ⟨_, rfl, rfl⟩

theorem gain_cal_run_cons (step : GainCalStep) (rest : List GainCalStep)
    (run mid : GainCalRun) (h : step run = Except.ok mid) :
    gain_cal_run (step :: rest) run = gain_cal_run rest mid := by
  simp only [gain_cal_run, h]

/-- C18: on a fully successful run of the gain calibration (a sampler that never faults
and never saturates, a callback that always returns `true`) the statuses reported
to the progress callback are, in this order, INIT, MEDIUM, HIGH, MAXIMUM, LED,
COOLDOWN, DONE; FAILED is never reported, and the result is `osOK`. -/
theorem sensor_gain_calibration_order (k : SensorConsts) (sample : RawSampler)
    (callback : GainCalCallback) (hw : SensorHw) (cal : CalGain)
    (hcb : ∀ n s p, callback n s p = true) (hfs : k.full_scale ≤ USHRT_MAX)
    (hs : ∀ l g t i, ∃ r, sample l g t i = some r
      ∧ sensor_is_reading_saturated k r = false) :
    (sensor_gain_calibration k sample callback hw cal).1 = osStatus_t.osOK
    ∧ (sensor_gain_calibration k sample callback hw cal).2.reported.map GainCalReport.status
        = [sensor_gain_calibration_status_t.SENSOR_GAIN_CALIBRATION_STATUS_INIT,
           sensor_gain_calibration_status_t.SENSOR_GAIN_CALIBRATION_STATUS_MEDIUM,
           sensor_gain_calibration_status_t.SENSOR_GAIN_CALIBRATION_STATUS_HIGH,
           sensor_gain_calibration_status_t.SENSOR_GAIN_CALIBRATION_STATUS_MAXIMUM,
           sensor_gain_calibration_status_t.SENSOR_GAIN_CALIBRATION_STATUS_LED,
           sensor_gain_calibration_status_t.SENSOR_GAIN_CALIBRATION_STATUS_COOLDOWN,
           sensor_gain_calibration_status_t.SENSOR_GAIN_CALIBRATION_STATUS_DONE]
    ∧ sensor_gain_calibration_status_t.SENSOR_GAIN_CALIBRATION_STATUS_FAILED
        ∉ (sensor_gain_calibration k sample callback hw cal).2.reported.map
            GainCalReport.status := by
  obtain ⟨r1, e1, t1⟩ := gain_cal_init_ok k sample callback hcb hfs hs
    (GainCalRun.mk hw sensor_gain_calibration_status_t.SENSOR_GAIN_CALIBRATION_STATUS_INIT
      [] cal)
  obtain ⟨r2, e2, t2⟩ := gain_cal_level_ok k sample callback hcb hfs hs
    sensor_gain_calibration_status_t.SENSOR_GAIN_CALIBRATION_STATUS_MEDIUM
    tsl2591_gain_t.TSL2591_GAIN_MEDIUM r1
  obtain ⟨r3, e3, t3⟩ := gain_cal_level_ok k sample callback hcb hfs hs
    sensor_gain_calibration_status_t.SENSOR_GAIN_CALIBRATION_STATUS_HIGH
    tsl2591_gain_t.TSL2591_GAIN_HIGH r2
  obtain ⟨r4, e4, t4⟩ := gain_cal_level_ok k sample callback hcb hfs hs
    sensor_gain_calibration_status_t.SENSOR_GAIN_CALIBRATION_STATUS_MAXIMUM
    tsl2591_gain_t.TSL2591_GAIN_MAXIMUM r3
  obtain ⟨r5, e5, t5⟩ := gain_cal_led_ok callback hcb r4
  obtain ⟨r6, e6, t6⟩ := gain_cal_cooldown_ok callback hcb r5
  obtain ⟨r7, e7, t7⟩ := gain_cal_done_ok callback hcb r6
  have hrun : gain_cal_run (gain_cal_steps k sample callback)
      (GainCalRun.mk hw sensor_gain_calibration_status_t.SENSOR_GAIN_CALIBRATION_STATUS_INIT
        [] cal) = Except.ok r7 := by
    unfold gain_cal_steps
    rw [gain_cal_run_cons _ _ _ _ e1, gain_cal_run_cons _ _ _ _ e2,
      gain_cal_run_cons _ _ _ _ e3, gain_cal_run_cons _ _ _ _ e4,
      gain_cal_run_cons _ _ _ _ e5, gain_cal_run_cons _ _ _ _ e6,
      gain_cal_run_cons _ _ _ _ e7]
    rfl
  have hrep : r7.reported.map GainCalReport.status
      = [sensor_gain_calibration_status_t.SENSOR_GAIN_CALIBRATION_STATUS_INIT,
         sensor_gain_calibration_status_t.SENSOR_GAIN_CALIBRATION_STATUS_MEDIUM,
         sensor_gain_calibration_status_t.SENSOR_GAIN_CALIBRATION_STATUS_HIGH,
         sensor_gain_calibration_status_t.SENSOR_GAIN_CALIBRATION_STATUS_MAXIMUM,
         sensor_gain_calibration_status_t.SENSOR_GAIN_CALIBRATION_STATUS_LED,
         sensor_gain_calibration_status_t.SENSOR_GAIN_CALIBRATION_STATUS_COOLDOWN,
         sensor_gain_calibration_status_t.SENSOR_GAIN_CALIBRATION_STATUS_DONE] := by
    rw [t7, t6, t5, t4, t3, t2, t1]
    rfl
  unfold sensor_gain_calibration
  rw [hrun]
  simp only
  refine ⟨trivial, hrep, ?_⟩
  rw [hrep]
  decide

theorem sensor_gain_calibration_order_witness :
    (∀ n s p, continueCallback n s p = true)
    ∧ exampleConsts.full_scale ≤ USHRT_MAX
    ∧ (∀ l g t i, ∃ r, steadySampler l g t i = some r
        ∧ sensor_is_reading_saturated exampleConsts r = false)
    ∧ ((sensor_gain_calibration exampleConsts steadySampler continueCallback idleHw
          exampleCalGain).1 = osStatus_t.osOK
      ∧ (sensor_gain_calibration exampleConsts steadySampler continueCallback idleHw
          exampleCalGain).2.reported.map GainCalReport.status
          = [sensor_gain_calibration_status_t.SENSOR_GAIN_CALIBRATION_STATUS_INIT,
             sensor_gain_calibration_status_t.SENSOR_GAIN_CALIBRATION_STATUS_MEDIUM,
             sensor_gain_calibration_status_t.SENSOR_GAIN_CALIBRATION_STATUS_HIGH,
             sensor_gain_calibration_status_t.SENSOR_GAIN_CALIBRATION_STATUS_MAXIMUM,
             sensor_gain_calibration_status_t.SENSOR_GAIN_CALIBRATION_STATUS_LED,
             sensor_gain_calibration_status_t.SENSOR_GAIN_CALIBRATION_STATUS_COOLDOWN,
             sensor_gain_calibration_status_t.SENSOR_GAIN_CALIBRATION_STATUS_DONE]
      ∧ sensor_gain_calibration_status_t.SENSOR_GAIN_CALIBRATION_STATUS_FAILED
          ∉ (sensor_gain_calibration exampleConsts steadySampler continueCallback idleHw
              exampleCalGain).2.reported.map GainCalReport.status) :=
  have hcb : ∀ n s p, continueCallback n s p = true := fun _ _ _ => rfl
  have hfs : exampleConsts.full_scale ≤ USHRT_MAX := by decide
  have hs : ∀ l g t i, ∃ r, steadySampler l g t i = some r
      ∧ sensor_is_reading_saturated exampleConsts r = false :=
    fun _ g t _ => ⟨sensor_reading_t.mk 1000 1000 g t 0 0 0, rfl, rfl⟩
  ⟨hcb, hfs, hs, sensor_gain_calibration_order exampleConsts steadySampler continueCallback
    idleHw exampleCalGain hcb hfs hs⟩

namespace MainWindow

theorem measTableAddReading_row_fold_nonneg (sel : List QModelIndex)
    (hsel : ∀ i ∈ sel, 0 ≤ i.row) :
    ∀ (acc : Int), 0 ≤ acc →
      0 ≤ sel.foldl (fun row index => if row = -1 ∨ index.row < row then index.row else row) acc
      ∧ sel.foldl (fun row index => if row = -1 ∨ index.row < row then index.row else row) acc
          ≤ acc
      ∧ (∀ i ∈ sel,
          sel.foldl (fun row index => if row = -1 ∨ index.row < row then index.row else row) acc
            ≤ i.row)
      ∧ (sel.foldl (fun row index => if row = -1 ∨ index.row < row then index.row else row) acc
            = acc
          ∨ ∃ i ∈ sel,
            sel.foldl (fun row index => if row = -1 ∨ index.row < row then index.row else row) acc
              = i.row) := by
  induction sel with
  | nil =>
    intro acc hacc
    exact ⟨hacc, le_refl _, fun i hi => absurd hi (List.not_mem_nil i), Or.inl rfl⟩
  | cons a t ih =>
    intro acc hacc
    have ha : 0 ≤ a.row := hsel a (List.mem_cons_self a t)
    have ht : ∀ i ∈ t, 0 ≤ i.row := fun i hi => hsel i (List.mem_cons_of_mem a hi)
    simp only [List.foldl_cons]
    by_cases hlt : a.row < acc
    · have e : (if acc = -1 ∨ a.row < acc then a.row else acc) = a.row := if_pos (Or.inr hlt)
      rw [e]
      obtain ⟨h1, h2, h3, h4⟩ := ih ht a.row ha
      refine ⟨h1, by omega, ?_, ?_⟩
      · intro i hi
        rcases List.mem_cons.mp hi with rfl | hi
        · exact h2
        · exact h3 i hi
      · rcases h4 with h4 | ⟨i, hi, h4⟩
        · exact Or.inr ⟨a, List.mem_cons_self a t, h4⟩
        · exact Or.inr ⟨i, List.mem_cons_of_mem a hi, h4⟩
    · have e : (if acc = -1 ∨ a.row < acc then a.row else acc) = acc :=
        if_neg (by omega)
      rw [e]
      obtain ⟨h1, h2, h3, h4⟩ := ih ht acc hacc
      refine ⟨h1, h2, ?_, ?_⟩
      · intro i hi
        rcases List.mem_cons.mp hi with rfl | hi
        · omega
        · exact h3 i hi
      · rcases h4 with h4 | ⟨i, hi, h4⟩
        · exact Or.inl h4
        · exact Or.inr ⟨i, List.mem_cons_of_mem a hi, h4⟩

/-- The loop of `measTableAddReading` finds the smallest row among the selected indexes
and the current index, when the selected indexes are valid (the current index may be
the invalid index, of row `-1`). -/
theorem measTableAddReading_row_min (ui : Ui) (hsel : ∀ i ∈ ui.measSelected, 0 ≤ i.row) :
    (measTableAddReading_row ui = ui.measCurrent.row
      ∨ ∃ i ∈ ui.measSelected, measTableAddReading_row ui = i.row)
    ∧ measTableAddReading_row ui ≤ ui.measCurrent.row
    ∧ ∀ i ∈ ui.measSelected, measTableAddReading_row ui ≤ i.row := by
  unfold measTableAddReading_row
  simp only [List.foldl_append, List.foldl_cons, List.foldl_nil]
  cases hs : ui.measSelected with
  | nil =>
    simp only [List.foldl_nil, true_or, ↓reduceIte, List.not_mem_nil, false_and, exists_false,
      or_false, le_refl, false_implies, implies_true, and_self]
  | cons a t =>
    rw [hs] at hsel
    have ha : 0 ≤ a.row := hsel a (List.mem_cons_self a t)
    have ht : ∀ i ∈ t, 0 ≤ i.row := fun i hi => hsel i (List.mem_cons_of_mem a hi)
    simp only [List.foldl_cons, true_or, ↓reduceIte]
    obtain ⟨h1, h2, h3, h4⟩ := measTableAddReading_row_fold_nonneg t ht a.row ha
    generalize t.foldl (fun row index => if row = -1 ∨ index.row < row then index.row else row)
      a.row = m at h1 h2 h3 h4
    by_cases hlt : ui.measCurrent.row < m
    · rw [if_pos (Or.inr hlt)]
      refine ⟨Or.inl rfl, le_refl _, ?_⟩
      intro i hi
      rcases List.mem_cons.mp hi with rfl | hi
      · omega
      · have := h3 i hi
        omega
    · rw [if_neg (by omega)]
      refine ⟨Or.inr ?_, by omega, ?_⟩
      · rcases h4 with h4 | ⟨i, hi, h4⟩
        · exact ⟨a, List.mem_cons_self a t, h4⟩
        · exact ⟨i, List.mem_cons_of_mem a hi, h4⟩
      · intro i hi
        rcases List.mem_cons.mp hi with rfl | hi
        · exact h2
        · exact h3 i hi

/-- The row that `measTableAddReading` writes is determined by being the smallest row
among the selected indexes and the current index. -/
theorem measTableAddReading_row_eq (ui : Ui) (r : Int)
    (hsel : ∀ i ∈ ui.measSelected, 0 ≤ i.row)
    (hmem : r = ui.measCurrent.row ∨ ∃ i ∈ ui.measSelected, r = i.row)
    (hmin : r ≤ ui.measCurrent.row ∧ ∀ i ∈ ui.measSelected, r ≤ i.row) :
    measTableAddReading_row ui = r := by
  obtain ⟨h1, h2, h3⟩ := measTableAddReading_row_min ui hsel
  have hle : measTableAddReading_row ui ≤ r := by
    rcases hmem with h | ⟨i, hi, h⟩
    · rw [h]; exact h2
    · rw [h]; exact h3 i hi
  have hge : r ≤ measTableAddReading_row ui := by
    rcases h1 with h | ⟨i, hi, h⟩
    · rw [h]; exact hmin.1
    · rw [h]; exact hmin.2 i hi
  omega

/-- What `measTableAddReading` does when the row found is negative: only the selection
is cleared. -/
theorem measTableAddReading_negative (type : DensityType) (density offset : F32)
    (w : MainWindow) (h : measTableAddReading_row w.ui < 0) :
    measTableAddReading type density offset w = { w with ui := clearSelection w.ui } := by
  unfold measTableAddReading
  simp only
  rw [if_neg (by omega)]

/-- What `measTableAddReading` does when the row found is a row of the table: the three
items of that row are replaced, a row is appended when it was the last one, and the
cell below becomes the current one. -/
theorem measTableAddReading_written (type : DensityType) (density offset : F32)
    (w : MainWindow) (r : Nat) (h : measTableAddReading_row w.ui = (r : Int))
    (hr : r < w.measModel_.length) :
    measTableAddReading type density offset w
      = { w with
          measModel_ :=
            if r + 1 < w.measModel_.length then
              w.measModel_.set r (measTableAddReading_item type density offset)
            else
              w.measModel_.set r (measTableAddReading_item type density offset)
                ++ [MeasRow.mk none none none]
          ui := setCurrentIndex (QModelIndex.mk ((r : Int) + 1) 1) (clearSelection w.ui) } := by
  have hset : setItems w.measModel_ r (measTableAddReading_item type density offset)
      = w.measModel_.set r (measTableAddReading_item type density offset) := by
    unfold setItems
    have : r + 1 - w.measModel_.length = 0 := by omega
    rw [this, List.replicate_zero, List.append_nil]
  unfold measTableAddReading
  simp only [h, Int.toNat_ofNat, hset, List.length_set]
  rw [if_pos (by omega)]
  by_cases hlast : r + 1 < w.measModel_.length
  · rw [if_pos (by omega), if_pos hlast]
  · rw [if_neg (by omega), if_neg hlast]
    have hlen : r + 1 = (w.measModel_.set r (measTableAddReading_item type density offset)).length := by
      rw [List.length_set]; omega
    unfold insertRow
    rw [if_pos (by omega)]
    conv_lhs => rw [hlen, List.take_length, List.drop_length]

end MainWindow

namespace MainWindow

/-- C21 (as amended): with valid selected indexes, `measTableAddReading` writes the reading
into the smallest row `r` among the selected cells and the current cell and leaves the
contents of every other row of the table as they were; the selection it had is removed,
and what is selected afterwards is what the view selects, from no selection, when the
cell `(r + 1, 1)` is made current.  When that smallest row is negative (no valid current
cell) nothing is written and the selection is left empty. -/
theorem measTableAddReading_smallest_row (type : DensityType) (density offset : F32)
    (w : MainWindow) (r : Int)
    (hsel : ∀ i ∈ w.ui.measSelected, 0 ≤ i.row ∧ i.row < (w.measModel_.length : Int))
    (hcur : w.ui.measCurrent.row < (w.measModel_.length : Int))
    (hmem : r = w.ui.measCurrent.row ∨ ∃ i ∈ w.ui.measSelected, r = i.row)
    (hmin : r ≤ w.ui.measCurrent.row ∧ ∀ i ∈ w.ui.measSelected, r ≤ i.row) :
    (0 ≤ r →
      (measTableAddReading type density offset w).measModel_[r.toNat]?
          = some (measTableAddReading_item type density offset)
      ∧ (∀ n : Nat, (n : Int) ≠ r → n < w.measModel_.length →
          (measTableAddReading type density offset w).measModel_[n]? = w.measModel_[n]?)
      ∧ (measTableAddReading type density offset w).ui.measSelected
          = w.ui.measSelectionCommand [] (QModelIndex.mk (r + 1) 1))
    ∧ (r < 0 →
      (measTableAddReading type density offset w).measModel_ = w.measModel_
      ∧ (measTableAddReading type density offset w).ui.measSelected = []) := by
  have hrow : measTableAddReading_row w.ui = r :=
    measTableAddReading_row_eq w.ui r (fun i hi => (hsel i hi).1) hmem hmin
  have hlt : r < (w.measModel_.length : Int) := by
    rcases hmem with h | ⟨i, hi, h⟩
    · rw [h]; exact hcur
    · rw [h]; exact (hsel i hi).2
  constructor
  · intro h0
    obtain ⟨k, rfl⟩ : ∃ k : Nat, r = (k : Int) := ⟨r.toNat, (Int.toNat_of_nonneg h0).symm⟩
    have hk : k < w.measModel_.length := by omega
    rw [measTableAddReading_written type density offset w k hrow hk]
    simp only [Int.toNat_ofNat]
    refine ⟨?_, ?_, rfl⟩
    · split
      · rw [List.getElem?_set_self hk]
      · rw [List.getElem?_append_left (by rw [List.length_set]; exact hk),
          List.getElem?_set_self hk]
    · intro n hn hlen
      have hne : k ≠ n := fun e => hn (by rw [e])
      split
      · rw [List.getElem?_set_ne hne]
      · rw [List.getElem?_append_left (by rw [List.length_set]; exact hlen),
          List.getElem?_set_ne hne]
  · intro hneg
    rw [measTableAddReading_negative type density offset w (by omega)]
    exact ⟨rfl, rfl⟩

/-- Witness for C21 (as amended): with the rows 3 and 2 selected and the current cell in
row 5, the reading goes to row 2. -/
theorem measTableAddReading_smallest_row_witness :
    ((∀ i ∈ selectionWindow.ui.measSelected,
        0 ≤ i.row ∧ i.row < (selectionWindow.measModel_.length : Int))
      ∧ selectionWindow.ui.measCurrent.row < (selectionWindow.measModel_.length : Int)
      ∧ ((2 : Int) = selectionWindow.ui.measCurrent.row
          ∨ ∃ i ∈ selectionWindow.ui.measSelected, (2 : Int) = i.row)
      ∧ ((2 : Int) ≤ selectionWindow.ui.measCurrent.row
          ∧ ∀ i ∈ selectionWindow.ui.measSelected, (2 : Int) ≤ i.row))
    ∧ (((0 : Int) ≤ 2 →
        (measTableAddReading DensityType.DensityReflection F32.one F32.nan
            selectionWindow).measModel_[(2 : Int).toNat]?
          = some (measTableAddReading_item DensityType.DensityReflection F32.one F32.nan)
        ∧ (∀ n : Nat, (n : Int) ≠ 2 → n < selectionWindow.measModel_.length →
            (measTableAddReading DensityType.DensityReflection F32.one F32.nan
              selectionWindow).measModel_[n]? = selectionWindow.measModel_[n]?)
        ∧ (measTableAddReading DensityType.DensityReflection F32.one F32.nan
              selectionWindow).ui.measSelected
            = selectionWindow.ui.measSelectionCommand [] (QModelIndex.mk (2 + 1) 1))
      ∧ ((2 : Int) < 0 →
        (measTableAddReading DensityType.DensityReflection F32.one F32.nan
            selectionWindow).measModel_ = selectionWindow.measModel_
        ∧ (measTableAddReading DensityType.DensityReflection F32.one F32.nan
            selectionWindow).ui.measSelected = [])) :=
  have hsel : ∀ i ∈ selectionWindow.ui.measSelected,
      0 ≤ i.row ∧ i.row < (selectionWindow.measModel_.length : Int) := by decide
  have hcur : selectionWindow.ui.measCurrent.row < (selectionWindow.measModel_.length : Int) := by
    decide
  have hmem : (2 : Int) = selectionWindow.ui.measCurrent.row
      ∨ ∃ i ∈ selectionWindow.ui.measSelected, (2 : Int) = i.row := by decide
  have hmin : (2 : Int) ≤ selectionWindow.ui.measCurrent.row
      ∧ ∀ i ∈ selectionWindow.ui.measSelected, (2 : Int) ≤ i.row := by decide
  ⟨⟨hsel, hcur, hmem, hmin⟩,
    measTableAddReading_smallest_row DensityType.DensityReflection F32.one F32.nan
      selectionWindow 2 hsel hcur hmem hmin⟩

/-- C21 (as stated) fails: in a view that selects the cell it makes current, as Qt does
in every selection mode but `NoSelection`, `measTableAddReading` with the rows 3 and 2
selected writes row 2 and returns with the cell `(3, 1)` selected: the selection is
not empty after the call. -/
theorem measTableAddReading_selects_next_cell :
    selectionWindow.ui.measSelected = [QModelIndex.mk 3 1, QModelIndex.mk 2 1]
    ∧ (∀ (selected : List QModelIndex) (index : QModelIndex),
        selectionWindow.ui.measSelectionCommand selected index = [index])
    ∧ (measTableAddReading DensityType.DensityReflection F32.one F32.nan
        selectionWindow).measModel_[2]?
      = some (MeasRow.mk (some ['R']) (some ['1', '.', '0', '0']) (some []))
    ∧ (measTableAddReading DensityType.DensityReflection F32.one F32.nan
        selectionWindow).ui.measSelected = [QModelIndex.mk 3 1]
    ∧ (measTableAddReading DensityType.DensityReflection F32.one F32.nan
        selectionWindow).ui.measSelected ≠ [] := by
  have e : (measTableAddReading DensityType.DensityReflection F32.one F32.nan
      selectionWindow).ui.measSelected = [QModelIndex.mk 3 1] := rfl
  refine ⟨rfl, fun _ _ => rfl, by rfl, e, ?_⟩
  rw [e]
  exact List.cons_ne_nil _ _

/-- C22: after `measTableAddReading` has written row `r` of the table, the current cell
is `(r + 1, 1)` and the table has `max (old row count) (r + 2)` rows: one more when `r`
was the last row, as many as before otherwise; so the next row to write exists. -/
theorem measTableAddReading_next_row (type : DensityType) (density offset : F32)
    (w : MainWindow) (r : Nat) (h : measTableAddReading_row w.ui = (r : Int))
    (hr : r < w.measModel_.length) :
    (measTableAddReading type density offset w).ui.measCurrent
        = QModelIndex.mk ((r : Int) + 1) 1
    ∧ (measTableAddReading type density offset w).measModel_.length
        = max w.measModel_.length (r + 2)
    ∧ (r + 1 = w.measModel_.length →
        (measTableAddReading type density offset w).measModel_.length
          = w.measModel_.length + 1)
    ∧ (r + 1 < w.measModel_.length →
        (measTableAddReading type density offset w).measModel_.length = w.measModel_.length)
    ∧ r + 1 < (measTableAddReading type density offset w).measModel_.length := by
  rw [measTableAddReading_written type density offset w r h hr]
  simp only
  by_cases hlast : r + 1 < w.measModel_.length
  · rw [if_pos hlast, List.length_set]
    refine ⟨rfl, ?_, ?_, ?_, ?_⟩ <;> omega
  · rw [if_neg hlast, List.length_append, List.length_set, List.length_singleton]
    refine ⟨rfl, ?_, ?_, ?_, ?_⟩ <;> omega

/-- Witness for C22: with the current cell in the last of the ten rows, the table grows
to eleven rows and the current cell moves to row 10. -/
theorem measTableAddReading_next_row_witness :
    (measTableAddReading_row lastRowWindow.ui = ((9 : Nat) : Int)
      ∧ 9 < lastRowWindow.measModel_.length)
    ∧ ((measTableAddReading DensityType.DensityReflection F32.one F32.nan
          lastRowWindow).ui.measCurrent = QModelIndex.mk (((9 : Nat) : Int) + 1) 1
      ∧ (measTableAddReading DensityType.DensityReflection F32.one F32.nan
          lastRowWindow).measModel_.length = max lastRowWindow.measModel_.length (9 + 2)
      ∧ (9 + 1 = lastRowWindow.measModel_.length →
          (measTableAddReading DensityType.DensityReflection F32.one F32.nan
            lastRowWindow).measModel_.length = lastRowWindow.measModel_.length + 1)
      ∧ (9 + 1 < lastRowWindow.measModel_.length →
          (measTableAddReading DensityType.DensityReflection F32.one F32.nan
            lastRowWindow).measModel_.length = lastRowWindow.measModel_.length)
      ∧ 9 + 1 < (measTableAddReading DensityType.DensityReflection F32.one F32.nan
          lastRowWindow).measModel_.length) :=
  have h : measTableAddReading_row lastRowWindow.ui = ((9 : Nat) : Int) := by decide
  have hr : 9 < lastRowWindow.measModel_.length := by decide
  ⟨⟨h, hr⟩,
    measTableAddReading_next_row DensityType.DensityReflection F32.one F32.nan lastRowWindow 9
      h hr⟩

end MainWindow

namespace MainWindow

theorem measTableAddReading_written_at (type : DensityType) (density offset : F32)
    (w : MainWindow) (r : Nat) (h : measTableAddReading_row w.ui = (r : Int))
    (hr : r < w.measModel_.length) :
    (measTableAddReading type density offset w).measModel_[r]?
      = some (measTableAddReading_item type density offset) := by
  rw [measTableAddReading_written type density offset w r h hr]
  simp only
  split
  · rw [List.getElem?_set_self hr]
  · rw [List.getElem?_append_left (by rw [List.length_set]; exact hr),
      List.getElem?_set_self hr]

theorem measTableAddReading_written_other (type : DensityType) (density offset : F32)
    (w : MainWindow) (r : Nat) (h : measTableAddReading_row w.ui = (r : Int))
    (hr : r < w.measModel_.length) (n : Nat) (hn : n ≠ r) (hlen : n < w.measModel_.length) :
    (measTableAddReading type density offset w).measModel_[n]? = w.measModel_[n]? := by
  rw [measTableAddReading_written type density offset w r h hr]
  simp only
  have hne : r ≠ n := fun e => hn e.symm
  split
  · rw [List.getElem?_set_ne hne]
  · rw [List.getElem?_append_left (by rw [List.length_set]; exact hlen),
      List.getElem?_set_ne hne]

theorem measTableAddReading_written_length (type : DensityType) (density offset : F32)
    (w : MainWindow) (r : Nat) (h : measTableAddReading_row w.ui = (r : Int))
    (hr : r < w.measModel_.length) :
    (measTableAddReading type density offset w).measModel_.length
      = max w.measModel_.length (r + 2) := by
  rw [measTableAddReading_written type density offset w r h hr]
  simp only
  by_cases hlast : r + 1 < w.measModel_.length
  · rw [if_pos hlast, List.length_set]
    omega
  · rw [if_neg hlast, List.length_append, List.length_set, List.length_singleton]
    omega

/-- After a write into row `r`, the next call of `measTableAddReading` finds row `r + 1`,
when the cells that the view selects along with a new current cell lie in its row or
below. -/
theorem measTableAddReading_written_row (type : DensityType) (density offset : F32)
    (w : MainWindow) (r : Nat) (h : measTableAddReading_row w.ui = (r : Int))
    (hr : r < w.measModel_.length)
    (hview : ∀ index, ∀ i ∈ w.ui.measSelectionCommand [] index, index.row ≤ i.row) :
    measTableAddReading_row (measTableAddReading type density offset w).ui
        = ((r + 1 : Nat) : Int)
    ∧ (measTableAddReading type density offset w).ui.measSelectionCommand
        = w.ui.measSelectionCommand := by
  rw [measTableAddReading_written type density offset w r h hr]
  refine ⟨?_, rfl⟩
  apply measTableAddReading_row_eq
  · intro i hi
    have := hview (QModelIndex.mk ((r : Int) + 1) 1) i hi
    simp only at this
    omega
  · exact Or.inl (by simp [setCurrentIndex])
  · refine ⟨by simp [setCurrentIndex], ?_⟩
    intro i hi
    have := hview (QModelIndex.mk ((r : Int) + 1) 1) i hi
    simp only at this
    push_cast
    exact this

theorem measTableAddReading_item_pasted (num : F32) :
    measTableAddReading_item DensityType.DensityUnknown num qSNaN
      = MeasRow.mk (some []) (some (arg_4_f_2 num)) (some []) := by
  unfold measTableAddReading_item
  have h : qIsNaN qSNaN = true := by decide
  simp [h]

/-- The rows of the table after a sequence of readings has been added one after the
other, starting at row `r`. -/
theorem measTableAddReading_sequence (numList : List F32) :
    ∀ (w : MainWindow) (r : Nat), measTableAddReading_row w.ui = (r : Int) →
      r < w.measModel_.length →
      (∀ index, ∀ i ∈ w.ui.measSelectionCommand [] index, index.row ≤ i.row) →
      (∀ k num, numList[k]? = some num →
        (numList.foldl (fun w num => measTableAddReading DensityType.DensityUnknown num qSNaN w)
            w).measModel_[r + k]?
          = some (MeasRow.mk (some []) (some (arg_4_f_2 num)) (some [])))
      ∧ (∀ n, n < r ∨ r + numList.length ≤ n → n < w.measModel_.length →
        (numList.foldl (fun w num => measTableAddReading DensityType.DensityUnknown num qSNaN w)
            w).measModel_[n]? = w.measModel_[n]?)
      ∧ (numList.foldl (fun w num => measTableAddReading DensityType.DensityUnknown num qSNaN w)
            w).measModel_.length
          = if numList.length = 0 then w.measModel_.length
            else max w.measModel_.length (r + numList.length + 1) := by
  induction numList with
  | nil =>
    intro w r _ _ _
    refine ⟨?_, ?_, ?_⟩
    · intro k num hk
      simp at hk
    · intro n _ _
      rfl
    · simp
  | cons v vs ih =>
    intro w r hrow hr hview
    have hat := measTableAddReading_written_at DensityType.DensityUnknown v qSNaN w r hrow hr
    have hother := measTableAddReading_written_other DensityType.DensityUnknown v qSNaN w r hrow hr
    have hlen := measTableAddReading_written_length DensityType.DensityUnknown v qSNaN w r hrow hr
    obtain ⟨hrow1, hcmd⟩ :=
      measTableAddReading_written_row DensityType.DensityUnknown v qSNaN w r hrow hr hview
    have hr1 : r + 1 < (measTableAddReading DensityType.DensityUnknown v qSNaN w).measModel_.length := by
      rw [hlen]; omega
    have hview1 : ∀ index,
        ∀ i ∈ (measTableAddReading DensityType.DensityUnknown v qSNaN w).ui.measSelectionCommand
          [] index, index.row ≤ i.row := by
      rw [hcmd]; exact hview
    obtain ⟨ia, ib, ic⟩ := ih (measTableAddReading DensityType.DensityUnknown v qSNaN w) (r + 1)
      hrow1 hr1 hview1
    simp only [List.foldl_cons]
    refine ⟨?_, ?_, ?_⟩
    · intro k num hk
      cases k with
      | zero =>
        simp only [List.getElem?_cons_zero, Option.some.injEq] at hk
        subst hk
        rw [Nat.add_zero, ib r (Or.inl (by omega)) (by omega), hat,
          measTableAddReading_item_pasted]
      | succ k =>
        simp only [List.getElem?_cons_succ] at hk
        have e : r + (k + 1) = r + 1 + k := by omega
        rw [e]
        exact ia k num hk
    · intro n hn hlt
      simp only [List.length_cons] at hn
      rw [ib n (by omega) (by rw [hlen]; omega)]
      exact hother n (by omega) hlt
    · rw [ic, hlen]
      simp only [List.length_cons]
      split <;> simp only [Nat.add_one_ne_zero, ↓reduceIte] <;> omega

theorem measTablePaste_numList_eq (isSpace : Char → Bool)
    (elementToFloat : QString → F32 × Bool) (text : QString) :
    measTablePaste_numList isSpace elementToFloat (some text)
      = ((splitSkipEmptyParts isSpace text).filter fun element =>
          (elementToFloat element).2).map fun element => (elementToFloat element).1 := by
  unfold measTablePaste_numList
  simp only
  induction splitSkipEmptyParts isSpace text with
  | nil => rfl
  | cons e es ih =>
    by_cases h : (elementToFloat e).2 = true
    · simp only [List.filterMap_cons, h, ↓reduceIte, List.filter_cons_of_pos, List.map_cons, ih]
    · simp only [List.filterMap_cons, h, Bool.false_eq_true, ↓reduceIte, ih]
      have e2 : (List.filter (fun element => (elementToFloat element).2) (e :: es))
          = List.filter (fun element => (elementToFloat element).2) es :=
        List.filter_cons_of_neg h
      rw [e2]

end MainWindow

namespace MainWindow

/-- C23: for every clipboard text, when the row `r` found by `measTableAddReading` (the
smallest of the selected and current rows) is a row of the table, `measTablePaste`
writes the tokens that parse as floats, in the order of the clipboard and without those
that do not parse, into the rows `r`, `r + 1`, ...: the token number `k` is in row
`r + k`, with an empty mode cell and an empty offset cell; the other rows the table
had keep their contents, and the table has grown as far as needed.  The cells that
the view selects along with a new current cell are assumed to lie in its row or below. -/
theorem measTablePaste_consecutive_rows (isSpace : Char → Bool)
    (elementToFloat : QString → F32 × Bool) (text : QString) (w : MainWindow) (r : Nat)
    (hrow : measTableAddReading_row w.ui = (r : Int)) (hr : r < w.measModel_.length)
    (hview : ∀ index, ∀ i ∈ w.ui.measSelectionCommand [] index, index.row ≤ i.row) :
    (∀ k element,
      ((splitSkipEmptyParts isSpace text).filter fun e => (elementToFloat e).2)[k]?
          = some element →
        (measTablePaste isSpace elementToFloat (some text) w).measModel_[r + k]?
          = some (MeasRow.mk (some []) (some (arg_4_f_2 (elementToFloat element).1)) (some [])))
    ∧ (∀ n,
        n < r ∨ r + ((splitSkipEmptyParts isSpace text).filter fun e =>
            (elementToFloat e).2).length ≤ n →
        n < w.measModel_.length →
        (measTablePaste isSpace elementToFloat (some text) w).measModel_[n]?
          = w.measModel_[n]?)
    ∧ (measTablePaste isSpace elementToFloat (some text) w).measModel_.length
        = if ((splitSkipEmptyParts isSpace text).filter fun e =>
              (elementToFloat e).2).length = 0 then w.measModel_.length
          else max w.measModel_.length
            (r + ((splitSkipEmptyParts isSpace text).filter fun e =>
              (elementToFloat e).2).length + 1) := by
  unfold measTablePaste
  rw [measTablePaste_numList_eq]
  obtain ⟨ha, hb, hc⟩ := measTableAddReading_sequence
    (((splitSkipEmptyParts isSpace text).filter fun e => (elementToFloat e).2).map
      fun element => (elementToFloat element).1) w r hrow hr hview
  simp only [List.length_map] at hb hc
  refine ⟨?_, hb, hc⟩
  intro k element hk
  apply ha k (elementToFloat element).1
  rw [List.getElem?_map, hk]
  rfl

/-- Witness for C23: the text `1.5, x 2` pasted with the current cell in the last row
(row 9) of the table. -/
theorem measTablePaste_consecutive_rows_witness :
    (measTableAddReading_row lastRowWindow.ui = ((9 : Nat) : Int)
      ∧ 9 < lastRowWindow.measModel_.length
      ∧ ∀ index, ∀ i ∈ lastRowWindow.ui.measSelectionCommand [] index, index.row ≤ i.row)
    ∧ ((∀ k element,
        ((splitSkipEmptyParts asciiSpace ['1', '.', '5', ',', ' ', 'x', ' ', '2']).filter
            fun e => (toFloat e).2)[k]? = some element →
          (measTablePaste asciiSpace toFloat (some ['1', '.', '5', ',', ' ', 'x', ' ', '2'])
              lastRowWindow).measModel_[9 + k]?
            = some (MeasRow.mk (some []) (some (arg_4_f_2 (toFloat element).1)) (some [])))
      ∧ (∀ n,
          n < 9 ∨ 9 + ((splitSkipEmptyParts asciiSpace
              ['1', '.', '5', ',', ' ', 'x', ' ', '2']).filter fun e =>
                (toFloat e).2).length ≤ n →
          n < lastRowWindow.measModel_.length →
          (measTablePaste asciiSpace toFloat (some ['1', '.', '5', ',', ' ', 'x', ' ', '2'])
              lastRowWindow).measModel_[n]? = lastRowWindow.measModel_[n]?)
      ∧ (measTablePaste asciiSpace toFloat (some ['1', '.', '5', ',', ' ', 'x', ' ', '2'])
            lastRowWindow).measModel_.length
          = if ((splitSkipEmptyParts asciiSpace
                ['1', '.', '5', ',', ' ', 'x', ' ', '2']).filter fun e =>
                  (toFloat e).2).length = 0 then lastRowWindow.measModel_.length
            else max lastRowWindow.measModel_.length
              (9 + ((splitSkipEmptyParts asciiSpace
                ['1', '.', '5', ',', ' ', 'x', ' ', '2']).filter fun e =>
                  (toFloat e).2).length + 1)) :=
  have hrow : measTableAddReading_row lastRowWindow.ui = ((9 : Nat) : Int) := by decide
  have hr : 9 < lastRowWindow.measModel_.length := by decide
  have hview : ∀ index, ∀ i ∈ lastRowWindow.ui.measSelectionCommand [] index,
      index.row ≤ i.row := by
    intro index i hi
    have e : i = index := List.mem_singleton.mp hi
    rw [e]
  ⟨⟨hrow, hr, hview⟩,
    measTablePaste_consecutive_rows asciiSpace toFloat ['1', '.', '5', ',', ' ', 'x', ' ', '2']
      lastRowWindow 9 hrow hr hview⟩

/-- The text `1.5, x 2` has the tokens `1.5`, `x` and `2`; the first and the last parse,
and after the paste of the witness the rows 9 and 10 hold `1.50` and `2.00` and the
table has twelve rows. -/
theorem measTablePaste_example :
    splitSkipEmptyParts asciiSpace ['1', '.', '5', ',', ' ', 'x', ' ', '2']
      = [['1', '.', '5'], ['x'], ['2']]
    ∧ (measTablePaste asciiSpace toFloat (some ['1', '.', '5', ',', ' ', 'x', ' ', '2'])
        lastRowWindow).measModel_.drop 9
      = [MeasRow.mk (some []) (some ['1', '.', '5', '0']) (some []),
         MeasRow.mk (some []) (some ['2', '.', '0', '0']) (some []),
         MeasRow.mk none none none] := by
  constructor
  · decide
  · rfl

end MainWindow

namespace MainWindow

theorem setItems_length_ge (model : List MeasRow) (row : Nat) (item : MeasRow) :
    model.length ≤ (setItems model row item).length := by
  unfold setItems
  rw [List.length_set, List.length_append]
  omega

theorem insertRow_length_ge (model : List MeasRow) (row : Nat) :
    model.length ≤ (insertRow model row).length := by
  unfold insertRow
  split
  · rename_i h
    rw [List.length_append, List.length_cons, List.length_take, List.length_drop]
    omega
  · exact le_refl _

theorem measTableAddReading_length_ge (type : DensityType) (density offset : F32)
    (w : MainWindow) :
    w.measModel_.length ≤ (measTableAddReading type density offset w).measModel_.length := by
  unfold measTableAddReading
  simp only
  split
  · split
    · exact setItems_length_ge _ _ _
    · exact le_trans (setItems_length_ge _ _ _) (insertRow_length_ge _ _)
  · exact le_refl _

theorem measTablePaste_length_ge (isSpace : Char → Bool)
    (elementToFloat : QString → F32 × Bool) (mimeData : Option QString) (w : MainWindow) :
    w.measModel_.length
      ≤ (measTablePaste isSpace elementToFloat mimeData w).measModel_.length := by
  unfold measTablePaste
  generalize measTablePaste_numList isSpace elementToFloat mimeData = numList
  induction numList generalizing w with
  | nil => exact le_refl _
  | cons v vs ih =>
    simp only [List.foldl_cons]
    exact le_trans (measTableAddReading_length_ge _ _ _ w) (ih _)

theorem itemFromIndex_length (model : List MeasRow) (index : QModelIndex) :
    (itemFromIndex model index).1.length = model.length := by
  unfold itemFromIndex
  split
  · split
    · rfl
    · split
      · rfl
      · exact List.length_set _ _ _
  · rfl

theorem measTableCopyList_collect_length (includeEmpty : Bool)
    (acc : List MeasRow × List QString) (index : QModelIndex) :
    (measTableCopyList_collect includeEmpty acc index).1.length = acc.1.length := by
  unfold measTableCopyList_collect
  have h := itemFromIndex_length acc.1 index
  split
  · rename_i model text e
    rw [e] at h
    split <;> exact h
  · rename_i model e
    rw [e] at h
    exact h

theorem measTableCopyList_collect_foldl_length (includeEmpty : Bool)
    (indexList : List QModelIndex) :
    ∀ acc : List MeasRow × List QString,
      (indexList.foldl (measTableCopyList_collect includeEmpty) acc).1.length
        = acc.1.length := by
  induction indexList with
  | nil => intro acc; rfl
  | cons a t ih =>
    intro acc
    simp only [List.foldl_cons]
    rw [ih, measTableCopyList_collect_length]

theorem measTableCopyList_length (windows : Bool) (indexList : List QModelIndex)
    (includeEmpty : Bool) (w : MainWindow) :
    (measTableCopyList windows indexList includeEmpty w).1.measModel_.length
      = w.measModel_.length := by
  unfold measTableCopyList
  simp only
  rw [measTableCopyList_collect_foldl_length]

theorem measTableDelete_row_length (model : List MeasRow) (index : QModelIndex) :
    (measTableDelete_row model index).length = model.length := by
  unfold measTableDelete_row
  split
  · split
    · exact List.length_set _ _ _
    · rfl
  · rfl

theorem measTableDelete_length (selectedRows : List QModelIndex) (w : MainWindow) :
    (measTableDelete selectedRows w).measModel_.length = w.measModel_.length := by
  unfold measTableDelete
  simp only
  generalize w.measModel_ = model
  induction selectedRows generalizing model with
  | nil => rfl
  | cons a t ih =>
    simp only [List.foldl_cons]
    rw [ih, measTableDelete_row_length]

theorem onClearTableClicked_length (w : MainWindow) :
    (onClearTableClicked w).measModel_.length = min w.measModel_.length MEAS_TABLE_ROWS := by
  unfold onClearTableClicked removeRows MEAS_TABLE_ROWS
  simp only
  split
  · rename_i h
    rw [if_pos (by omega)]
    simp only [List.length_map, List.length_append, List.length_take, List.length_drop]
    omega
  · simp only [List.length_map]
    omega

theorem MeasRow_clearText_isBlank (r : MeasRow) : r.clearText.isBlank = true := by
  obtain ⟨mode, meas, offset⟩ := r
  cases mode <;> cases meas <;> cases offset <;> rfl

theorem onClearTableClicked_blank (w : MainWindow) :
    ∀ row ∈ (onClearTableClicked w).measModel_, row.isBlank = true := by
  intro row hrow
  unfold onClearTableClicked at hrow
  simp only [List.mem_map] at hrow
  obtain ⟨r, _, rfl⟩ := hrow
  exact MeasRow_clearText_isBlank r

theorem TableOp_apply_length_ge (windows : Bool) (isSpace : Char → Bool)
    (elementToFloat : QString → F32 × Bool) (w : MainWindow) (op : TableOp)
    (h : MEAS_TABLE_ROWS ≤ w.measModel_.length) :
    MEAS_TABLE_ROWS ≤ (op.apply windows isSpace elementToFloat w).measModel_.length := by
  cases op with
  | select selected current => exact h
  | addReading type density offset =>
    exact le_trans h (measTableAddReading_length_ge type density offset w)
  | paste mimeData =>
    exact le_trans h (measTablePaste_length_ge isSpace elementToFloat mimeData w)
  | copy selectedRows =>
    show MEAS_TABLE_ROWS ≤ (measTableCopy windows selectedRows w).1.measModel_.length
    unfold measTableCopy
    simp only
    rw [measTableCopyList_length]
    exact h
  | delete selectedRows =>
    show MEAS_TABLE_ROWS ≤ (measTableDelete selectedRows w).measModel_.length
    rw [measTableDelete_length]
    exact h
  | clear =>
    show MEAS_TABLE_ROWS ≤ (onClearTableClicked w).measModel_.length
    rw [onClearTableClicked_length]
    omega

theorem tableAfter_length_ge (windows : Bool) (isSpace : Char → Bool)
    (elementToFloat : QString → F32 × Bool) (w : MainWindow) (ops : List TableOp) :
    MEAS_TABLE_ROWS ≤ (tableAfter windows isSpace elementToFloat w ops).measModel_.length := by
  unfold tableAfter
  have h0 : MEAS_TABLE_ROWS ≤ (setupMeasModel w).measModel_.length := by
    unfold setupMeasModel
    simp only [List.length_map, List.length_replicate, le_refl]
  generalize setupMeasModel w = w0 at h0
  induction ops generalizing w0 with
  | nil => exact h0
  | cons op ops ih =>
    simp only [List.foldl_cons]
    exact ih _ (TableOp_apply_length_ge windows isSpace elementToFloat w0 op h0)

end MainWindow

/-- C24: in every state reached from the table set up by the constructor through
changes of selection, added readings, paste, copy, delete and clear, the measurement
table has at least `MEAS_TABLE_ROWS` (10) rows; and after `onClearTableClicked` in such
a state it has exactly 10 rows, every cell text is empty and the current cell is
`(0, 1)`. -/
theorem measTable_rows_invariant (windows : Bool) (isSpace : Char → Bool)
    (elementToFloat : QString → F32 × Bool) (w : MainWindow) (ops : List TableOp) :
    MEAS_TABLE_ROWS = 10
    ∧ MEAS_TABLE_ROWS ≤ (tableAfter windows isSpace elementToFloat w ops).measModel_.length
    ∧ (MainWindow.onClearTableClicked
        (tableAfter windows isSpace elementToFloat w ops)).measModel_.length = 10
    ∧ (∀ row ∈ (MainWindow.onClearTableClicked
        (tableAfter windows isSpace elementToFloat w ops)).measModel_, row.isBlank = true)
    ∧ (MainWindow.onClearTableClicked
        (tableAfter windows isSpace elementToFloat w ops)).ui.measCurrent
        = QModelIndex.mk 0 1 := by
  have h := MainWindow.tableAfter_length_ge windows isSpace elementToFloat w ops
  refine ⟨rfl, h, ?_, MainWindow.onClearTableClicked_blank _, rfl⟩
  rw [MainWindow.onClearTableClicked_length]
  unfold MEAS_TABLE_ROWS at h ⊢
  omega

namespace MainWindow

theorem itemFromIndex_measurement (model : List MeasRow) (index : QModelIndex)
    (hcol : index.column = 1) (h0 : 0 ≤ index.row) (hlt : index.row.toNat < model.length) :
    (itemFromIndex model index).2 = some (measText model index.row.toNat)
    ∧ (∀ row, measText (itemFromIndex model index).1 row = measText model row)
    ∧ (itemFromIndex model index).1.length = model.length := by
  obtain ⟨row, column⟩ := index
  simp only at hcol h0 hlt
  subst hcol
  unfold itemFromIndex
  simp only [h0, true_and, Int.reduceLT, Int.reduceLE, ↓reduceIte, le_refl, and_self]
  have hget : model[row.toNat]? = some model[row.toNat] := List.getElem?_eq_getElem hlt
  rw [hget]
  simp only
  generalize model[row.toNat] = r at hget
  obtain ⟨mode, meas, offset⟩ := r
  cases meas with
  | some text =>
    simp [MeasRow.item, measText, hget, MeasRow.text]
  | none =>
    simp only [MeasRow.item, Int.reduceEq, ↓reduceIte, one_ne_zero]
    refine ⟨?_, ?_, List.length_set _ _ _⟩
    · simp [measText, hget, MeasRow.text]
    · intro n
      unfold measText
      by_cases hn : row.toNat = n
      · subst hn
        rw [List.getElem?_set_self hlt, hget]
        simp [MeasRow.text, MeasRow.setItem]
      · rw [List.getElem?_set_ne hn]

/-- The texts collected by `measTableCopyList` with `includeEmpty = true` from valid
indexes of the measurement column: one per index, empty ones included. -/
theorem measTableCopyList_collect_foldl (indexList : List QModelIndex) :
    ∀ (acc : List MeasRow × List QString) (model : List MeasRow),
      (∀ row, measText acc.1 row = measText model row) → acc.1.length = model.length →
      (∀ index ∈ indexList,
        index.column = 1 ∧ 0 ≤ index.row ∧ index.row.toNat < model.length) →
      (indexList.foldl (measTableCopyList_collect true) acc).2
        = acc.2 ++ indexList.map fun index => measText model index.row.toNat := by
  induction indexList with
  | nil =>
    intro acc model _ _ _
    simp
  | cons a t ih =>
    intro acc model htext hlen hvalid
    obtain ⟨hcol, h0, hlt⟩ := hvalid a (List.mem_cons_self a t)
    obtain ⟨h1, h2, h3⟩ := itemFromIndex_measurement acc.1 a hcol h0 (by rw [hlen]; exact hlt)
    have hstep : measTableCopyList_collect true acc a
        = ((itemFromIndex acc.1 a).1, acc.2 ++ [measText model a.row.toNat]) := by
      unfold measTableCopyList_collect
      rw [← htext]
      generalize itemFromIndex acc.1 a = res at h1
      obtain ⟨m, o⟩ := res
      simp only at h1
      subst h1
      simp only [hcol, true_or, and_self, ↓reduceIte]
    simp only [List.foldl_cons, hstep]
    rw [ih _ model (fun row => by rw [h2 row, htext row]) (by rw [h3, hlen])
      (fun index hi => hvalid index (List.mem_cons_of_mem a hi))]
    simp

theorem measTableCopyList_append_foldl_nonempty (separator : QString)
    (numList : List QString) :
    ∀ copiedText : QString, copiedText ≠ [] →
      numList.foldl (measTableCopyList_append separator) copiedText
        = copiedText ++ (numList.map fun numElement => separator ++ numElement).flatten := by
  induction numList with
  | nil =>
    intro copiedText _
    simp
  | cons a t ih =>
    intro copiedText hne
    have hstep : measTableCopyList_append separator copiedText a
        = copiedText ++ separator ++ a := by
      unfold measTableCopyList_append
      cases copiedText with
      | nil => exact absurd rfl hne
      | cons c cs => rfl
    simp only [List.foldl_cons, hstep]
    rw [ih _ (by
      intro h
      rw [List.append_assoc] at h
      exact hne (List.append_eq_nil.mp h).1)]
    simp [List.append_assoc]

theorem intercalate_cons (separator : QString) (a : QString) (t : List QString) :
    separator.intercalate (a :: t)
      = a ++ (t.map fun numElement => separator ++ numElement).flatten := by
  induction t generalizing a with
  | nil => simp [List.intercalate]
  | cons b t ih =>
    have h := ih b
    simp only [List.intercalate] at h ⊢
    rw [List.intersperse_cons_cons]
    simp only [List.flatten_cons, List.map_cons, h, List.append_assoc]

/-- The text built by `measTableCopyList`: the fields joined by the separator, without
the empty fields that come before the first field that is not empty. -/
theorem measTableCopyList_append_foldl (separator : QString) (numList : List QString) :
    numList.foldl (measTableCopyList_append separator) []
      = separator.intercalate (numList.dropWhile fun numElement => numElement.isEmpty) := by
  induction numList with
  | nil => rfl
  | cons a t ih =>
    cases a with
    | nil =>
      simp only [List.foldl_cons, List.dropWhile_cons, List.isEmpty_nil, ↓reduceIte]
      exact ih
    | cons c cs =>
      have hstep : measTableCopyList_append separator [] (c :: cs) = c :: cs := rfl
      simp only [List.foldl_cons, hstep, List.dropWhile_cons, List.isEmpty_cons,
        Bool.false_eq_true, ↓reduceIte]
      rw [measTableCopyList_append_foldl_nonempty separator t (c :: cs) (List.cons_ne_nil c cs),
        intercalate_cons]

end MainWindow

namespace MainWindow

/-- What `measTableCopy` produces: for every list of selected cells of the measurement column,
`measTableCopy` puts on the clipboard the cell texts of the selected rows in row order,
joined by the separator, from the first text that is not empty on: the empty texts
before it give no field and no separator (and the text is empty when all are empty). -/
theorem measTableCopy_text (windows : Bool) (selectedRows : List QModelIndex) (w : MainWindow)
    (hvalid : ∀ index ∈ selectedRows,
      index.column = 1 ∧ 0 ≤ index.row ∧ index.row.toNat < w.measModel_.length) :
    (measTableCopy windows selectedRows w).2
        = (copySeparator windows w.ui).intercalate
            (((selectedRows.insertionSort QModelIndex.le).map fun index =>
              measText w.measModel_ index.row.toNat).dropWhile fun text => text.isEmpty)
    ∧ (selectedRows.insertionSort QModelIndex.le).Sorted QModelIndex.le
    ∧ (selectedRows.insertionSort QModelIndex.le).Perm selectedRows := by
  have hperm := List.perm_insertionSort QModelIndex.le selectedRows
  have hsorted : (selectedRows.insertionSort QModelIndex.le).Sorted QModelIndex.le :=
    @List.sorted_insertionSort _ QModelIndex.le _
      ⟨fun a b => by unfold QModelIndex.le; omega⟩
      ⟨fun a b c => by unfold QModelIndex.le; omega⟩ selectedRows
  refine ⟨?_, hsorted, hperm⟩
  have hvalid2 : ∀ index ∈ selectedRows.insertionSort QModelIndex.le,
      index.column = 1 ∧ 0 ≤ index.row ∧ index.row.toNat < w.measModel_.length :=
    fun index hi => hvalid index (hperm.mem_iff.mp hi)
  unfold measTableCopy measTableCopyList
  simp only
  rw [measTableCopyList_collect_foldl _ (w.measModel_, []) w.measModel_ (fun _ => rfl) rfl hvalid2]
  simp only [List.nil_append]
  exact measTableCopyList_append_foldl _ _

/-- The text of `measTableCopy` for the rows 1 and 0 selected in a table whose row 0 has
been deleted and whose row 1 holds `1.00`. -/
theorem measTableCopy_text_witness :
    (∀ index ∈ [QModelIndex.mk 1 1, QModelIndex.mk 0 1],
      index.column = 1 ∧ 0 ≤ index.row
        ∧ index.row.toNat < deletedFirstRowWindow.measModel_.length)
    ∧ ((measTableCopy false [QModelIndex.mk 1 1, QModelIndex.mk 0 1] deletedFirstRowWindow).2
        = (copySeparator false deletedFirstRowWindow.ui).intercalate
            ((([QModelIndex.mk 1 1, QModelIndex.mk 0 1].insertionSort QModelIndex.le).map
              fun index => measText deletedFirstRowWindow.measModel_ index.row.toNat).dropWhile
                fun text => text.isEmpty)
      ∧ ([QModelIndex.mk 1 1, QModelIndex.mk 0 1].insertionSort QModelIndex.le).Sorted
          QModelIndex.le
      ∧ ([QModelIndex.mk 1 1, QModelIndex.mk 0 1].insertionSort QModelIndex.le).Perm
          [QModelIndex.mk 1 1, QModelIndex.mk 0 1]) :=
  have hvalid : ∀ index ∈ [QModelIndex.mk 1 1, QModelIndex.mk 0 1],
      index.column = 1 ∧ 0 ≤ index.row
        ∧ index.row.toNat < deletedFirstRowWindow.measModel_.length := by
    intro index hi
    simp only [List.mem_cons, List.mem_singleton, List.not_mem_nil, or_false] at hi
    rcases hi with rfl | rfl
    · exact ⟨rfl, by decide, by decide⟩
    · exact ⟨rfl, by decide, by decide⟩
  ⟨hvalid, measTableCopy_text false [QModelIndex.mk 1 1, QModelIndex.mk 0 1]
    deletedFirstRowWindow hvalid⟩

/-- C25 fails in the code: in the table reached from the constructor by two readings
and the deletion of row 0, with the rows 0 and 1 selected, the copied text is `1.00`:
two selected rows give one field and no separator, the empty cell of row 0 is lost,
although `measTableCopy` asks for the empty cells to be included.  An empty cell
between two readings is kept: with row 1 deleted instead and the rows 0, 1 and 2
selected the text has three fields and two separators. -/
theorem measTableCopy_loses_leading_empty_rows :
    deletedFirstRowWindow.measModel_.take 2
      = [MeasRow.mk (some []) (some []) (some []),
         MeasRow.mk (some ['R']) (some ['1', '.', '0', '0']) (some [])]
    ∧ [QModelIndex.mk 0 1, QModelIndex.mk 1 1].length = 2
    ∧ (measTableCopy false [QModelIndex.mk 0 1, QModelIndex.mk 1 1] deletedFirstRowWindow).2
        = ['1', '.', '0', '0']
    ∧ (measTableCopy false [QModelIndex.mk 0 1, QModelIndex.mk 1 1] deletedFirstRowWindow).2
        ≠ ['\n', '1', '.', '0', '0']
    ∧ '\n' ∉ (measTableCopy false [QModelIndex.mk 0 1, QModelIndex.mk 1 1]
        deletedFirstRowWindow).2
    ∧ (measTableCopy false [QModelIndex.mk 0 1, QModelIndex.mk 1 1, QModelIndex.mk 2 1]
        deletedMiddleRowWindow).2
        = ['1', '.', '0', '0', '\n', '\n', '1', '.', '0', '0'] := by
  have h : (measTableCopy false [QModelIndex.mk 0 1, QModelIndex.mk 1 1]
      deletedFirstRowWindow).2 = ['1', '.', '0', '0'] := by rfl
  refine ⟨by rfl, rfl, h, ?_, ?_, by rfl⟩
  · rw [h]
    decide
  · rw [h]
    decide

end MainWindow

namespace MainWindow

theorem onMenuEditAboutToShow_flags_cases (c : EditMenuContext) (w : MainWindow) :
    (onMenuEditAboutToShow_flags c w).hasDelete = (onMenuEditAboutToShow_flags c w).hasCut
    ∧ ((onMenuEditAboutToShow_flags c w).hasCut = true →
        (onMenuEditAboutToShow_flags c w).hasCopy = true) := by
  unfold onMenuEditAboutToShow_flags
  simp only
  split
  · split
    · split
      · exact ⟨rfl, fun h => rfl⟩
      · split
        · split
          · exact ⟨rfl, fun h => rfl⟩
          · exact ⟨rfl, fun h => h⟩
        · exact ⟨rfl, fun h => h⟩
    · exact ⟨rfl, fun h => h⟩
  · split
    · split
      · split
        · split
          · split
            · exact ⟨rfl, fun h => rfl⟩
            · exact ⟨rfl, fun h => rfl⟩
          · split
            · exact ⟨rfl, fun h => h⟩
            · exact ⟨rfl, fun h => h⟩
        · exact ⟨rfl, fun h => h⟩
      · exact ⟨rfl, fun h => h⟩
    · exact ⟨rfl, fun h => h⟩

theorem onMenuEditAboutToShow_flags_readOnly (c : EditMenuContext) (w : MainWindow)
    (focusWidget : FocusWidget) (lineEdit : FocusLineEdit)
    (htab : w.ui.tabWidget = Tab.tabCalibration)
    (hfocus : c.tabCalibrationFocusWidget = some focusWidget)
    (hline : focusWidget.lineEdit = some lineEdit) (hro : lineEdit.isReadOnly = true) :
    (onMenuEditAboutToShow_flags c w).hasCut = false
    ∧ (onMenuEditAboutToShow_flags c w).hasPaste = false
    ∧ (onMenuEditAboutToShow_flags c w).hasDelete = false := by
  unfold onMenuEditAboutToShow_flags
  simp only [htab, hfocus, hline, hro]
  rw [if_neg (by decide)]
  simp only [↓reduceIte, Bool.not_true, Bool.false_eq_true]
  split <;> exact ⟨rfl, rfl, rfl⟩

/-- C26: after `onMenuEditAboutToShow`, in every state, Delete is enabled exactly when
Cut is, Cut enabled implies Copy enabled, and Paste is enabled only if the clipboard
holds text; and when the calibration tab is shown and its focus widget is a read-only
line edit, Cut, Paste and Delete are all disabled. -/
theorem onMenuEditAboutToShow_actions (c : EditMenuContext) (w : MainWindow) :
    ((onMenuEditAboutToShow c w).ui.actionDelete = true
      ↔ (onMenuEditAboutToShow c w).ui.actionCut = true)
    ∧ ((onMenuEditAboutToShow c w).ui.actionCut = true →
        (onMenuEditAboutToShow c w).ui.actionCopy = true)
    ∧ ((onMenuEditAboutToShow c w).ui.actionPaste = true → c.clipboardHasText = true)
    ∧ (∀ (focusWidget : FocusWidget) (lineEdit : FocusLineEdit),
        w.ui.tabWidget = Tab.tabCalibration →
        c.tabCalibrationFocusWidget = some focusWidget →
        focusWidget.lineEdit = some lineEdit → lineEdit.isReadOnly = true →
        (onMenuEditAboutToShow c w).ui.actionCut = false
        ∧ (onMenuEditAboutToShow c w).ui.actionPaste = false
        ∧ (onMenuEditAboutToShow c w).ui.actionDelete = false) := by
  obtain ⟨h1, h2⟩ := onMenuEditAboutToShow_flags_cases c w
  refine ⟨?_, h2, ?_, ?_⟩
  · show (onMenuEditAboutToShow_flags c w).hasDelete = true
      ↔ (onMenuEditAboutToShow_flags c w).hasCut = true
    rw [h1]
  · show (if (onMenuEditAboutToShow_flags c w).hasPaste = true then
        (if (!c.clipboardHasText) = true then false else true) else false) = true
      → c.clipboardHasText = true
    cases c.clipboardHasText <;> simp
  · intro focusWidget lineEdit htab hfocus hline hro
    obtain ⟨g1, g2, g3⟩ :=
      onMenuEditAboutToShow_flags_readOnly c w focusWidget lineEdit htab hfocus hline hro
    refine ⟨g1, ?_, g3⟩
    show (if (onMenuEditAboutToShow_flags c w).hasPaste = true then
        (if (!c.clipboardHasText) = true then false else true) else false) = false
    rw [g2]
    rfl

/-- Witness for C26: with a read-only calibration field that has selected text in
focus and text on the clipboard, only Copy is enabled. -/
theorem onMenuEditAboutToShow_actions_witness :
    (blankWindow.ui.tabWidget = Tab.tabCalibration
      ∧ readOnlyFieldContext.tabCalibrationFocusWidget
          = some (FocusWidget.mk false false false (some (FocusLineEdit.mk true true)))
      ∧ (onMenuEditAboutToShow readOnlyFieldContext blankWindow).ui.actionCopy = true)
    ∧ ((onMenuEditAboutToShow readOnlyFieldContext blankWindow).ui.actionCut = false
      ∧ (onMenuEditAboutToShow readOnlyFieldContext blankWindow).ui.actionPaste = false
      ∧ (onMenuEditAboutToShow readOnlyFieldContext blankWindow).ui.actionDelete = false) :=
  ⟨⟨rfl, rfl, rfl⟩,
    (onMenuEditAboutToShow_actions readOnlyFieldContext blankWindow).2.2.2
      (FocusWidget.mk false false false (some (FocusLineEdit.mk true true)))
      (FocusLineEdit.mk true true) rfl rfl rfl rfl⟩

end MainWindow

/-! ### The dirty state of the calibration fields -/

namespace MainWindow

end MainWindow

/-! ### Adding the last reading to the table -/

namespace MainWindow

theorem textChanged_lastReadingType (old new : QString) (slot : MainWindow → MainWindow)
    (w : MainWindow) (h : ∀ v, (slot v).lastReadingType_ = v.lastReadingType_) :
    (textChanged old new slot w).lastReadingType_ = w.lastReadingType_ := by
  unfold textChanged
  split
  · rfl
  · exact h w

theorem measTableAddReading_lastReadingType (type : DensityType) (density offset : F32)
    (w : MainWindow) :
    (measTableAddReading type density offset w).lastReadingType_ = w.lastReadingType_ := by
  unfold measTableAddReading
  dsimp only
  split_ifs <;> rfl

theorem onAddReadingClicked_lastReadingType (w : MainWindow) :
    (onAddReadingClicked w).lastReadingType_ = w.lastReadingType_ := by
  unfold onAddReadingClicked
  split
  · rfl
  · exact measTableAddReading_lastReadingType _ _ _ w

theorem onDensityReading_autoAdd_lastReadingType (w : MainWindow) :
    (onDensityReading_autoAdd w).lastReadingType_ = w.lastReadingType_ := by
  unfold onDensityReading_autoAdd
  split_ifs
  · exact onAddReadingClicked_lastReadingType w
  · rfl
  · rfl

theorem onDensityReading_calTab_lastReadingType (type : DensityType) (corrValue : F32)
    (w : MainWindow) :
    (onDensityReading_calTab type corrValue w).lastReadingType_ = w.lastReadingType_ := by
  unfold onDensityReading_calTab
  split_ifs <;>
    first
      | rfl
      | exact textChanged_lastReadingType _ _ _ _ (fun _ => rfl)

theorem textChanged_lastReadingOffset (old new : QString) (slot : MainWindow → MainWindow)
    (w : MainWindow) (h : ∀ v, (slot v).lastReadingOffset_ = v.lastReadingOffset_) :
    (textChanged old new slot w).lastReadingOffset_ = w.lastReadingOffset_ := by
  unfold textChanged
  split
  · rfl
  · exact h w

theorem measTableAddReading_lastReadingOffset (type : DensityType) (density offset : F32)
    (w : MainWindow) :
    (measTableAddReading type density offset w).lastReadingOffset_ = w.lastReadingOffset_ := by
  unfold measTableAddReading
  dsimp only
  split_ifs <;> rfl

theorem onAddReadingClicked_lastReadingOffset (w : MainWindow) :
    (onAddReadingClicked w).lastReadingOffset_ = w.lastReadingOffset_ := by
  unfold onAddReadingClicked
  split
  · rfl
  · exact measTableAddReading_lastReadingOffset _ _ _ w

theorem onDensityReading_autoAdd_lastReadingOffset (w : MainWindow) :
    (onDensityReading_autoAdd w).lastReadingOffset_ = w.lastReadingOffset_ := by
  unfold onDensityReading_autoAdd
  split_ifs
  · exact onAddReadingClicked_lastReadingOffset w
  · rfl
  · rfl

theorem onDensityReading_calTab_lastReadingOffset (type : DensityType) (corrValue : F32)
    (w : MainWindow) :
    (onDensityReading_calTab type corrValue w).lastReadingOffset_ = w.lastReadingOffset_ := by
  unfold onDensityReading_calTab
  split_ifs <;>
    first
      | rfl
      | exact textChanged_lastReadingOffset _ _ _ _ (fun _ => rfl)

theorem onDensityReading_saved (type : DensityType) (dValue dZero rawValue corrValue : F32)
    (w : MainWindow) :
    (onDensityReading type dValue dZero rawValue corrValue w).lastReadingType_ = type
    ∧ (onDensityReading type dValue dZero rawValue corrValue w).lastReadingDensity_
        = cleanUp (displayValue dValue dZero)
    ∧ (onDensityReading type dValue dZero rawValue corrValue w).lastReadingOffset_ = dZero := by
  refine ⟨?_, ?_, ?_⟩
  · unfold onDensityReading
    dsimp only
    rw [onDensityReading_calTab_lastReadingType, onDensityReading_autoAdd_lastReadingType]
    rfl
  · unfold onDensityReading
    dsimp only
    rw [onDensityReading_calTab_lastReadingDensity, onDensityReading_autoAdd_lastReadingDensity]
    rfl
  · unfold onDensityReading
    dsimp only
    rw [onDensityReading_calTab_lastReadingOffset, onDensityReading_autoAdd_lastReadingOffset]
    rfl

/-- C28: `onAddReadingClicked` leaves the window (and so the measurement table) as it is
when the last reading type is Unknown or the last saved density is NaN.  Otherwise,
after `onDensityReading`, it adds exactly the saved values: when the row found by
`measTableAddReading` is a row of the table, that row receives the reading type, the
cleaned display value in two decimals, and the zero offset as received (not cleaned
up; an empty offset cell when it is NaN). -/
theorem onAddReadingClicked_adds_saved (type : DensityType)
    (dValue dZero rawValue corrValue : F32) (w : MainWindow)
    (htype : type ≠ DensityType.DensityUnknown)
    (hnan : qIsNaN (cleanUp (displayValue dValue dZero)) = false) :
    (∀ v : MainWindow,
      v.lastReadingType_ = DensityType.DensityUnknown ∨ qIsNaN v.lastReadingDensity_ = true →
        onAddReadingClicked v = v)
    ∧ onAddReadingClicked (onDensityReading type dValue dZero rawValue corrValue w)
        = measTableAddReading type (cleanUp (displayValue dValue dZero)) dZero
            (onDensityReading type dValue dZero rawValue corrValue w)
    ∧ (∀ r : Nat,
        measTableAddReading_row (onDensityReading type dValue dZero rawValue corrValue w).ui
          = (r : Int) →
        r < (onDensityReading type dValue dZero rawValue corrValue w).measModel_.length →
        (onAddReadingClicked
            (onDensityReading type dValue dZero rawValue corrValue w)).measModel_[r]?
          = some (MeasRow.mk
              (some (if type = DensityType.DensityReflection then ['R'] else ['T']))
              (some (arg_4_f_2 (cleanUp (displayValue dValue dZero))))
              (some (if qIsNaN dZero then [] else arg_4_f_2 dZero)))) := by
  obtain ⟨h1, h2, h3⟩ := onDensityReading_saved type dValue dZero rawValue corrValue w
  have hadd : onAddReadingClicked (onDensityReading type dValue dZero rawValue corrValue w)
      = measTableAddReading type (cleanUp (displayValue dValue dZero)) dZero
          (onDensityReading type dValue dZero rawValue corrValue w) := by
    unfold onAddReadingClicked
    rw [h1, h2, h3, hnan]
    simp only [htype, decide_False, Bool.or_self, Bool.false_eq_true, ↓reduceIte]
  refine ⟨?_, hadd, ?_⟩
  · intro v hv
    unfold onAddReadingClicked
    rcases hv with hv | hv
    · simp only [hv, decide_True, Bool.true_or, ↓reduceIte]
    · simp only [hv, Bool.or_true, ↓reduceIte]
  · intro r hrow hr
    rw [hadd, measTableAddReading_written_at _ _ _ _ r hrow hr]
    unfold measTableAddReading_item
    cases type with
    | DensityUnknown => exact absurd rfl htype
    | DensityReflection => cases qIsNaN dZero <;> rfl
    | DensityTransmission => cases qIsNaN dZero <;> rfl

end MainWindow

namespace MainWindow

/-- Witness for C28: a reflection reading of `1.0` without zero offset, received on the
calibration tab and then added with the button. -/
theorem onAddReadingClicked_adds_saved_witness :
    (DensityType.DensityReflection ≠ DensityType.DensityUnknown
      ∧ qIsNaN (cleanUp (displayValue F32.one F32.nan)) = false)
    ∧ ((∀ v : MainWindow,
        v.lastReadingType_ = DensityType.DensityUnknown ∨ qIsNaN v.lastReadingDensity_ = true →
          onAddReadingClicked v = v)
      ∧ onAddReadingClicked
          (onDensityReading DensityType.DensityReflection F32.one F32.nan F32.zero F32.zero
            blankWindow)
          = measTableAddReading DensityType.DensityReflection
              (cleanUp (displayValue F32.one F32.nan)) F32.nan
              (onDensityReading DensityType.DensityReflection F32.one F32.nan F32.zero F32.zero
                blankWindow)
      ∧ (∀ r : Nat,
          measTableAddReading_row
            (onDensityReading DensityType.DensityReflection F32.one F32.nan F32.zero F32.zero
              blankWindow).ui = (r : Int) →
          r < (onDensityReading DensityType.DensityReflection F32.one F32.nan F32.zero F32.zero
              blankWindow).measModel_.length →
          (onAddReadingClicked
              (onDensityReading DensityType.DensityReflection F32.one F32.nan F32.zero F32.zero
                blankWindow)).measModel_[r]?
            = some (MeasRow.mk
                (some (if DensityType.DensityReflection = DensityType.DensityReflection
                  then ['R'] else ['T']))
                (some (arg_4_f_2 (cleanUp (displayValue F32.one F32.nan))))
                (some (if qIsNaN F32.nan then [] else arg_4_f_2 F32.nan))))) :=
  have htype : DensityType.DensityReflection ≠ DensityType.DensityUnknown := by decide
  have hnan : qIsNaN (cleanUp (displayValue F32.one F32.nan)) = false := by decide
  ⟨⟨htype, hnan⟩,
    onAddReadingClicked_adds_saved DensityType.DensityReflection F32.one F32.nan F32.zero
      F32.zero blankWindow htype hnan⟩

/-- The reading of the witness for C28 goes to row 0 of the table as `R`, `1.00` and an
empty offset cell. -/
theorem onAddReadingClicked_example :
    (onAddReadingClicked
        (onDensityReading DensityType.DensityReflection F32.one F32.nan F32.zero F32.zero
          blankWindow)).measModel_.take 1
      = [MeasRow.mk (some ['R']) (some ['1', '.', '0', '0']) (some [])] := by
  rfl

end MainWindow

/-! ### The status codes of the gain calibration -/

/-- C29: the numeric codes of `sensor_gain_calibration_status_t` are pairwise distinct;
along the forward order INIT, MEDIUM, HIGH, MAXIMUM, LED, COOLDOWN, DONE they increase
strictly from 0 to 7; FAILED has the code 4, strictly between MAXIMUM and LED, so it
is not the largest code: LED, COOLDOWN and DONE compare greater than FAILED. -/
theorem sensor_gain_calibration_status_codes :
    (∀ a b : sensor_gain_calibration_status_t, a.code = b.code → a = b)
    ∧ sensor_gain_calibration_status_t.SENSOR_GAIN_CALIBRATION_STATUS_INIT.code = 0
    ∧ sensor_gain_calibration_status_t.SENSOR_GAIN_CALIBRATION_STATUS_INIT.code
        < sensor_gain_calibration_status_t.SENSOR_GAIN_CALIBRATION_STATUS_MEDIUM.code
    ∧ sensor_gain_calibration_status_t.SENSOR_GAIN_CALIBRATION_STATUS_MEDIUM.code
        < sensor_gain_calibration_status_t.SENSOR_GAIN_CALIBRATION_STATUS_HIGH.code
    ∧ sensor_gain_calibration_status_t.SENSOR_GAIN_CALIBRATION_STATUS_HIGH.code
        < sensor_gain_calibration_status_t.SENSOR_GAIN_CALIBRATION_STATUS_MAXIMUM.code
    ∧ sensor_gain_calibration_status_t.SENSOR_GAIN_CALIBRATION_STATUS_MAXIMUM.code
        < sensor_gain_calibration_status_t.SENSOR_GAIN_CALIBRATION_STATUS_LED.code
    ∧ sensor_gain_calibration_status_t.SENSOR_GAIN_CALIBRATION_STATUS_LED.code
        < sensor_gain_calibration_status_t.SENSOR_GAIN_CALIBRATION_STATUS_COOLDOWN.code
    ∧ sensor_gain_calibration_status_t.SENSOR_GAIN_CALIBRATION_STATUS_COOLDOWN.code
        < sensor_gain_calibration_status_t.SENSOR_GAIN_CALIBRATION_STATUS_DONE.code
    ∧ sensor_gain_calibration_status_t.SENSOR_GAIN_CALIBRATION_STATUS_DONE.code = 7
    ∧ sensor_gain_calibration_status_t.SENSOR_GAIN_CALIBRATION_STATUS_FAILED.code = 4
    ∧ sensor_gain_calibration_status_t.SENSOR_GAIN_CALIBRATION_STATUS_MAXIMUM.code
        < sensor_gain_calibration_status_t.SENSOR_GAIN_CALIBRATION_STATUS_FAILED.code
    ∧ sensor_gain_calibration_status_t.SENSOR_GAIN_CALIBRATION_STATUS_FAILED.code
        < sensor_gain_calibration_status_t.SENSOR_GAIN_CALIBRATION_STATUS_LED.code
    ∧ (∃ s : sensor_gain_calibration_status_t,
        s ≠ sensor_gain_calibration_status_t.SENSOR_GAIN_CALIBRATION_STATUS_FAILED
        ∧ sensor_gain_calibration_status_t.SENSOR_GAIN_CALIBRATION_STATUS_FAILED.code
            < s.code) := by
  refine ⟨?_, by decide, by decide, by decide, by decide, by decide, by decide, by decide,
    by decide, by decide, by decide, by decide,
    ⟨sensor_gain_calibration_status_t.SENSOR_GAIN_CALIBRATION_STATUS_DONE, by decide,
      by decide⟩⟩
  intro a b h
  cases a <;> cases b <;> first | rfl | exact absurd h (by decide)
